import Mathlib

/-!
# cpufreq_neox: a shallow embedding of `drivers/cpufreq/cpufreq_neox.c`

The governor is embedded as pure functions over an explicit `State`.

* `unsigned int` values are natural numbers reduced modulo `2^32` after every
  arithmetic operation (`u32`, `sub32`); `u64` counters are reduced modulo `2^64`.
  `unsigned long` is 32 bits wide (the ARM targets this governor is built for).
* The per-CPU variable `od_cpu_dbs_info` is a function from CPU numbers to
  records; policy objects live in a store indexed by their address, so that the
  aliasing between the event argument and `cur_policy` is preserved.
* Code whose behaviour is undefined (a `NULL` `cur_policy`, a division by zero)
  returns `none`.
* `dbs_check_cpu` is the sampling loop (`dbs_sample`) followed by the decision
  (`dbs_check_cpu_decide`), which also reports the block it was left in.
* What the file calls but does not define (the frequency driver, the counter
  source, tick conversion, sysfs) is taken from `Config` (build constants) and
  `Env` (what the outside world answers during one call).
* The early-suspend hooks (`CONFIG_HAS_EARLYSUSPEND`) are not embedded.
-/

namespace Neox

/-! ## Machine arithmetic -/

/-- Number of values of an `unsigned int`, 2^32. -/
def U32 : Nat := 4294967296

/-- Number of values of a `u64`, 2^64. -/
def U64 : Nat := 18446744073709551616

/-- Truncation to `unsigned int`. -/
def u32 (n : Nat) : Nat := n % U32

/-- Subtraction of `unsigned int` values, wrapping modulo 2^32. -/
def sub32 (a b : Nat) : Nat := (a % U32 + U32 - b % U32) % U32

/-- Subtraction of `u64` values, wrapping modulo 2^64. -/
def sub64 (a b : Nat) : Nat := (a % U64 + U64 - b % U64) % U64

/-- Conversion of an `int` to `unsigned int`. -/
def int_to_u32 (i : Int) : Nat := (i % 4294967296).toNat

/-- Unsigned division `a / b` of C; it faults when the divisor is zero. -/
def udiv (a b : Nat) : Option Nat := if b = 0 then none else some (a / b)

/-! ## Constants of the file -/

def DEF_SAMPLING_DOWN_FACTOR : Nat := 1
def MAX_SAMPLING_DOWN_FACTOR : Nat := 100000
def DEF_FREQUENCY_DOWN_DIFFERENTIAL : Nat := 5
def DEF_FREQUENCY_UP_THRESHOLD : Nat := 82
def DEF_FREQUENCY_MIN_SAMPLE_RATE : Nat := 10000
def MIN_FREQUENCY_UP_THRESHOLD : Nat := 11
def MAX_FREQUENCY_UP_THRESHOLD : Nat := 100
def DEF_SAMPLING_RATE : Nat := 50000
def MIN_SAMPLING_RATE : Nat := 10000
def DEF_FREQ_STEP : Nat := 37
def DEF_START_DELAY : Nat := 0
def UP_THRESHOLD_AT_MIN_FREQ : Nat := 40
def FREQ_FOR_RESPONSIVENESS : Nat := 400000

/-- The error code `EINVAL` of the kernel; the file returns `-EINVAL`. -/
def EINVAL : Int := 22

/-! ## Data model -/

/-- Modelled from the spec: the relation argument of the driver's set-frequency
operation, declared in the cpufreq header that is not part of the sources.
`CPUFREQ_RELATION_L` asks for the lowest frequency at or above the target
("at-least"), `CPUFREQ_RELATION_H` for the highest frequency at or below the
target ("at-most"). -/
inductive Relation where
  | CPUFREQ_RELATION_L
  | CPUFREQ_RELATION_H
  deriving DecidableEq, Repr

/-- The fields of `struct cpufreq_policy` the governor reads. `cpus` is the
policy's CPU mask, listed in the order `for_each_cpu` visits it. -/
structure cpufreq_policy where
  cpu : Nat
  cpus : List Nat
  min : Nat
  max : Nat
  cur : Nat
  cpuinfo_max_freq : Nat
  deriving DecidableEq, Repr

/-- The global `dbs_tuners_ins`. -/
structure dbs_tuners where
  sampling_rate : Nat
  up_threshold : Nat
  down_differential : Nat
  ignore_nice : Nat
  sampling_down_factor : Nat
  freq_step : Nat
  max_freq : Nat
  min_freq : Nat
  up_threshold_at_min_freq : Nat
  freq_for_responsiveness : Nat
  deriving DecidableEq, Repr

/-- A pending `delayed_work`: the CPU it was queued on and its delay in ticks. -/
structure delayed_work where
  cpu : Nat
  delay : Nat
  deriving DecidableEq, Repr

/-- The per-CPU record `struct cpu_dbs_info_s`. `cur_policy` is the address of a
policy object (`none` is `NULL`); `work` is `none` while no work is queued. -/
structure cpu_dbs_info_s where
  prev_cpu_idle : Nat
  prev_cpu_wall : Nat
  prev_cpu_wall_delta : Nat
  prev_cpu_nice : Nat
  cur_policy : Option Nat
  work : Option delayed_work
  rate_mult : Nat
  cpu : Nat
  deriving DecidableEq, Repr

/-- One call of the driver's set-frequency operation: the policy object it was
called on, the target frequency and the relation. -/
structure Request where
  policy : Nat
  freq : Nat
  relation : Relation
  deriving DecidableEq, Repr

/-- The mutable state the governor works on: its own globals, the policy
objects it is handed, and two logs of what it asked of the outside
(`requests`: calls of the driver's set-frequency operation, oldest first;
`utilization`: calls of `cpufreq_notify_utilization`). -/
structure State where
  min_sampling_rate : Nat
  dbs_enable : Nat
  dbs_tuners_ins : dbs_tuners
  od_cpu_dbs_info : Nat → cpu_dbs_info_s
  policies : Nat → cpufreq_policy
  sysfs_group : Bool
  requests : List Request
  utilization : List (Nat × Nat)

/-- Build-time configuration: the architecture switch that compiles the two
early exits out, and the kernel's unit conversions. -/
structure Config where
  arch_exynos : Bool
  usecs_to_jiffies : Nat → Nat
  jiffies_to_usecs : Nat → Nat
  cputime64_to_jiffies64 : Nat → Nat

/-- What the outside world answers during one call into the governor.
`driver_target p freq rel` is the driver's reaction to a set-frequency request:
the frequency `p.cur` holds afterwards and the return code. -/
structure Env where
  get_cpu_idle_time : Nat → Nat × Nat
  cpustat_nice : Nat → Nat
  driver_getavg : cpufreq_policy → Nat → Int
  driver_target : cpufreq_policy → Nat → Relation → Nat × Int
  jiffies : Nat
  num_online_cpus : Nat
  online_cpus : List Nat
  sysfs_create_group : Int

/-- The static initialiser of `dbs_tuners_ins`; fields it does not name are zero. -/
def dbs_tuners_init : dbs_tuners :=
  { sampling_rate := 0
    up_threshold := DEF_FREQUENCY_UP_THRESHOLD
    down_differential := DEF_FREQUENCY_DOWN_DIFFERENTIAL
    ignore_nice := 0
    sampling_down_factor := DEF_SAMPLING_DOWN_FACTOR
    freq_step := DEF_FREQ_STEP
    max_freq := 0
    min_freq := 0
    up_threshold_at_min_freq := UP_THRESHOLD_AT_MIN_FREQ
    freq_for_responsiveness := FREQ_FOR_RESPONSIVENESS }

/-- A zero-initialised per-CPU record. -/
def cpu_dbs_info_zero : cpu_dbs_info_s :=
  { prev_cpu_idle := 0, prev_cpu_wall := 0, prev_cpu_wall_delta := 0, prev_cpu_nice := 0
    cur_policy := none, work := none, rate_mult := 0, cpu := 0 }

/-- The state when the module has been loaded: the governor's globals hold their
static initialisers; the policy objects are whatever the host has. -/
def init_state (policies : Nat → cpufreq_policy) : State :=
  { min_sampling_rate := 0
    dbs_enable := 0
    dbs_tuners_ins := dbs_tuners_init
    od_cpu_dbs_info := fun _ => cpu_dbs_info_zero
    policies := policies
    sysfs_group := false
    requests := []
    utilization := [] }

/-- Replace the per-CPU record of CPU `j`. -/
def set_info (s : State) (j : Nat) (i : cpu_dbs_info_s) : State :=
  { s with od_cpu_dbs_info := Function.update s.od_cpu_dbs_info j i }

/-- The assignment `dbs_info->rate_mult = v` on the record of CPU `j`. -/
def set_rate_mult (s : State) (j : Nat) (v : Nat) : State :=
  set_info s j { s.od_cpu_dbs_info j with rate_mult := v }

/-- Modelled from the spec: the Frequency Driver's set-frequency operation
(`__cpufreq_driver_target`, defined outside the sources). The call is appended
to `requests`, and the policy's `cur` becomes what the driver reports. -/
def cpufreq_driver_target (env : Env) (s : State) (pid : Nat) (freq : Nat)
    (rel : Relation) : State :=
  { s with
    policies := Function.update s.policies pid
      { s.policies pid with cur := (env.driver_target (s.policies pid) freq rel).1 }
    requests := s.requests ++ [{ policy := pid, freq := freq, relation := rel }] }

/-- Modelled from the spec: `cpufreq_notify_utilization`, the informational
callback; the call is appended to `utilization`. -/
def cpufreq_notify_utilization (s : State) (pid : Nat) (util : Nat) : State :=
  { s with utilization := s.utilization ++ [(pid, util)] }

/-! ## sysfs interface

Each `store_*` takes what `sscanf(buf, "%u", &input)` parsed (`none` when it did
not return 1) and the byte count, and gives the return value with the new state. -/

/-- The sysfs write `store_sampling_rate`: the input is raised to the floor. -/
def store_sampling_rate (s : State) (parsed : Option Nat) (count : Nat) : Int × State :=
  match parsed with
  | none => (-EINVAL, s)
  | some input =>
    (count, { s with dbs_tuners_ins :=
      { s.dbs_tuners_ins with sampling_rate := max input s.min_sampling_rate } })

/-- The sysfs write `store_up_threshold`: inputs outside `[11, 100]` are rejected. -/
def store_up_threshold (s : State) (parsed : Option Nat) (count : Nat) : Int × State :=
  match parsed with
  | none => (-EINVAL, s)
  | some input =>
    if input > MAX_FREQUENCY_UP_THRESHOLD ∨ input < MIN_FREQUENCY_UP_THRESHOLD then
      (-EINVAL, s)
    else
      (count, { s with dbs_tuners_ins := { s.dbs_tuners_ins with up_threshold := input } })

/-- The sysfs write `store_sampling_down_factor`: inputs outside `[1, 100000]` are
rejected; an accepted write resets `rate_mult` on every online CPU. -/
def store_sampling_down_factor (env : Env) (s : State) (parsed : Option Nat)
    (count : Nat) : Int × State :=
  match parsed with
  | none => (-EINVAL, s)
  | some input =>
    if input > MAX_SAMPLING_DOWN_FACTOR ∨ input < 1 then
      (-EINVAL, s)
    else
      let s1 : State :=
        { s with dbs_tuners_ins := { s.dbs_tuners_ins with sampling_down_factor := input } }
      -- Reset down sampling multiplier in case it was active
      (count, env.online_cpus.foldl (fun st j => set_rate_mult st j 1) s1)

/-- The sysfs write `store_ignore_nice_load`: the input is capped at 1; a change
re-reads the counters of every online CPU. -/
def store_ignore_nice_load (env : Env) (s : State) (parsed : Option Nat)
    (count : Nat) : Int × State :=
  match parsed with
  | none => (-EINVAL, s)
  | some input0 =>
    let input := if input0 > 1 then 1 else input0
    if input = s.dbs_tuners_ins.ignore_nice then
      (count, s)
    else
      let s1 : State :=
        { s with dbs_tuners_ins := { s.dbs_tuners_ins with ignore_nice := input } }
      -- we need to re-evaluate prev_cpu_idle
      (count, env.online_cpus.foldl (fun st j =>
        let i := st.od_cpu_dbs_info j
        let i1 := { i with prev_cpu_idle := (env.get_cpu_idle_time j).1
                           prev_cpu_wall := (env.get_cpu_idle_time j).2 }
        set_info st j
          (if st.dbs_tuners_ins.ignore_nice ≠ 0 then
            { i1 with prev_cpu_nice := env.cpustat_nice j }
          else i1)) s1)

/-- The sysfs write `store_down_differential`: the input is capped at 100. -/
def store_down_differential (s : State) (parsed : Option Nat) (count : Nat) : Int × State :=
  match parsed with
  | none => (-EINVAL, s)
  | some input =>
    (count, { s with dbs_tuners_ins :=
      { s.dbs_tuners_ins with down_differential := min input 100 } })

/-- The sysfs write `store_freq_step`: the input is capped at 100. -/
def store_freq_step (s : State) (parsed : Option Nat) (count : Nat) : Int × State :=
  match parsed with
  | none => (-EINVAL, s)
  | some input =>
    (count, { s with dbs_tuners_ins := { s.dbs_tuners_ins with freq_step := min input 100 } })

/-- The sysfs write `store_up_threshold_at_min_freq`: inputs outside `[11, 100]` are
rejected. -/
def store_up_threshold_at_min_freq (s : State) (parsed : Option Nat)
    (count : Nat) : Int × State :=
  match parsed with
  | none => (-EINVAL, s)
  | some input =>
    if input > MAX_FREQUENCY_UP_THRESHOLD ∨ input < MIN_FREQUENCY_UP_THRESHOLD then
      (-EINVAL, s)
    else
      (count, { s with dbs_tuners_ins :=
        { s.dbs_tuners_ins with up_threshold_at_min_freq := input } })

/-- The sysfs write `store_freq_for_responsiveness`: any input is stored. -/
def store_freq_for_responsiveness (s : State) (parsed : Option Nat)
    (count : Nat) : Int × State :=
  match parsed with
  | none => (-EINVAL, s)
  | some input =>
    (count, { s with dbs_tuners_ins :=
      { s.dbs_tuners_ins with freq_for_responsiveness := input } })

/-! ## The sampling cycle -/

/-- The function `dbs_freq_increase`: the early exit at `p->cur == p->max` is compiled only
when neither Exynos architecture is configured. -/
def dbs_freq_increase (cfg : Config) (env : Env) (s : State) (pid : Nat) (freq : Nat) : State :=
  if cfg.arch_exynos = false ∧ (s.policies pid).cur = (s.policies pid).max then
    s
  else
    cpufreq_driver_target env s pid freq Relation.CPUFREQ_RELATION_L

/-- The deep-sleep test of the sampling loop of `dbs_check_cpu`, on the smoothed
slice length before its update and the new slice length
(`deep_sleep_factor` is 5). -/
def deep_sleep_detected (prev_cpu_wall_delta wall_time : Nat) : Bool :=
  decide (prev_cpu_wall_delta > u32 (wall_time * 5)) ||
    decide (u32 (prev_cpu_wall_delta * 5) < wall_time)

/-- The update of the smoothed slice length in the sampling loop of
`dbs_check_cpu` (`deep_sleep_backoff` is 10). -/
def next_wall_delta (prev_cpu_wall_delta wall_time : Nat) : Nat :=
  u32 (prev_cpu_wall_delta * 10 + wall_time) / (10 + 1)

/-- The value of the expression `100 * (wall_time - idle_time) / wall_time` of
`dbs_check_cpu`, in `unsigned int` arithmetic, for `wall_time ≠ 0`; the loop
`dbs_sample_cpu` faults where it would evaluate it with `wall_time = 0`. -/
def cur_load_of (wall_time idle_time : Nat) : Nat :=
  u32 (100 * sub32 wall_time idle_time) / wall_time

/-- The values the sampling loop of `dbs_check_cpu` carries from one CPU to the
next. -/
structure SampleAcc where
  s : State
  max_load_freq : Nat
  load_at_max_freq : Nat

/-- What the first half of an iteration of the sampling loop of `dbs_check_cpu`
produces: the updated per-CPU record, the slice length `wall_time`, the idle
time `idle_time` (with the nice time added when `ignore_nice` is set) and the
deep-sleep flag. -/
structure SampleRead where
  info : cpu_dbs_info_s
  wall_time : Nat
  idle_time : Nat
  deep_sleep : Bool

/-- The first half of an iteration of the loop `for_each_cpu(j, policy->cpus)` of
`dbs_check_cpu`, from the read of the counters to the nice-time correction, on
the record `j_dbs_info` of CPU `j`. -/
def dbs_sample_read (cfg : Config) (env : Env) (ignore_nice : Nat)
    (j_dbs_info : cpu_dbs_info_s) (j : Nat) : SampleRead :=
  let cur_idle_time := (env.get_cpu_idle_time j).1
  let cur_wall_time := (env.get_cpu_idle_time j).2
  let wall_time := u32 (sub64 cur_wall_time j_dbs_info.prev_cpu_wall)
  let deep_sleep := deep_sleep_detected j_dbs_info.prev_cpu_wall_delta wall_time
  let idle_time0 := u32 (sub64 cur_idle_time j_dbs_info.prev_cpu_idle)
  let info1 : cpu_dbs_info_s :=
    { j_dbs_info with
      prev_cpu_wall := cur_wall_time
      prev_cpu_wall_delta := next_wall_delta j_dbs_info.prev_cpu_wall_delta wall_time
      prev_cpu_idle := cur_idle_time }
  let cur_nice_jiffies :=
    u32 (cfg.cputime64_to_jiffies64 (sub64 (env.cpustat_nice j) j_dbs_info.prev_cpu_nice))
  if ignore_nice ≠ 0 then
    { info := { info1 with prev_cpu_nice := env.cpustat_nice j }
      wall_time := wall_time
      idle_time := u32 (idle_time0 + cfg.jiffies_to_usecs cur_nice_jiffies)
      deep_sleep := deep_sleep }
  else
    { info := info1, wall_time := wall_time, idle_time := idle_time0, deep_sleep := deep_sleep }

/-- One iteration of the loop `for_each_cpu(j, policy->cpus)` of `dbs_check_cpu`.
Both divisions of the loop body, by `wall_time` and by `policy->cpuinfo.max_freq`,
are a fault (`none`) when the divisor is 0. -/
def dbs_sample_cpu (cfg : Config) (env : Env) (pid : Nat) (acc : SampleAcc)
    (j : Nat) : Option SampleAcc :=
  let policy := acc.s.policies pid
  let r := dbs_sample_read cfg env acc.s.dbs_tuners_ins.ignore_nice (acc.s.od_cpu_dbs_info j) j
  let s1 := set_info acc.s j r.info
  if r.deep_sleep = true then
    some { acc with s := s1 }
  else if r.wall_time = 0 ∨ r.wall_time < r.idle_time then
    some { acc with s := s1 }
  else
    -- `cur_load = 100 * (wall_time - idle_time) / wall_time` divides by `wall_time`
    match (if r.wall_time = 0 then none else some (cur_load_of r.wall_time r.idle_time)) with
    | none => none
    | some cur_load =>
      let freq_avg0 := env.driver_getavg policy j
      let freq_avg := if freq_avg0 ≤ 0 then policy.cur else int_to_u32 freq_avg0
      let load_freq := u32 (cur_load * freq_avg)
      let max_load_freq := if load_freq > acc.max_load_freq then load_freq else acc.max_load_freq
      -- calculate the scaled load across CPU
      match udiv (u32 (cur_load * policy.cur)) policy.cpuinfo_max_freq with
      | none => none
      | some q =>
        let load_at_max_freq := u32 (acc.load_at_max_freq + q)
        some { s := cpufreq_notify_utilization s1 pid load_at_max_freq
               max_load_freq := max_load_freq
               load_at_max_freq := load_at_max_freq }

/-- The whole loop `for_each_cpu(j, policy->cpus)` of `dbs_check_cpu`, started
with `max_load_freq = 0` and `load_at_max_freq = 0`. -/
def dbs_sample (cfg : Config) (env : Env) (s : State) (pid : Nat) : Option SampleAcc :=
  (s.policies pid).cpus.foldlM (dbs_sample_cpu cfg env pid)
    { s := s, max_load_freq := 0, load_at_max_freq := 0 }

/-- The point at which the decision part of `dbs_check_cpu` is left: the raise
block, the early exit at `policy->cur == policy->min`, the lowering block, or the
end of the function with neither block entered. -/
inductive Branch where
  | raise
  | hold_min
  | lower
  | hold
  deriving DecidableEq, Repr

/-- The candidate `freq_next` of the lowering block of `dbs_check_cpu`, from the
division by `up_threshold - down_differential` to the responsiveness override.
It faults when a divisor is zero; the second division is only evaluated when
`freq_next < freq_for_responsiveness`. -/
def lower_freq_next (t : dbs_tuners) (policy_min : Nat) (max_load_freq : Nat) : Option Nat :=
  match udiv max_load_freq (sub32 t.up_threshold t.down_differential) with
  | none => none
  | some freq_next0 =>
    let freq_next := if freq_next0 < policy_min then policy_min else freq_next0
    let down_thres := sub32 t.up_threshold_at_min_freq t.down_differential
    if freq_next < t.freq_for_responsiveness then
      match udiv max_load_freq freq_next with
      | none => none
      | some q => some (if q > down_thres then t.freq_for_responsiveness else freq_next)
    else
      some freq_next

/-- The decision part of `dbs_check_cpu` (from "Check for frequency increase" to
the end), for the record of CPU `this_cpu`, its policy object `pid`, and the
aggregated load `max_load_freq`. The first component names where the function
was left. -/
def dbs_check_cpu_decide (cfg : Config) (env : Env) (s : State) (this_cpu : Nat) (pid : Nat)
    (max_load_freq : Nat) : Option (Branch × State) :=
  let policy := s.policies pid
  let t := s.dbs_tuners_ins
  -- Check for frequency increase
  let up_threshold :=
    if policy.cur < t.freq_for_responsiveness then t.up_threshold_at_min_freq
    else t.up_threshold
  if max_load_freq > u32 (up_threshold * policy.cur) then
    let inc := u32 (policy.max * t.freq_step) / 100
    let target := min policy.max (u32 (policy.cur + inc))
    -- If switching to max speed, apply sampling_down_factor
    let s1 :=
      if policy.cur < policy.max ∧ target = policy.max then
        set_rate_mult s this_cpu t.sampling_down_factor
      else s
    some (Branch.raise, dbs_freq_increase cfg env s1 pid target)
  -- Check for frequency decrease
  else if cfg.arch_exynos = false ∧ policy.cur = policy.min then
    -- if we cannot reduce the frequency anymore, break out early
    some (Branch.hold_min, s)
  else if max_load_freq < u32 (sub32 t.up_threshold t.down_differential * policy.cur) then
    match lower_freq_next t policy.min max_load_freq with
    | none => none
    | some freq_next =>
      -- No longer fully busy, reset rate_mult
      let s1 := set_rate_mult s this_cpu 1
      if policy.cur = freq_next then
        some (Branch.lower, s1)
      else
        some (Branch.lower,
          cpufreq_driver_target env s1 pid freq_next Relation.CPUFREQ_RELATION_L)
  else
    some (Branch.hold, s)

/-- The function `dbs_check_cpu` on the per-CPU record of CPU `this_cpu`: the sampling loop
over the CPUs of `this_dbs_info->cur_policy`, then the decision. -/
def dbs_check_cpu (cfg : Config) (env : Env) (s : State) (this_cpu : Nat) : Option State :=
  match (s.od_cpu_dbs_info this_cpu).cur_policy with
  | none => none
  | some pid =>
    match dbs_sample cfg env s pid with
    | none => none
    | some acc =>
      match dbs_check_cpu_decide cfg env acc.s this_cpu pid acc.max_load_freq with
      | none => none
      | some r => some r.2

/-! ## The per-CPU timer -/

/-- The phase alignment shared by `do_dbs_timer` and `dbs_timer_init`:
`if (num_online_cpus() > 1) delay -= jiffies % delay;`. -/
def align_delay (env : Env) (delay : Nat) : Option Nat :=
  if env.num_online_cpus > 1 then
    match (if delay = 0 then none else some (u32 env.jiffies % delay)) with
    | none => none
    | some r => some (sub32 delay r)
  else
    some delay

/-- The interval `usecs_to_jiffies(sampling_rate * rate_mult)` that `do_dbs_timer`
computes for the record of CPU `cpu`, before phase alignment. -/
def dbs_interval (cfg : Config) (s : State) (cpu : Nat) : Nat :=
  u32 (cfg.usecs_to_jiffies
    (u32 (s.dbs_tuners_ins.sampling_rate * (s.od_cpu_dbs_info cpu).rate_mult)))

/-- The call `schedule_delayed_work_on(cpu, &dbs_info->work, delay)` for the record of
CPU `idx`. -/
def schedule_delayed_work_on (s : State) (idx : Nat) (cpu : Nat) (delay : Nat) : State :=
  set_info s idx { s.od_cpu_dbs_info idx with work := some { cpu := cpu, delay := delay } }

/-- The function `do_dbs_timer`, run for the work item embedded in the record of CPU `idx`. -/
def do_dbs_timer (cfg : Config) (env : Env) (s : State) (idx : Nat) : Option State :=
  let cpu := (s.od_cpu_dbs_info idx).cpu
  match dbs_check_cpu cfg env s idx with
  | none => none
  | some s1 =>
    -- We want all CPUs to do sampling nearly on same jiffy
    match align_delay env (dbs_interval cfg s1 idx) with
    | none => none
    | some delay => some (schedule_delayed_work_on s1 idx cpu delay)

/-- The function `dbs_timer_init` for the record of CPU `idx`. -/
def dbs_timer_init (cfg : Config) (env : Env) (s : State) (idx : Nat) : Option State :=
  let delay0 := u32 (cfg.usecs_to_jiffies
    (u32 (DEF_START_DELAY * 1000 * 1000 + s.dbs_tuners_ins.sampling_rate)))
  match align_delay env delay0 with
  | none => none
  | some delay => some (schedule_delayed_work_on s idx (s.od_cpu_dbs_info idx).cpu delay)

/-- The function `dbs_timer_exit`: the queued work is cancelled. -/
def dbs_timer_exit (s : State) (idx : Nat) : State :=
  set_info s idx { s.od_cpu_dbs_info idx with work := none }

/-! ## Governor events -/

/-- The governor events the file handles. -/
inductive Event where
  | CPUFREQ_GOV_START
  | CPUFREQ_GOV_STOP
  | CPUFREQ_GOV_LIMITS
  deriving DecidableEq, Repr

/-- The loop `for_each_cpu(j, policy->cpus)` of `CPUFREQ_GOV_START`. -/
def start_init_cpus (env : Env) (s : State) (pid : Nat) : State :=
  (s.policies pid).cpus.foldl (fun st j =>
    let i := st.od_cpu_dbs_info j
    let i1 := { i with cur_policy := some pid
                       prev_cpu_idle := (env.get_cpu_idle_time j).1
                       prev_cpu_wall := (env.get_cpu_idle_time j).2 }
    set_info st j
      (if st.dbs_tuners_ins.ignore_nice ≠ 0 then
        { i1 with prev_cpu_nice := env.cpustat_nice j }
      else i1)) s

/-- The function `cpufreq_governor_dbs(policy, event)`, with `pid` the address of `policy`.
The result is the return value and the new state, or `none` on a fault. -/
def cpufreq_governor_dbs (cfg : Config) (env : Env) (s : State) (pid : Nat)
    (event : Event) : Option (Int × State) :=
  let policy := s.policies pid
  let cpu := policy.cpu
  match event with
  | Event.CPUFREQ_GOV_START =>
    if policy.cur = 0 then
      some (-EINVAL, s)
    else
      let s1 : State :=
        { s with dbs_tuners_ins :=
            { s.dbs_tuners_ins with max_freq := policy.max, min_freq := policy.min } }
      let s2 : State := { s1 with dbs_enable := u32 (s1.dbs_enable + 1) }
      let s3 := start_init_cpus env s2 pid
      let s4 := set_info s3 cpu { s3.od_cpu_dbs_info cpu with cpu := cpu, rate_mult := 1 }
      -- Start the timerschedule work, when this governor is used for first time
      if s4.dbs_enable = 1 then
        if env.sysfs_create_group ≠ 0 then
          some (env.sysfs_create_group, s4)
        else
          let s5 : State :=
            { s4 with
              sysfs_group := true
              min_sampling_rate := MIN_SAMPLING_RATE
              dbs_tuners_ins := { s4.dbs_tuners_ins with sampling_rate := DEF_SAMPLING_RATE } }
          match dbs_timer_init cfg env s5 cpu with
          | none => none
          | some s6 => some (0, s6)
      else
        match dbs_timer_init cfg env s4 cpu with
        | none => none
        | some s6 => some (0, s6)
  | Event.CPUFREQ_GOV_STOP =>
    let s1 := dbs_timer_exit s cpu
    let s2 : State := { s1 with dbs_enable := sub32 s1.dbs_enable 1 }
    if s2.dbs_enable = 0 then
      some (0, { s2 with sysfs_group := false })
    else
      some (0, s2)
  | Event.CPUFREQ_GOV_LIMITS =>
    match (s.od_cpu_dbs_info cpu).cur_policy with
    | none => none
    | some cur_policy =>
      let s1 :=
        if policy.max < (s.policies cur_policy).cur then
          cpufreq_driver_target env s cur_policy policy.max Relation.CPUFREQ_RELATION_H
        else if policy.min > (s.policies cur_policy).cur then
          cpufreq_driver_target env s cur_policy policy.min Relation.CPUFREQ_RELATION_L
        else s
      match dbs_check_cpu cfg env s1 cpu with
      | none => none
      | some s2 => some (0, s2)

/-! ## Concrete configurations used to evaluate the embedding -/

/-- A build with `HZ = 200`; `exynos` chooses whether the two early exits are
compiled out. -/
def ex_cfg (exynos : Bool) : Config :=
  { arch_exynos := exynos
    usecs_to_jiffies := fun u => (u + 4999) / 5000
    jiffies_to_usecs := fun j => j * 5000
    cputime64_to_jiffies64 := fun c => c }

/-- An outside world with given counter reads in which the driver always reaches
the requested frequency and reports success, and no average-frequency estimate
is available. -/
def ex_env (counters : Nat → Nat × Nat) : Env :=
  { get_cpu_idle_time := counters
    cpustat_nice := fun _ => 0
    driver_getavg := fun _ _ => 0
    driver_target := fun _ freq _ => (freq, 0)
    jiffies := 0
    num_online_cpus := 1
    online_cpus := [0]
    sysfs_create_group := 0 }

/-- A policy registered on CPU 0 with CPU set `{0}`. -/
def ex_policy (cur min max : Nat) : cpufreq_policy :=
  { cpu := 0, cpus := [0], min := min, max := max, cur := cur, cpuinfo_max_freq := max }

/-- The tunables after first activation: the static initialiser with the default
sampling rate. -/
def ex_tuners : dbs_tuners := { dbs_tuners_init with sampling_rate := DEF_SAMPLING_RATE }

/-- A state with tunables `t` in which every policy address holds `p` and the
record of CPU 0 points at policy object 0. -/
def ex_state (t : dbs_tuners) (p : cpufreq_policy) : State :=
  { init_state (fun _ => p) with
    dbs_tuners_ins := t
    od_cpu_dbs_info := fun _ => { cpu_dbs_info_zero with cur_policy := some 0, rate_mult := 1 } }

/-! ## Definitions used to state the properties -/

/-- The lowering candidate in the words of the specification: the load divided
by `up_threshold - down_differential` (truncating), raised to `policy.min` if
below it, then replaced by `freq_for_responsiveness` if it is below
`freq_for_responsiveness` and `load / candidate` exceeds
`up_threshold_at_min_freq - down_differential`. The two differences are
`unsigned int` differences. -/
def spec_lower_candidate (t : dbs_tuners) (policy_min L : Nat) : Nat :=
  let c := max (L / sub32 t.up_threshold t.down_differential) policy_min
  if c < t.freq_for_responsiveness ∧
      L / c > sub32 t.up_threshold_at_min_freq t.down_differential then
    t.freq_for_responsiveness
  else c

/-- Two consecutive runs of the decision part of `dbs_check_cpu` with the same
load, the second on the state the first one left: the block each run was left
in and the request log after it. -/
def decide_twice (cfg : Config) (env : Env) (s : State) (this_cpu pid L : Nat) :
    Option ((Branch × List Request) × (Branch × List Request)) :=
  match dbs_check_cpu_decide cfg env s this_cpu pid L with
  | none => none
  | some r1 =>
    match dbs_check_cpu_decide cfg env r1.2 this_cpu pid L with
    | none => none
    | some r2 => some ((r1.1, r1.2.requests), (r2.1, r2.2.requests))

/-- The state `cpufreq_governor_dbs` has built in `CPUFREQ_GOV_START` when it
reaches the test `dbs_enable == 1`: `max_freq` and `min_freq` are stored,
`dbs_enable` is incremented, the CPUs of the policy are initialised and the
record of `policy->cpu` has `cpu` set and `rate_mult = 1`. -/
def start_prepared (env : Env) (s : State) (pid : Nat) : State :=
  let policy := s.policies pid
  let s1 : State :=
    { s with dbs_tuners_ins :=
        { s.dbs_tuners_ins with max_freq := policy.max, min_freq := policy.min } }
  let s2 : State := { s1 with dbs_enable := u32 (s1.dbs_enable + 1) }
  let s3 := start_init_cpus env s2 pid
  set_info s3 policy.cpu { s3.od_cpu_dbs_info policy.cpu with cpu := policy.cpu, rate_mult := 1 }

/-- The assignments of the first activation in `CPUFREQ_GOV_START`, after
`sysfs_create_group` has succeeded. -/
def start_first_activation (s : State) : State :=
  { s with
    sysfs_group := true
    min_sampling_rate := MIN_SAMPLING_RATE
    dbs_tuners_ins := { s.dbs_tuners_ins with sampling_rate := DEF_SAMPLING_RATE } }

/-- One write to one of the governor's sysfs files, with any parsed input. -/
inductive StoreStep : State → State → Prop where
  | sampling_rate (s : State) (parsed : Option Nat) (count : Nat) :
      StoreStep s (store_sampling_rate s parsed count).2
  | up_threshold (s : State) (parsed : Option Nat) (count : Nat) :
      StoreStep s (store_up_threshold s parsed count).2
  | sampling_down_factor (s : State) (env : Env) (parsed : Option Nat) (count : Nat) :
      StoreStep s (store_sampling_down_factor env s parsed count).2
  | ignore_nice_load (s : State) (env : Env) (parsed : Option Nat) (count : Nat) :
      StoreStep s (store_ignore_nice_load env s parsed count).2
  | down_differential (s : State) (parsed : Option Nat) (count : Nat) :
      StoreStep s (store_down_differential s parsed count).2
  | freq_step (s : State) (parsed : Option Nat) (count : Nat) :
      StoreStep s (store_freq_step s parsed count).2
  | up_threshold_at_min_freq (s : State) (parsed : Option Nat) (count : Nat) :
      StoreStep s (store_up_threshold_at_min_freq s parsed count).2
  | freq_for_responsiveness (s : State) (parsed : Option Nat) (count : Nat) :
      StoreStep s (store_freq_for_responsiveness s parsed count).2

/-- The states reached from `s0` by finitely many sysfs writes. -/
inductive StoreReachable (s0 : State) : State → Prop where
  | base : StoreReachable s0 s0
  | step {s s' : State} : StoreReachable s0 s → StoreStep s s' → StoreReachable s0 s'

/-- The documented bounds of the tunables. -/
def TunableBounds (s : State) : Prop :=
  (11 ≤ s.dbs_tuners_ins.up_threshold ∧ s.dbs_tuners_ins.up_threshold ≤ 100) ∧
  (11 ≤ s.dbs_tuners_ins.up_threshold_at_min_freq ∧
    s.dbs_tuners_ins.up_threshold_at_min_freq ≤ 100) ∧
  (1 ≤ s.dbs_tuners_ins.sampling_down_factor ∧
    s.dbs_tuners_ins.sampling_down_factor ≤ 100000) ∧
  s.dbs_tuners_ins.down_differential ≤ 100 ∧
  s.dbs_tuners_ins.freq_step ≤ 100 ∧
  s.min_sampling_rate ≤ s.dbs_tuners_ins.sampling_rate

/-- The contribution of CPU `j` to the aggregate in the words of the
specification: nothing when the CPU is skipped (deep-sleep flagged,
`wall_delta = 0`, or `idle_delta > wall_delta`), otherwise
`load_percent * freq_avg` as an `unsigned int`, where `freq_avg` is the driver's
average-frequency estimate, replaced by `policy.cur` when the estimate is `≤ 0`.
The deltas and the deep-sleep flag are those of the CPU's record in `s`. -/
def spec_cpu_load (cfg : Config) (env : Env) (s : State) (pid j : Nat) : Option Nat :=
  let r := dbs_sample_read cfg env s.dbs_tuners_ins.ignore_nice (s.od_cpu_dbs_info j) j
  if r.deep_sleep = true ∨ r.wall_time = 0 ∨ r.idle_time > r.wall_time then
    none
  else
    let estimate := env.driver_getavg (s.policies pid) j
    let freq_avg := if estimate ≤ 0 then (s.policies pid).cur else int_to_u32 estimate
    some (u32 (cur_load_of r.wall_time r.idle_time * freq_avg))

/-- The aggregated load in the words of the specification: the maximum of the
contributions of the CPUs of the policy's set that are not skipped, and 0 when
every CPU is skipped. -/
def spec_max_load (cfg : Config) (env : Env) (s : State) (pid : Nat) : Nat :=
  ((s.policies pid).cpus.filterMap (spec_cpu_load cfg env s pid)).foldl max 0

/-- A state like `ex_state` in which every CPU's previous slice lasted
100000 us, so that a slice of 100000 us is not flagged as deep sleep. -/
def ex_state_sampled (t : dbs_tuners) (p : cpufreq_policy) : State :=
  { init_state (fun _ => p) with
    dbs_tuners_ins := t
    od_cpu_dbs_info := fun _ =>
      { cpu_dbs_info_zero with cur_policy := some 0, rate_mult := 1, prev_cpu_wall_delta := 100000 } }

/-- A policy registered on CPU 0 with CPU set `{0, 1}`. -/
def ex_policy_two (cur min max : Nat) : cpufreq_policy :=
  { cpu := 0, cpus := [0, 1], min := min, max := max, cur := cur, cpuinfo_max_freq := max }

/-- Counter reads after a slice of 100000 us: CPU 0 was idle for 70000 us of it,
every other CPU for 50000 us. -/
def ex_counters_two (j : Nat) : Nat × Nat :=
  if j = 0 then (70000, 100000) else (50000, 100000)

/-- An outside world like `ex_env` at tick `now`, with CPUs 0 and 1 online. -/
def ex_env_two (counters : Nat → Nat × Nat) (now : Nat) : Env :=
  { ex_env counters with jiffies := now, num_online_cpus := 2, online_cpus := [0, 1] }

/-- The state after Start at module load for a policy `cur = min = 700000`,
`max = 1000000`, with two CPUs online and all counters at 0. -/
def ex_wrap_started : State :=
  match cpufreq_governor_dbs (ex_cfg false) (ex_env_two (fun _ => (0, 0)) 0)
      (init_state fun _ => ex_policy 700000 700000 1000000) 0 Event.CPUFREQ_GOV_START with
  | some r => r.2
  | none => init_state fun _ => ex_policy 700000 700000 1000000

/-- The state `ex_wrap_started` after writing 65536 to `sampling_down_factor` and
then 65536 to `sampling_rate`. -/
def ex_wrap_tuned : State :=
  (store_sampling_rate
    (store_sampling_down_factor (ex_env_two (fun _ => (0, 0)) 0) ex_wrap_started
      (some 65536) 5).2 (some 65536) 5).2

/-- The state `ex_wrap_tuned` after a first run of the timer work at tick 14, the
wall clock at 110000 us and no idle time. -/
def ex_wrap_sampled : State :=
  match do_dbs_timer (ex_cfg false) (ex_env_two (fun _ => (0, 110000)) 14) ex_wrap_tuned 0 with
  | some s => s
  | none => ex_wrap_tuned

/-- The state after a Start at module load that failed in `sysfs_create_group`
with `-12`, for a policy `cur = 700000`. -/
def ex_failed_start : State :=
  match cpufreq_governor_dbs (ex_cfg false)
      { ex_env (fun _ => (0, 0)) with sysfs_create_group := -12 }
      (init_state fun _ => ex_policy 700000 100000 1000000) 0 Event.CPUFREQ_GOV_START with
  | some r => r.2
  | none => init_state fun _ => ex_policy 700000 100000 1000000

/-! ## Reachable states -/

/-- One transition of the governor's state: a governor event for some policy, a
run of the timer work of a CPU whose work is queued, a bare sampling cycle, a
write to one of the sysfs files, or the host changing its policy objects. The
outside world may answer differently at every transition. -/
inductive Step (cfg : Config) : State → State → Prop where
  | governor {s s' : State} (env : Env) (pid : Nat) (event : Event) (rc : Int) :
      cpufreq_governor_dbs cfg env s pid event = some (rc, s') → Step cfg s s'
  | timer {s s' : State} (env : Env) (idx : Nat) :
      (s.od_cpu_dbs_info idx).work ≠ none → do_dbs_timer cfg env s idx = some s' →
      Step cfg s s'
  | cycle {s s' : State} (env : Env) (idx : Nat) :
      dbs_check_cpu cfg env s idx = some s' → Step cfg s s'
  | sampling_rate (s : State) (parsed : Option Nat) (count : Nat) :
      Step cfg s (store_sampling_rate s parsed count).2
  | up_threshold (s : State) (parsed : Option Nat) (count : Nat) :
      Step cfg s (store_up_threshold s parsed count).2
  | sampling_down_factor (s : State) (env : Env) (parsed : Option Nat) (count : Nat) :
      Step cfg s (store_sampling_down_factor env s parsed count).2
  | ignore_nice_load (s : State) (env : Env) (parsed : Option Nat) (count : Nat) :
      Step cfg s (store_ignore_nice_load env s parsed count).2
  | down_differential (s : State) (parsed : Option Nat) (count : Nat) :
      Step cfg s (store_down_differential s parsed count).2
  | freq_step (s : State) (parsed : Option Nat) (count : Nat) :
      Step cfg s (store_freq_step s parsed count).2
  | up_threshold_at_min_freq (s : State) (parsed : Option Nat) (count : Nat) :
      Step cfg s (store_up_threshold_at_min_freq s parsed count).2
  | freq_for_responsiveness (s : State) (parsed : Option Nat) (count : Nat) :
      Step cfg s (store_freq_for_responsiveness s parsed count).2
  | host (s : State) (policies : Nat → cpufreq_policy) :
      Step cfg s { s with policies := policies }

/-- The states the governor can be in: those reached from the state at module
load by finitely many transitions. -/
inductive Reachable (cfg : Config) : State → Prop where
  | init (policies : Nat → cpufreq_policy) : Reachable cfg (init_state policies)
  | step {s s' : State} : Reachable cfg s → Step cfg s s' → Reachable cfg s'

/-- The invariant behind the bound on `rate_mult`: `sampling_down_factor` is
between 1 and `MAX_SAMPLING_DOWN_FACTOR`, and so is the `rate_mult` of every CPU
whose work is queued. -/
def RateMultInv (s : State) : Prop :=
  (1 ≤ s.dbs_tuners_ins.sampling_down_factor ∧
    s.dbs_tuners_ins.sampling_down_factor ≤ MAX_SAMPLING_DOWN_FACTOR) ∧
  ∀ idx, (s.od_cpu_dbs_info idx).work ≠ none →
    1 ≤ (s.od_cpu_dbs_info idx).rate_mult ∧
    (s.od_cpu_dbs_info idx).rate_mult ≤ MAX_SAMPLING_DOWN_FACTOR

/-- The second state has the `sampling_down_factor` of the first and, for every
CPU, the same queued work and the same `rate_mult`. -/
def SameSched (s s' : State) : Prop :=
  s'.dbs_tuners_ins.sampling_down_factor = s.dbs_tuners_ins.sampling_down_factor ∧
  ∀ idx, (s'.od_cpu_dbs_info idx).work = (s.od_cpu_dbs_info idx).work ∧
    (s'.od_cpu_dbs_info idx).rate_mult = (s.od_cpu_dbs_info idx).rate_mult

/-! ## Basic facts about the state updates -/

@[simp] theorem set_info_policies (s : State) (j : Nat) (i : cpu_dbs_info_s) :
    (set_info s j i).policies = s.policies := rfl

@[simp] theorem set_info_requests (s : State) (j : Nat) (i : cpu_dbs_info_s) :
    (set_info s j i).requests = s.requests := rfl

@[simp] theorem set_info_tuners (s : State) (j : Nat) (i : cpu_dbs_info_s) :
    (set_info s j i).dbs_tuners_ins = s.dbs_tuners_ins := rfl

@[simp] theorem set_info_same (s : State) (j : Nat) (i : cpu_dbs_info_s) :
    (set_info s j i).od_cpu_dbs_info j = i := by
  simp [set_info]

theorem set_info_other (s : State) (j k : Nat) (i : cpu_dbs_info_s) (h : k ≠ j) :
    (set_info s j i).od_cpu_dbs_info k = s.od_cpu_dbs_info k := by
  simp [set_info, Function.update_noteq h]

@[simp] theorem set_rate_mult_policies (s : State) (j v : Nat) :
    (set_rate_mult s j v).policies = s.policies := rfl

@[simp] theorem set_rate_mult_requests (s : State) (j v : Nat) :
    (set_rate_mult s j v).requests = s.requests := rfl

@[simp] theorem set_rate_mult_tuners (s : State) (j v : Nat) :
    (set_rate_mult s j v).dbs_tuners_ins = s.dbs_tuners_ins := rfl

@[simp] theorem set_rate_mult_same (s : State) (j v : Nat) :
    ((set_rate_mult s j v).od_cpu_dbs_info j).rate_mult = v := by
  simp [set_rate_mult]

@[simp] theorem cpufreq_driver_target_requests (env : Env) (s : State) (pid freq : Nat)
    (rel : Relation) :
    (cpufreq_driver_target env s pid freq rel).requests
      = s.requests ++ [{ policy := pid, freq := freq, relation := rel }] := rfl

@[simp] theorem cpufreq_driver_target_info (env : Env) (s : State) (pid freq : Nat)
    (rel : Relation) :
    (cpufreq_driver_target env s pid freq rel).od_cpu_dbs_info = s.od_cpu_dbs_info := rfl

@[simp] theorem cpufreq_driver_target_tuners (env : Env) (s : State) (pid freq : Nat)
    (rel : Relation) :
    (cpufreq_driver_target env s pid freq rel).dbs_tuners_ins = s.dbs_tuners_ins := rfl

/-! ## Machine arithmetic without overflow -/

theorem u32_of_lt {n : Nat} (h : n < U32) : u32 n = n := Nat.mod_eq_of_lt h

theorem sub32_of_le {a b : Nat} (hab : b ≤ a) (ha : a < U32) : sub32 a b = a - b := by
  unfold sub32 U32 at *
  omega

/-! ## The branches of the decision -/

theorem decide_raise (cfg : Config) (env : Env) (s : State) (this_cpu pid L : Nat)
    (h : L > u32 ((if (s.policies pid).cur < s.dbs_tuners_ins.freq_for_responsiveness
          then s.dbs_tuners_ins.up_threshold_at_min_freq
          else s.dbs_tuners_ins.up_threshold) * (s.policies pid).cur)) :
    ∃ s', dbs_check_cpu_decide cfg env s this_cpu pid L = some (Branch.raise, s') := by
  unfold dbs_check_cpu_decide
  simp only [h, if_true]
  exact ⟨_, rfl⟩

theorem decide_hold_min (cfg : Config) (env : Env) (s : State) (this_cpu pid L : Nat)
    (hno : ¬ L > u32 ((if (s.policies pid).cur < s.dbs_tuners_ins.freq_for_responsiveness
          then s.dbs_tuners_ins.up_threshold_at_min_freq
          else s.dbs_tuners_ins.up_threshold) * (s.policies pid).cur))
    (hhm : cfg.arch_exynos = false ∧ (s.policies pid).cur = (s.policies pid).min) :
    dbs_check_cpu_decide cfg env s this_cpu pid L = some (Branch.hold_min, s) := by
  unfold dbs_check_cpu_decide
  simp only [if_neg hno, if_pos hhm]

theorem decide_hold (cfg : Config) (env : Env) (s : State) (this_cpu pid L : Nat)
    (hno : ¬ L > u32 ((if (s.policies pid).cur < s.dbs_tuners_ins.freq_for_responsiveness
          then s.dbs_tuners_ins.up_threshold_at_min_freq
          else s.dbs_tuners_ins.up_threshold) * (s.policies pid).cur))
    (hhm : ¬ (cfg.arch_exynos = false ∧ (s.policies pid).cur = (s.policies pid).min))
    (hL : ¬ L < u32 (sub32 s.dbs_tuners_ins.up_threshold s.dbs_tuners_ins.down_differential
        * (s.policies pid).cur)) :
    dbs_check_cpu_decide cfg env s this_cpu pid L = some (Branch.hold, s) := by
  unfold dbs_check_cpu_decide
  simp only [if_neg hno, if_neg hhm, if_neg hL]

theorem decide_lower (cfg : Config) (env : Env) (s : State) (this_cpu pid L f : Nat)
    (hno : ¬ L > u32 ((if (s.policies pid).cur < s.dbs_tuners_ins.freq_for_responsiveness
          then s.dbs_tuners_ins.up_threshold_at_min_freq
          else s.dbs_tuners_ins.up_threshold) * (s.policies pid).cur))
    (hhm : ¬ (cfg.arch_exynos = false ∧ (s.policies pid).cur = (s.policies pid).min))
    (hL : L < u32 (sub32 s.dbs_tuners_ins.up_threshold s.dbs_tuners_ins.down_differential
        * (s.policies pid).cur))
    (hf : lower_freq_next s.dbs_tuners_ins (s.policies pid).min L = some f) :
    dbs_check_cpu_decide cfg env s this_cpu pid L =
      some (Branch.lower,
        if (s.policies pid).cur = f then set_rate_mult s this_cpu 1
        else cpufreq_driver_target env (set_rate_mult s this_cpu 1) pid f
          Relation.CPUFREQ_RELATION_L) := by
  unfold dbs_check_cpu_decide
  simp only [if_neg hno, if_neg hhm, if_pos hL, hf]
  split_ifs <;> rfl

/-- The decision issues at most one request, on the policy of the cycle and with
`CPUFREQ_RELATION_L`, and leaves the older requests in place. -/
theorem decide_requests_append (cfg : Config) (env : Env) (s s' : State)
    (this_cpu pid L : Nat) (b : Branch)
    (h : dbs_check_cpu_decide cfg env s this_cpu pid L = some (b, s')) :
    s'.requests = s.requests ∨
    ∃ f, s'.requests = s.requests ++
      [{ policy := pid, freq := f, relation := Relation.CPUFREQ_RELATION_L }] := by
  by_cases h1 : L > u32 ((if (s.policies pid).cur < s.dbs_tuners_ins.freq_for_responsiveness
          then s.dbs_tuners_ins.up_threshold_at_min_freq
          else s.dbs_tuners_ins.up_threshold) * (s.policies pid).cur)
  · unfold dbs_check_cpu_decide at h
    simp only [h1, if_true, Option.some.injEq, Prod.mk.injEq] at h
    obtain ⟨-, rfl⟩ := h
    unfold dbs_freq_increase
    split_ifs <;> simp
  · by_cases h2 : cfg.arch_exynos = false ∧ (s.policies pid).cur = (s.policies pid).min
    · rw [decide_hold_min cfg env s this_cpu pid L h1 h2] at h
      simp only [Option.some.injEq, Prod.mk.injEq] at h
      obtain ⟨-, rfl⟩ := h
      exact Or.inl rfl
    · by_cases h3 : L < u32 (sub32 s.dbs_tuners_ins.up_threshold
          s.dbs_tuners_ins.down_differential * (s.policies pid).cur)
      · cases hf : lower_freq_next s.dbs_tuners_ins (s.policies pid).min L with
        | none =>
          unfold dbs_check_cpu_decide at h
          simp only [if_neg h1, if_neg h2, if_pos h3, hf] at h
          simp at h
        | some f =>
          rw [decide_lower cfg env s this_cpu pid L f h1 h2 h3 hf] at h
          simp only [Option.some.injEq, Prod.mk.injEq] at h
          obtain ⟨-, rfl⟩ := h
          split_ifs <;> simp
      · rw [decide_hold cfg env s this_cpu pid L h1 h2 h3] at h
        simp only [Option.some.injEq, Prod.mk.injEq] at h
        obtain ⟨-, rfl⟩ := h
        exact Or.inl rfl

/-! ## Theorems -/

/-- C1, as stated, fails: with `up_threshold = 82`, `cur = 60000000 < max = 70000000`
and load `700000000` the code takes the raise path, because `82 * cur` wraps to
`625032704` in `unsigned int`, although the load is not above `82 * cur`. -/
theorem raise_decision_wraps :
    (∃ s', dbs_check_cpu_decide (ex_cfg true) (ex_env fun _ => (0, 0))
        (ex_state ex_tuners (ex_policy 60000000 100000 70000000)) 0 0 700000000
        = some (Branch.raise, s')) ∧
    (ex_policy 60000000 100000 70000000).cur < (ex_policy 60000000 100000 70000000).max ∧
    ¬ (700000000 >
        (if (ex_policy 60000000 100000 70000000).cur < ex_tuners.freq_for_responsiveness
          then ex_tuners.up_threshold_at_min_freq else ex_tuners.up_threshold)
        * (ex_policy 60000000 100000 70000000).cur) := by
  refine ⟨⟨_, rfl⟩, by decide, by decide⟩

/-- C1 (amended): for every policy with `cur < max` and every load `L`, the
decision part of `dbs_check_cpu` takes the raise path iff
`L > effective_up_threshold * policy.cur` with the product taken modulo 2^32
(`effective_up_threshold` is `up_threshold_at_min_freq` when
`policy.cur < freq_for_responsiveness` and `up_threshold` otherwise); on that
path the resulting request log is the old one followed by exactly one request,
for `min(policy.max, policy.cur + policy.max * freq_step / 100)` (product and
sum modulo 2^32) with `CPUFREQ_RELATION_L` (at-least), and the function is left
in the raise block, so no lowering is evaluated. -/
theorem dbs_check_cpu_raise_decision (cfg : Config) (env : Env) (s : State)
    (this_cpu pid L : Nat) (hcur : (s.policies pid).cur < (s.policies pid).max) :
    ((∃ s', dbs_check_cpu_decide cfg env s this_cpu pid L = some (Branch.raise, s')) ↔
      L > u32 ((if (s.policies pid).cur < s.dbs_tuners_ins.freq_for_responsiveness
          then s.dbs_tuners_ins.up_threshold_at_min_freq
          else s.dbs_tuners_ins.up_threshold) * (s.policies pid).cur)) ∧
    (L > u32 ((if (s.policies pid).cur < s.dbs_tuners_ins.freq_for_responsiveness
          then s.dbs_tuners_ins.up_threshold_at_min_freq
          else s.dbs_tuners_ins.up_threshold) * (s.policies pid).cur) →
      ∃ s', dbs_check_cpu_decide cfg env s this_cpu pid L = some (Branch.raise, s') ∧
        s'.requests = s.requests ++
          [{ policy := pid
             freq := min (s.policies pid).max
               (u32 ((s.policies pid).cur
                 + u32 ((s.policies pid).max * s.dbs_tuners_ins.freq_step) / 100))
             relation := Relation.CPUFREQ_RELATION_L }]) := by
  have hne : ¬ (cfg.arch_exynos = false ∧
      ((if (s.policies pid).cur < (s.policies pid).max ∧
            min (s.policies pid).max (u32 ((s.policies pid).cur
              + u32 ((s.policies pid).max * s.dbs_tuners_ins.freq_step) / 100))
              = (s.policies pid).max
          then set_rate_mult s this_cpu s.dbs_tuners_ins.sampling_down_factor
          else s).policies pid).cur =
      ((if (s.policies pid).cur < (s.policies pid).max ∧
            min (s.policies pid).max (u32 ((s.policies pid).cur
              + u32 ((s.policies pid).max * s.dbs_tuners_ins.freq_step) / 100))
              = (s.policies pid).max
          then set_rate_mult s this_cpu s.dbs_tuners_ins.sampling_down_factor
          else s).policies pid).max) := by
    rintro ⟨-, h⟩
    split_ifs at h
    · rw [set_rate_mult_policies] at h; omega
    · omega
  constructor
  · constructor
    · rintro ⟨s', h⟩
      by_contra hL
      unfold dbs_check_cpu_decide at h
      simp only [hL, if_false] at h
      split_ifs at h
      · simp at h
      · revert h
        cases lower_freq_next s.dbs_tuners_ins (s.policies pid).min L with
        | none => intro h; simp at h
        | some f => intro h; dsimp only at h; split_ifs at h <;> simp at h
      · simp at h
    · intro hL
      unfold dbs_check_cpu_decide
      simp only [hL, if_true]
      exact ⟨_, rfl⟩
  · intro hL
    unfold dbs_check_cpu_decide
    simp only [hL, if_true]
    refine ⟨_, rfl, ?_⟩
    unfold dbs_freq_increase
    rw [if_neg hne]
    split_ifs <;> simp

/-- C1 at the scenario of the specification: `cur = 200000`, `min = 100000`,
`max = 1000000`, load `18000000`, `freq_step = 37` gives one request, for
`570000` with the at-least relation. -/
theorem dbs_check_cpu_raise_decision_witness :
    (ex_policy 200000 100000 1000000).cur < (ex_policy 200000 100000 1000000).max ∧
    ∃ s', dbs_check_cpu_decide (ex_cfg false) (ex_env fun _ => (0, 0))
        (ex_state ex_tuners (ex_policy 200000 100000 1000000)) 0 0 18000000
        = some (Branch.raise, s') ∧
      s'.requests = [{ policy := 0, freq := 570000, relation := Relation.CPUFREQ_RELATION_L }] :=
  ⟨by decide,
    (dbs_check_cpu_raise_decision (ex_cfg false) (ex_env fun _ => (0, 0))
      (ex_state ex_tuners (ex_policy 200000 100000 1000000)) 0 0 18000000 (by decide)).2
      (by decide)⟩

/-! ### The lowering block -/

theorem lower_freq_next_eq (t : dbs_tuners) (policy_min L : Nat)
    (hd : sub32 t.up_threshold t.down_differential ≠ 0) (hmin : 1 ≤ policy_min) :
    lower_freq_next t policy_min L = some (spec_lower_candidate t policy_min L) := by
  have hmax : (if L / sub32 t.up_threshold t.down_differential < policy_min then policy_min
      else L / sub32 t.up_threshold t.down_differential)
      = max (L / sub32 t.up_threshold t.down_differential) policy_min := by
    split_ifs with h
    · exact (max_eq_right (Nat.le_of_lt h)).symm
    · exact (max_eq_left (Nat.le_of_not_lt h)).symm
  have hpos : max (L / sub32 t.up_threshold t.down_differential) policy_min ≠ 0 :=
    Nat.ne_of_gt (Nat.lt_of_lt_of_le hmin (le_max_right _ _))
  unfold lower_freq_next spec_lower_candidate udiv
  simp only [if_neg hd, hmax, if_neg hpos]
  split_ifs <;> first | rfl | (exfalso; tauto)

theorem lower_cond_divisor_ne_zero (t : dbs_tuners) (cur L : Nat)
    (h : L < u32 (sub32 t.up_threshold t.down_differential * cur)) :
    sub32 t.up_threshold t.down_differential ≠ 0 := by
  intro h0
  rw [h0] at h
  simp [u32] at h

/-- C2, as stated, fails in two ways. With `up_threshold = 82`,
`down_differential = 100` the difference wraps in `unsigned int`: at
`cur = 200000`, `min = 100000`, load `2000000` the code lowers and requests
`100000`, although the load is not below `(82 - 100) * cur`. With
`policy.min = 0` and load `5` the candidate is `0` and the code divides by it. -/
theorem lower_decision_wraps :
    ((dbs_check_cpu_decide (ex_cfg true) (ex_env fun _ => (0, 0))
        (ex_state { ex_tuners with down_differential := 100 } (ex_policy 200000 100000 1000000))
        0 0 2000000).map (fun r => (r.1, r.2.requests))
      = some (Branch.lower,
          [{ policy := 0, freq := 100000, relation := Relation.CPUFREQ_RELATION_L }]) ∧
      ¬ ((2000000 : Int) <
        (((({ ex_tuners with down_differential := 100 } : dbs_tuners).up_threshold : Nat) : Int)
          - ((({ ex_tuners with down_differential := 100 } : dbs_tuners).down_differential
              : Nat) : Int))
          * (((ex_policy 200000 100000 1000000).cur : Nat) : Int))) ∧
    dbs_check_cpu_decide (ex_cfg true) (ex_env fun _ => (0, 0))
        (ex_state ex_tuners (ex_policy 200000 0 1000000)) 0 0 5 = none := by
  refine ⟨⟨by rfl, by decide⟩, by rfl⟩

/-- C2 (amended): in a cycle that does not raise, with `policy.cur ≠ policy.min`
and `policy.min ≥ 1`, the lowering block is entered iff
`L < ((up_threshold - down_differential) * policy.cur)` in unsigned 32-bit
arithmetic; the candidate is then the one the specification describes
(`spec_lower_candidate`, differences modulo 2^32), and the request log grows by
one request for the candidate when the candidate differs from `policy.cur` and
is unchanged when it equals `policy.cur`. -/
theorem dbs_check_cpu_lower_decision (cfg : Config) (env : Env) (s : State)
    (this_cpu pid L : Nat)
    (hno : ¬ L > u32 ((if (s.policies pid).cur < s.dbs_tuners_ins.freq_for_responsiveness
          then s.dbs_tuners_ins.up_threshold_at_min_freq
          else s.dbs_tuners_ins.up_threshold) * (s.policies pid).cur))
    (hne : (s.policies pid).cur ≠ (s.policies pid).min)
    (hmin : 1 ≤ (s.policies pid).min) :
    ((∃ s', dbs_check_cpu_decide cfg env s this_cpu pid L = some (Branch.lower, s')) ↔
      L < u32 (sub32 s.dbs_tuners_ins.up_threshold s.dbs_tuners_ins.down_differential
        * (s.policies pid).cur)) ∧
    (L < u32 (sub32 s.dbs_tuners_ins.up_threshold s.dbs_tuners_ins.down_differential
        * (s.policies pid).cur) →
      ∃ s', dbs_check_cpu_decide cfg env s this_cpu pid L = some (Branch.lower, s') ∧
        s'.requests =
          if spec_lower_candidate s.dbs_tuners_ins (s.policies pid).min L = (s.policies pid).cur
          then s.requests
          else s.requests ++
            [{ policy := pid
               freq := spec_lower_candidate s.dbs_tuners_ins (s.policies pid).min L
               relation := Relation.CPUFREQ_RELATION_L }]) := by
  have hhm : ¬ (cfg.arch_exynos = false ∧ (s.policies pid).cur = (s.policies pid).min) :=
    fun h => hne h.2
  have key : L < u32 (sub32 s.dbs_tuners_ins.up_threshold s.dbs_tuners_ins.down_differential
        * (s.policies pid).cur) →
      ∃ s', dbs_check_cpu_decide cfg env s this_cpu pid L = some (Branch.lower, s') ∧
        s'.requests =
          if spec_lower_candidate s.dbs_tuners_ins (s.policies pid).min L = (s.policies pid).cur
          then s.requests
          else s.requests ++
            [{ policy := pid
               freq := spec_lower_candidate s.dbs_tuners_ins (s.policies pid).min L
               relation := Relation.CPUFREQ_RELATION_L }] := by
    intro hL
    unfold dbs_check_cpu_decide
    simp only [if_neg hno, if_neg hhm, if_pos hL,
      lower_freq_next_eq _ _ _ (lower_cond_divisor_ne_zero _ _ _ hL) hmin]
    by_cases hc : (s.policies pid).cur
        = spec_lower_candidate s.dbs_tuners_ins (s.policies pid).min L
    · rw [if_pos hc, if_pos hc.symm]
      exact ⟨_, rfl, rfl⟩
    · rw [if_neg hc, if_neg (fun h => hc h.symm)]
      exact ⟨_, rfl, rfl⟩
  refine ⟨⟨?_, fun hL => ?_⟩, key⟩
  · rintro ⟨s', h⟩
    by_contra hL
    unfold dbs_check_cpu_decide at h
    simp only [if_neg hno, if_neg hhm, if_neg hL] at h
    simp at h
  · obtain ⟨s', h, -⟩ := key hL
    exact ⟨s', h⟩

/-- C2 at the scenario of the specification: `cur = 200000`, `min = 100000`,
`max = 1000000`, `up_threshold = 82`, `down_differential = 5`, load `2000000`:
the candidate `25974` is raised to `100000` and one request for `100000` is made. -/
theorem dbs_check_cpu_lower_decision_witness :
    2000000 / sub32 82 5 = 25974 ∧
    ∃ s', dbs_check_cpu_decide (ex_cfg false) (ex_env fun _ => (0, 0))
        (ex_state ex_tuners (ex_policy 200000 100000 1000000)) 0 0 2000000
        = some (Branch.lower, s') ∧
      s'.requests = [{ policy := 0, freq := 100000, relation := Relation.CPUFREQ_RELATION_L }] :=
  ⟨by decide,
    (dbs_check_cpu_lower_decision (ex_cfg false) (ex_env fun _ => (0, 0))
      (ex_state ex_tuners (ex_policy 200000 100000 1000000)) 0 0 2000000
      (by decide) (by decide) (by decide)).2 (by decide)⟩

/-! ### Hysteresis -/

/-- C3, as stated, fails in five ways, all with `min < cur < max`.
(1) Below `freq_for_responsiveness`: with the default tunables and
`min = 100000 < cur = 200000 < max = 1000000` the raise threshold is
`up_threshold_at_min_freq * cur = 8000000`, so the load `16000000`, which lies in
the band from `(82 - 5) * cur` that is `5 * cur` wide, triggers Raise; load
`8000001` raises and load `8000000` lowers, so no load triggers neither.
(2) With `down_differential = up_threshold = 82` and `cur = 500000` the lower
test is `L < 0`: load 0 triggers neither, so no `L_lower` exists.
(3) With `down_differential = 100 > up_threshold = 82` and `cur = 500000` the
difference wraps: load `41000000` lowers and `41000001` raises, no load triggers
neither.
(4) With `cur = 53000000` (default tunables) `82 * cur` wraps to `51032704`:
load `51032704` lowers, `51032705` raises, and the load `(82 - 5) * cur`
raises; no load triggers neither.
(5) With `min = 0`, `cur = 500000` the load 5 makes the lower path divide by the
candidate 0. -/
theorem hysteresis_band_below_responsiveness :
    (((82 - 5) * 200000 ≤ 16000000 ∧ 16000000 ≤ (82 - 5) * 200000 + 5 * 200000) ∧
      (dbs_check_cpu_decide (ex_cfg false) (ex_env fun _ => (0, 0))
          (ex_state ex_tuners (ex_policy 200000 100000 1000000)) 0 0 16000000).map
        (fun r => r.1) = some Branch.raise ∧
      (dbs_check_cpu_decide (ex_cfg false) (ex_env fun _ => (0, 0))
          (ex_state ex_tuners (ex_policy 200000 100000 1000000)) 0 0 8000001).map
        (fun r => r.1) = some Branch.raise ∧
      (dbs_check_cpu_decide (ex_cfg false) (ex_env fun _ => (0, 0))
          (ex_state ex_tuners (ex_policy 200000 100000 1000000)) 0 0 8000000).map
        (fun r => r.1) = some Branch.lower) ∧
    ((dbs_check_cpu_decide (ex_cfg false) (ex_env fun _ => (0, 0))
          (ex_state { ex_tuners with down_differential := 82 }
            (ex_policy 500000 100000 1000000)) 0 0 0).map
        (fun r => r.1) = some Branch.hold) ∧
    ((dbs_check_cpu_decide (ex_cfg false) (ex_env fun _ => (0, 0))
          (ex_state { ex_tuners with down_differential := 100 }
            (ex_policy 500000 100000 1000000)) 0 0 41000000).map
        (fun r => r.1) = some Branch.lower ∧
      (dbs_check_cpu_decide (ex_cfg false) (ex_env fun _ => (0, 0))
          (ex_state { ex_tuners with down_differential := 100 }
            (ex_policy 500000 100000 1000000)) 0 0 41000001).map
        (fun r => r.1) = some Branch.raise) ∧
    ((82 * 53000000) % 2 ^ 32 = 51032704 ∧
      (dbs_check_cpu_decide (ex_cfg false) (ex_env fun _ => (0, 0))
          (ex_state ex_tuners (ex_policy 53000000 100000 60000000)) 0 0 51032704).map
        (fun r => r.1) = some Branch.lower ∧
      (dbs_check_cpu_decide (ex_cfg false) (ex_env fun _ => (0, 0))
          (ex_state ex_tuners (ex_policy 53000000 100000 60000000)) 0 0 51032705).map
        (fun r => r.1) = some Branch.raise ∧
      (dbs_check_cpu_decide (ex_cfg false) (ex_env fun _ => (0, 0))
          (ex_state ex_tuners (ex_policy 53000000 100000 60000000)) 0 0
          ((82 - 5) * 53000000)).map
        (fun r => r.1) = some Branch.raise) ∧
    ((dbs_check_cpu_decide (ex_cfg false) (ex_env fun _ => (0, 0))
          (ex_state ex_tuners (ex_policy 500000 0 1000000)) 0 0 5).map
        (fun r => r.1) = none) := by
  refine ⟨⟨by decide, by rfl, by rfl, by rfl⟩, by rfl, ⟨by rfl, by rfl⟩,
    ⟨by norm_num, by rfl, by rfl, by rfl⟩, by rfl⟩

/-- C3 (amended): for a policy with `1 ≤ min < cur < max` and any tunables, write
`R = (E * cur) mod 2^32` for the raise threshold, with `E` the threshold in
force (`up_threshold_at_min_freq` when `cur < freq_for_responsiveness`,
`up_threshold` otherwise), and `T = ((up_threshold - down_differential) * cur)
mod 2^32`, the difference taken as `unsigned int`.  Every load `≥ R + 1`
triggers Raise; every load `≤ R` that is `< T` triggers Lower; no load triggers
both; the loads that trigger neither are exactly those with `T ≤ L ≤ R`.  When
`T ≥ 1`, `L_raise = R + 1` and `L_lower = min R (T - 1)` satisfy
`L_lower < L_raise` and every load `≤ L_lower` triggers Lower.  When
`cur ≥ freq_for_responsiveness`, `down_differential ≤ up_threshold` and
`up_threshold * cur < 2^32`, `T = (up_threshold - down_differential) * cur`,
`R = up_threshold * cur`, and the band has width `down_differential * cur`. -/
theorem dbs_check_cpu_hysteresis (cfg : Config) (env : Env) (s : State) (this_cpu pid : Nat)
    (hmin : 1 ≤ (s.policies pid).min)
    (hlo : (s.policies pid).min < (s.policies pid).cur)
    (_hhi : (s.policies pid).cur < (s.policies pid).max) :
    (∀ L, u32 ((if (s.policies pid).cur < s.dbs_tuners_ins.freq_for_responsiveness
          then s.dbs_tuners_ins.up_threshold_at_min_freq
          else s.dbs_tuners_ins.up_threshold) * (s.policies pid).cur) + 1 ≤ L →
      ∃ s', dbs_check_cpu_decide cfg env s this_cpu pid L = some (Branch.raise, s')) ∧
    (∀ L, L ≤ u32 ((if (s.policies pid).cur < s.dbs_tuners_ins.freq_for_responsiveness
          then s.dbs_tuners_ins.up_threshold_at_min_freq
          else s.dbs_tuners_ins.up_threshold) * (s.policies pid).cur) →
      L < u32 (sub32 s.dbs_tuners_ins.up_threshold s.dbs_tuners_ins.down_differential
          * (s.policies pid).cur) →
      ∃ s', dbs_check_cpu_decide cfg env s this_cpu pid L = some (Branch.lower, s')) ∧
    (∀ L, ¬ ((∃ s', dbs_check_cpu_decide cfg env s this_cpu pid L = some (Branch.raise, s')) ∧
      (∃ s', dbs_check_cpu_decide cfg env s this_cpu pid L = some (Branch.lower, s')))) ∧
    (∀ L, dbs_check_cpu_decide cfg env s this_cpu pid L = some (Branch.hold, s) ↔
      (u32 (sub32 s.dbs_tuners_ins.up_threshold s.dbs_tuners_ins.down_differential
          * (s.policies pid).cur) ≤ L ∧
        L ≤ u32 ((if (s.policies pid).cur < s.dbs_tuners_ins.freq_for_responsiveness
          then s.dbs_tuners_ins.up_threshold_at_min_freq
          else s.dbs_tuners_ins.up_threshold) * (s.policies pid).cur))) ∧
    (1 ≤ u32 (sub32 s.dbs_tuners_ins.up_threshold s.dbs_tuners_ins.down_differential
          * (s.policies pid).cur) →
      (min (u32 ((if (s.policies pid).cur < s.dbs_tuners_ins.freq_for_responsiveness
            then s.dbs_tuners_ins.up_threshold_at_min_freq
            else s.dbs_tuners_ins.up_threshold) * (s.policies pid).cur))
          (u32 (sub32 s.dbs_tuners_ins.up_threshold s.dbs_tuners_ins.down_differential
            * (s.policies pid).cur) - 1)
        < u32 ((if (s.policies pid).cur < s.dbs_tuners_ins.freq_for_responsiveness
            then s.dbs_tuners_ins.up_threshold_at_min_freq
            else s.dbs_tuners_ins.up_threshold) * (s.policies pid).cur) + 1) ∧
      (∀ L, L ≤ min
          (u32 ((if (s.policies pid).cur < s.dbs_tuners_ins.freq_for_responsiveness
            then s.dbs_tuners_ins.up_threshold_at_min_freq
            else s.dbs_tuners_ins.up_threshold) * (s.policies pid).cur))
          (u32 (sub32 s.dbs_tuners_ins.up_threshold s.dbs_tuners_ins.down_differential
            * (s.policies pid).cur) - 1) →
        ∃ s', dbs_check_cpu_decide cfg env s this_cpu pid L = some (Branch.lower, s'))) ∧
    (s.dbs_tuners_ins.freq_for_responsiveness ≤ (s.policies pid).cur →
      s.dbs_tuners_ins.down_differential ≤ s.dbs_tuners_ins.up_threshold →
      s.dbs_tuners_ins.up_threshold * (s.policies pid).cur < U32 →
      u32 (sub32 s.dbs_tuners_ins.up_threshold s.dbs_tuners_ins.down_differential
          * (s.policies pid).cur)
        = (s.dbs_tuners_ins.up_threshold - s.dbs_tuners_ins.down_differential)
          * (s.policies pid).cur ∧
      u32 ((if (s.policies pid).cur < s.dbs_tuners_ins.freq_for_responsiveness
          then s.dbs_tuners_ins.up_threshold_at_min_freq
          else s.dbs_tuners_ins.up_threshold) * (s.policies pid).cur)
        = s.dbs_tuners_ins.up_threshold * (s.policies pid).cur ∧
      s.dbs_tuners_ins.up_threshold * (s.policies pid).cur
        - (s.dbs_tuners_ins.up_threshold - s.dbs_tuners_ins.down_differential)
            * (s.policies pid).cur
        = s.dbs_tuners_ins.down_differential * (s.policies pid).cur) := by
  have hhm : ¬ (cfg.arch_exynos = false ∧ (s.policies pid).cur = (s.policies pid).min) := by
    rintro ⟨-, h⟩
    omega
  -- the two thresholds
  generalize hR : u32 ((if (s.policies pid).cur < s.dbs_tuners_ins.freq_for_responsiveness
      then s.dbs_tuners_ins.up_threshold_at_min_freq
      else s.dbs_tuners_ins.up_threshold) * (s.policies pid).cur) = R
  generalize hT : u32 (sub32 s.dbs_tuners_ins.up_threshold s.dbs_tuners_ins.down_differential
      * (s.policies pid).cur) = T
  have hraise : ∀ L, R < L →
      ∃ s', dbs_check_cpu_decide cfg env s this_cpu pid L = some (Branch.raise, s') := by
    intro L hL
    apply decide_raise
    rw [hR]
    exact hL
  have hlower : ∀ L, L ≤ R → L < T →
      ∃ s', dbs_check_cpu_decide cfg env s this_cpu pid L = some (Branch.lower, s') := by
    intro L hL1 hL2
    have hno : ¬ L > u32 ((if (s.policies pid).cur < s.dbs_tuners_ins.freq_for_responsiveness
          then s.dbs_tuners_ins.up_threshold_at_min_freq
          else s.dbs_tuners_ins.up_threshold) * (s.policies pid).cur) := by
      rw [hR]
      omega
    have hL' : L < u32 (sub32 s.dbs_tuners_ins.up_threshold s.dbs_tuners_ins.down_differential
        * (s.policies pid).cur) := by
      rw [hT]
      exact hL2
    exact ⟨_, decide_lower cfg env s this_cpu pid L _ hno hhm hL'
      (lower_freq_next_eq _ _ _ (lower_cond_divisor_ne_zero _ _ _ hL') hmin)⟩
  have hhold : ∀ L, L ≤ R → T ≤ L →
      dbs_check_cpu_decide cfg env s this_cpu pid L = some (Branch.hold, s) := by
    intro L hL1 hL2
    apply decide_hold cfg env s this_cpu pid L _ hhm
    · rw [hT]
      omega
    · rw [hR]
      omega
  refine ⟨fun L hL => hraise L (by omega), hlower, ?_, ?_, ?_, ?_⟩
  · rintro L ⟨⟨s1, h1⟩, ⟨s2, h2⟩⟩
    rw [h1] at h2
    simp at h2
  · intro L
    constructor
    · intro h
      by_contra hcon
      rcases Nat.lt_or_ge R L with h1 | h1
      · obtain ⟨s', hs'⟩ := hraise L h1
        rw [hs'] at h
        simp at h
      · have h2 : L < T := by
          by_contra h3
          exact hcon ⟨by omega, h1⟩
        obtain ⟨s', hs'⟩ := hlower L h1 h2
        rw [hs'] at h
        simp at h
    · rintro ⟨h1, h2⟩
      exact hhold L h2 h1
  · intro hT1
    refine ⟨Nat.lt_succ_of_le (min_le_left _ _), fun L hL => ?_⟩
    have h1 : L ≤ R := le_trans hL (min_le_left _ _)
    have h2 : L ≤ T - 1 := le_trans hL (min_le_right _ _)
    exact hlower L h1 (by omega)
  · intro hresp hdd hov
    have hc1 : 1 ≤ (s.policies pid).cur := by omega
    have hUc : s.dbs_tuners_ins.up_threshold
        ≤ s.dbs_tuners_ins.up_threshold * (s.policies pid).cur :=
      Nat.le_mul_of_pos_right _ hc1
    have hUlt : s.dbs_tuners_ins.up_threshold < U32 := by omega
    have hle : (s.dbs_tuners_ins.up_threshold - s.dbs_tuners_ins.down_differential)
        * (s.policies pid).cur
        ≤ s.dbs_tuners_ins.up_threshold * (s.policies pid).cur :=
      Nat.mul_le_mul_right _ (Nat.sub_le _ _)
    have hsplit : s.dbs_tuners_ins.up_threshold * (s.policies pid).cur
        = (s.dbs_tuners_ins.up_threshold - s.dbs_tuners_ins.down_differential)
            * (s.policies pid).cur
          + s.dbs_tuners_ins.down_differential * (s.policies pid).cur := by
      rw [← Nat.add_mul, Nat.sub_add_cancel hdd]
    refine ⟨?_, ?_, by omega⟩
    · rw [← hT, sub32_of_le hdd hUlt]
      exact u32_of_lt (by omega)
    · rw [← hR, if_neg (Nat.not_lt.mpr hresp)]
      exact u32_of_lt hov

/-- C3 at `cur = 500000` with the default tunables (`min = 100000`,
`max = 1000000`): the band of loads that trigger neither runs from `38500000`
to `41000000` and is `5 * 500000` wide. -/
theorem dbs_check_cpu_hysteresis_witness :
    (1 ≤ (ex_policy 500000 100000 1000000).min ∧
      (ex_policy 500000 100000 1000000).min < (ex_policy 500000 100000 1000000).cur ∧
      (ex_policy 500000 100000 1000000).cur < (ex_policy 500000 100000 1000000).max) ∧
    (∀ L, dbs_check_cpu_decide (ex_cfg false) (ex_env fun _ => (0, 0))
        (ex_state ex_tuners (ex_policy 500000 100000 1000000)) 0 0 L
        = some (Branch.hold, ex_state ex_tuners (ex_policy 500000 100000 1000000)) ↔
      (38500000 ≤ L ∧ L ≤ 41000000)) ∧
    41000000 - 38500000 = 5 * 500000 :=
  ⟨by decide,
    (dbs_check_cpu_hysteresis (ex_cfg false) (ex_env fun _ => (0, 0))
      (ex_state ex_tuners (ex_policy 500000 100000 1000000)) 0 0
      (by decide) (by decide) (by decide)).2.2.2.1,
    by decide⟩

/-! ### The relation of the requests -/

/-- C4, as stated, fails: in the scenario `cur = 200000`, `min = 100000`, load
`2000000` the lowering block calls the driver with `CPUFREQ_RELATION_L`
(at-least) and target `100000`, not with the at-most relation
`CPUFREQ_RELATION_H`. -/
theorem lower_request_is_not_at_most :
    (dbs_check_cpu_decide (ex_cfg false) (ex_env fun _ => (0, 0))
        (ex_state ex_tuners (ex_policy 200000 100000 1000000)) 0 0 2000000).map
      (fun r => (r.1, r.2.requests))
      = some (Branch.lower,
          [{ policy := 0, freq := 100000, relation := Relation.CPUFREQ_RELATION_L }]) ∧
    (dbs_check_cpu_decide (ex_cfg false) (ex_env fun _ => (0, 0))
        (ex_state ex_tuners (ex_policy 200000 100000 1000000)) 0 0 2000000).map
      (fun r => r.2.requests)
      ≠ some [{ policy := 0, freq := 100000, relation := Relation.CPUFREQ_RELATION_H }] := by
  refine ⟨by rfl, by decide⟩

/-- C4 (amended): every driver request issued by the decision part of
`dbs_check_cpu`, on the lower path as on the raise path, uses
`CPUFREQ_RELATION_L`, the at-least relation (lowest frequency at or above the
target): whatever block the function is left in, the request log is the old
one, or the old one followed by one request on the cycle's policy with
`CPUFREQ_RELATION_L`. -/
theorem dbs_check_cpu_requests_at_least (cfg : Config) (env : Env) (s s' : State)
    (this_cpu pid L : Nat) (b : Branch)
    (h : dbs_check_cpu_decide cfg env s this_cpu pid L = some (b, s')) :
    ∃ rs, s'.requests = s.requests ++ rs ∧ rs.length ≤ 1 ∧
      ∀ r ∈ rs, r.relation = Relation.CPUFREQ_RELATION_L ∧ r.policy = pid ∧
        r.relation ≠ Relation.CPUFREQ_RELATION_H := by
  rcases decide_requests_append cfg env s s' this_cpu pid L b h with h1 | ⟨f, h1⟩
  · exact ⟨[], by simp [h1], by simp, by simp⟩
  · refine ⟨_, h1, by simp, ?_⟩
    intro r hr
    simp only [List.mem_singleton] at hr
    subst hr
    exact ⟨rfl, rfl, by simp⟩

/-- C4 at the scenario of the specification: with `cur = 200000`,
`min = 100000`, load `2000000` the lowering block appends requests that all
carry `CPUFREQ_RELATION_L`. -/
theorem dbs_check_cpu_requests_at_least_witness :
    ∃ rs,
      (cpufreq_driver_target (ex_env fun _ => (0, 0))
        (set_rate_mult (ex_state ex_tuners (ex_policy 200000 100000 1000000)) 0 1) 0 100000
        Relation.CPUFREQ_RELATION_L).requests
        = (ex_state ex_tuners (ex_policy 200000 100000 1000000)).requests ++ rs ∧
      rs.length ≤ 1 ∧
      ∀ r ∈ rs, r.relation = Relation.CPUFREQ_RELATION_L ∧ r.policy = 0 ∧
        r.relation ≠ Relation.CPUFREQ_RELATION_H :=
  dbs_check_cpu_requests_at_least (ex_cfg false) (ex_env fun _ => (0, 0))
    (ex_state ex_tuners (ex_policy 200000 100000 1000000)) _ 0 0 2000000 Branch.lower
    (by rfl)

/-! ### A second call with the same load -/

theorem lower_freq_next_some (t : dbs_tuners) (m L f : Nat)
    (h : lower_freq_next t m L = some f) :
    sub32 t.up_threshold t.down_differential ≠ 0 ∧
    ((max (L / sub32 t.up_threshold t.down_differential) m < t.freq_for_responsiveness ∧
        max (L / sub32 t.up_threshold t.down_differential) m ≠ 0 ∧
        L / max (L / sub32 t.up_threshold t.down_differential) m
          > sub32 t.up_threshold_at_min_freq t.down_differential ∧
        f = t.freq_for_responsiveness) ∨
      (max (L / sub32 t.up_threshold t.down_differential) m < t.freq_for_responsiveness ∧
        max (L / sub32 t.up_threshold t.down_differential) m ≠ 0 ∧
        L / max (L / sub32 t.up_threshold t.down_differential) m
          ≤ sub32 t.up_threshold_at_min_freq t.down_differential ∧
        f = max (L / sub32 t.up_threshold t.down_differential) m) ∨
      (t.freq_for_responsiveness ≤ max (L / sub32 t.up_threshold t.down_differential) m ∧
        f = max (L / sub32 t.up_threshold t.down_differential) m)) := by
  have hmax : (if L / sub32 t.up_threshold t.down_differential < m then m
      else L / sub32 t.up_threshold t.down_differential)
      = max (L / sub32 t.up_threshold t.down_differential) m := by
    split_ifs with h
    · exact (max_eq_right (Nat.le_of_lt h)).symm
    · exact (max_eq_left (Nat.le_of_not_lt h)).symm
  unfold lower_freq_next udiv at h
  by_cases hd : sub32 t.up_threshold t.down_differential = 0
  · simp [hd] at h
  · refine ⟨hd, ?_⟩
    simp only [if_neg hd, hmax] at h
    by_cases hF : max (L / sub32 t.up_threshold t.down_differential) m
        < t.freq_for_responsiveness
    · simp only [if_pos hF] at h
      by_cases h0 : max (L / sub32 t.up_threshold t.down_differential) m = 0
      · simp [h0] at h
      · simp only [if_neg h0, Option.some.injEq] at h
        by_cases hq : L / max (L / sub32 t.up_threshold t.down_differential) m
            > sub32 t.up_threshold_at_min_freq t.down_differential
        · rw [if_pos hq] at h
          exact Or.inl ⟨hF, h0, hq, h.symm⟩
        · rw [if_neg hq] at h
          exact Or.inr (Or.inl ⟨hF, h0, Nat.le_of_not_lt hq, h.symm⟩)
    · simp only [if_neg hF, Option.some.injEq] at h
      exact Or.inr (Or.inr ⟨Nat.le_of_not_lt hF, h.symm⟩)

/-- The candidate of the lowering block does not re-trigger the raise test. -/
theorem lower_candidate_not_raise (t : dbs_tuners) (m L f : Nat)
    (h : lower_freq_next t m L = some f)
    (hd1 : 1 ≤ t.down_differential)
    (hdA : t.down_differential ≤ t.up_threshold_at_min_freq)
    (hdU : t.down_differential < t.up_threshold)
    (hU : t.up_threshold ≤ 100) (hA : t.up_threshold_at_min_freq ≤ 100)
    (hf : 100 ≤ f) (hf2 : 100 * f < U32) :
    ¬ L > u32 ((if f < t.freq_for_responsiveness then t.up_threshold_at_min_freq
        else t.up_threshold) * f) := by
  obtain ⟨hD0, hcases⟩ := lower_freq_next_some t m L f h
  have hUlt : t.up_threshold < U32 := by unfold U32; omega
  have hAlt : t.up_threshold_at_min_freq < U32 := by unfold U32; omega
  rw [sub32_of_le (Nat.le_of_lt hdU) hUlt] at hD0 hcases
  rw [sub32_of_le hdA hAlt] at hcases
  generalize t.up_threshold = U at *
  generalize t.up_threshold_at_min_freq = A at *
  generalize t.down_differential = d at *
  generalize t.freq_for_responsiveness = F at *
  have hDpos : 0 < U - d := by omega
  have hUf : U * f ≤ 100 * f := Nat.mul_le_mul_right f hU
  have hAf : A * f ≤ 100 * f := Nat.mul_le_mul_right f hA
  have hdiv : L / (U - d) ≤ max (L / (U - d)) m := le_max_left _ _
  rcases hcases with ⟨hF, -, -, rfl⟩ | ⟨hF, h0, hq, rfl⟩ | ⟨hF, rfl⟩
  · -- clamped to the responsiveness frequency
    rw [if_neg (Nat.lt_irrefl _), u32_of_lt (by omega)]
    have h1 : L / (U - d) < f := by omega
    have h2 : L < f * (U - d) := (Nat.div_lt_iff_lt_mul hDpos).mp h1
    have h3 : f * (U - d) ≤ f * U := Nat.mul_le_mul_left f (Nat.sub_le U d)
    rw [Nat.mul_comm U f]
    omega
  · -- below the responsiveness frequency, not clamped
    rw [if_pos hF, u32_of_lt (by omega)]
    have hpos : 0 < max (L / (U - d)) m := Nat.pos_of_ne_zero h0
    have h1 : L / max (L / (U - d)) m < A - d + 1 := by omega
    have h2 : L < (A - d + 1) * max (L / (U - d)) m := (Nat.div_lt_iff_lt_mul hpos).mp h1
    have h3 : (A - d + 1) * max (L / (U - d)) m ≤ A * max (L / (U - d)) m :=
      Nat.mul_le_mul_right _ (by omega)
    omega
  · -- at or above the responsiveness frequency
    rw [if_neg (Nat.not_lt.mpr hF), u32_of_lt (by omega)]
    have h1 : L / (U - d) < max (L / (U - d)) m + 1 := by omega
    have h2 : L < (max (L / (U - d)) m + 1) * (U - d) := (Nat.div_lt_iff_lt_mul hDpos).mp h1
    have h3 : U * max (L / (U - d)) m
        = (U - d) * max (L / (U - d)) m + d * max (L / (U - d)) m := by
      rw [← Nat.add_mul, Nat.sub_add_cancel (Nat.le_of_lt hdU)]
    have h4 : max (L / (U - d)) m ≤ d * max (L / (U - d)) m := Nat.le_mul_of_pos_left _ hd1
    have h5 : (max (L / (U - d)) m + 1) * (U - d)
        = (U - d) * max (L / (U - d)) m + (U - d) := by ring
    omega


theorem decide_lower_inv (cfg : Config) (env : Env) (s s1 : State) (this_cpu pid L : Nat)
    (h : dbs_check_cpu_decide cfg env s this_cpu pid L = some (Branch.lower, s1)) :
    ∃ f, lower_freq_next s.dbs_tuners_ins (s.policies pid).min L = some f ∧
      s1 = if (s.policies pid).cur = f then set_rate_mult s this_cpu 1
        else cpufreq_driver_target env (set_rate_mult s this_cpu 1) pid f
          Relation.CPUFREQ_RELATION_L := by
  by_cases h1 : L > u32 ((if (s.policies pid).cur < s.dbs_tuners_ins.freq_for_responsiveness
          then s.dbs_tuners_ins.up_threshold_at_min_freq
          else s.dbs_tuners_ins.up_threshold) * (s.policies pid).cur)
  · obtain ⟨s', hs'⟩ := decide_raise cfg env s this_cpu pid L h1
    rw [hs'] at h
    simp at h
  · by_cases h2 : cfg.arch_exynos = false ∧ (s.policies pid).cur = (s.policies pid).min
    · rw [decide_hold_min cfg env s this_cpu pid L h1 h2] at h
      simp at h
    · by_cases h3 : L < u32 (sub32 s.dbs_tuners_ins.up_threshold
          s.dbs_tuners_ins.down_differential * (s.policies pid).cur)
      · cases hf : lower_freq_next s.dbs_tuners_ins (s.policies pid).min L with
        | none =>
          unfold dbs_check_cpu_decide at h
          simp only [if_neg h1, if_neg h2, if_pos h3, hf] at h
          simp at h
        | some f =>
          rw [decide_lower cfg env s this_cpu pid L f h1 h2 h3 hf] at h
          simp only [Option.some.injEq, Prod.mk.injEq, true_and] at h
          exact ⟨f, rfl, h.symm⟩
      · rw [decide_hold cfg env s this_cpu pid L h1 h2 h3] at h
        simp at h

/-- When the lowering candidate for the load equals the current frequency, a
run of the decision that does not enter the raise block issues no request. -/
theorem second_call_of_not_raise (cfg : Config) (env : Env) (s1 : State)
    (this_cpu pid L : Nat)
    (hf : lower_freq_next s1.dbs_tuners_ins (s1.policies pid).min L
      = some (s1.policies pid).cur)
    (hno : ¬ L > u32 ((if (s1.policies pid).cur < s1.dbs_tuners_ins.freq_for_responsiveness
          then s1.dbs_tuners_ins.up_threshold_at_min_freq
          else s1.dbs_tuners_ins.up_threshold) * (s1.policies pid).cur)) :
    ∃ b2 s2, dbs_check_cpu_decide cfg env s1 this_cpu pid L = some (b2, s2) ∧
      s2.requests = s1.requests := by
  by_cases h2 : cfg.arch_exynos = false ∧ (s1.policies pid).cur = (s1.policies pid).min
  · exact ⟨_, _, decide_hold_min cfg env s1 this_cpu pid L hno h2, rfl⟩
  · by_cases h3 : L < u32 (sub32 s1.dbs_tuners_ins.up_threshold
        s1.dbs_tuners_ins.down_differential * (s1.policies pid).cur)
    · refine ⟨_, _, decide_lower cfg env s1 this_cpu pid L _ hno h2 h3 hf, ?_⟩
      rw [if_pos rfl]
      rfl
    · exact ⟨_, _, decide_hold cfg env s1 this_cpu pid L hno h2 h3, rfl⟩

/-- After a lowering run that requested `f` and a driver that made `cur = f`,
the lowering candidate for the same load is the current frequency. -/
theorem lower_then_candidate_is_cur (cfg : Config) (env : Env) (s s1 : State)
    (this_cpu pid L f : Nat)
    (h1 : dbs_check_cpu_decide cfg env s this_cpu pid L = some (Branch.lower, s1))
    (hreq : s1.requests = s.requests ++
      [{ policy := pid, freq := f, relation := Relation.CPUFREQ_RELATION_L }])
    (hdrv : (s1.policies pid).cur = f) :
    s1.dbs_tuners_ins = s.dbs_tuners_ins ∧
    lower_freq_next s1.dbs_tuners_ins (s1.policies pid).min L = some (s1.policies pid).cur := by
  obtain ⟨f', hf', hs1⟩ := decide_lower_inv cfg env s s1 this_cpu pid L h1
  by_cases hc : (s.policies pid).cur = f'
  · rw [if_pos hc] at hs1
    rw [hs1] at hreq
    simp at hreq
  · rw [if_neg hc] at hs1
    have hff : f' = f := by
      rw [hs1] at hreq
      simpa using hreq
    have ht : s1.dbs_tuners_ins = s.dbs_tuners_ins := by rw [hs1]; rfl
    have hm : (s1.policies pid).min = (s.policies pid).min := by
      rw [hs1]
      simp [cpufreq_driver_target]
    refine ⟨ht, ?_⟩
    rw [ht, hm, hdrv, hf', hff]

/-- C5, as stated, fails in three ways (the driver of `ex_env` always makes
`policy.cur` the requested frequency). (a) Default tunables, `cur = 700000`,
`max = 1000000`, load `60000000`: the first call raises to `1000000`, the second
call lowers and requests `779220`. (b) `up_threshold_at_min_freq = 11`,
`down_differential = 20`, `cur = 1000000`, load `12400000`: the first call
lowers to `200000`, the second call raises and requests `570000`. (c) In a
build without the `policy.cur == policy.max` exit, `cur = 700000`, load
`90000000`: both calls request `1000000`. -/
theorem second_call_requests_again :
    decide_twice (ex_cfg false) (ex_env fun _ => (0, 0))
        (ex_state ex_tuners (ex_policy 700000 100000 1000000)) 0 0 60000000
      = some ((Branch.raise,
            [{ policy := 0, freq := 1000000, relation := Relation.CPUFREQ_RELATION_L }]),
          (Branch.lower,
            [{ policy := 0, freq := 1000000, relation := Relation.CPUFREQ_RELATION_L },
             { policy := 0, freq := 779220, relation := Relation.CPUFREQ_RELATION_L }])) ∧
    decide_twice (ex_cfg false) (ex_env fun _ => (0, 0))
        (ex_state { ex_tuners with up_threshold_at_min_freq := 11, down_differential := 20 }
          (ex_policy 1000000 100000 1000000)) 0 0 12400000
      = some ((Branch.lower,
            [{ policy := 0, freq := 200000, relation := Relation.CPUFREQ_RELATION_L }]),
          (Branch.raise,
            [{ policy := 0, freq := 200000, relation := Relation.CPUFREQ_RELATION_L },
             { policy := 0, freq := 570000, relation := Relation.CPUFREQ_RELATION_L }])) ∧
    decide_twice (ex_cfg true) (ex_env fun _ => (0, 0))
        (ex_state ex_tuners (ex_policy 700000 100000 1000000)) 0 0 90000000
      = some ((Branch.raise,
            [{ policy := 0, freq := 1000000, relation := Relation.CPUFREQ_RELATION_L }]),
          (Branch.raise,
            [{ policy := 0, freq := 1000000, relation := Relation.CPUFREQ_RELATION_L },
             { policy := 0, freq := 1000000, relation := Relation.CPUFREQ_RELATION_L }])) := by
  refine ⟨by rfl, by rfl, by rfl⟩

/-- C5 (amended): let a call of the decision part of `dbs_check_cpu` leave the
state `s1`, having requested `f`, with the driver having made `policy.cur = f`.
(1) If that call took the lower path, a second call with the same load either
enters the raise block or issues no request (the recomputed candidate equals
`policy.cur`). (2) If moreover `1 ≤ down_differential ≤ up_threshold_at_min_freq
≤ 100`, `down_differential < up_threshold ≤ 100` and `100 ≤ f`, `100 * f < 2^32`,
the second call issues no request. (3) In a build with the
`policy.cur == policy.max` exit, if `f = policy.max`, a second call that enters
the raise block issues no request. -/
theorem dbs_check_cpu_second_call (cfg : Config) (env : Env) (s s1 : State)
    (this_cpu pid L f : Nat) (b1 : Branch)
    (h1 : dbs_check_cpu_decide cfg env s this_cpu pid L = some (b1, s1))
    (hreq : s1.requests = s.requests ++
      [{ policy := pid, freq := f, relation := Relation.CPUFREQ_RELATION_L }])
    (hdrv : (s1.policies pid).cur = f) :
    (b1 = Branch.lower →
      ∃ b2 s2, dbs_check_cpu_decide cfg env s1 this_cpu pid L = some (b2, s2) ∧
        (b2 = Branch.raise ∨ s2.requests = s1.requests)) ∧
    (b1 = Branch.lower →
      1 ≤ s.dbs_tuners_ins.down_differential →
      s.dbs_tuners_ins.down_differential ≤ s.dbs_tuners_ins.up_threshold_at_min_freq →
      s.dbs_tuners_ins.down_differential < s.dbs_tuners_ins.up_threshold →
      s.dbs_tuners_ins.up_threshold ≤ 100 →
      s.dbs_tuners_ins.up_threshold_at_min_freq ≤ 100 →
      100 ≤ f → 100 * f < U32 →
      ∃ b2 s2, dbs_check_cpu_decide cfg env s1 this_cpu pid L = some (b2, s2) ∧
        s2.requests = s1.requests) ∧
    (cfg.arch_exynos = false → f = (s1.policies pid).max →
      ∀ s2, dbs_check_cpu_decide cfg env s1 this_cpu pid L = some (Branch.raise, s2) →
        s2.requests = s1.requests) := by
  refine ⟨?_, ?_, ?_⟩
  · intro hb
    subst hb
    obtain ⟨-, hcand⟩ := lower_then_candidate_is_cur cfg env s s1 this_cpu pid L f h1 hreq hdrv
    by_cases hr : L > u32 ((if (s1.policies pid).cur < s1.dbs_tuners_ins.freq_for_responsiveness
          then s1.dbs_tuners_ins.up_threshold_at_min_freq
          else s1.dbs_tuners_ins.up_threshold) * (s1.policies pid).cur)
    · obtain ⟨s2, hs2⟩ := decide_raise cfg env s1 this_cpu pid L hr
      exact ⟨_, _, hs2, Or.inl rfl⟩
    · obtain ⟨b2, s2, hs2, hq⟩ := second_call_of_not_raise cfg env s1 this_cpu pid L hcand hr
      exact ⟨b2, s2, hs2, Or.inr hq⟩
  · intro hb hd1 hdA hdU hU hA hf hf2
    subst hb
    obtain ⟨ht, hcand⟩ := lower_then_candidate_is_cur cfg env s s1 this_cpu pid L f h1 hreq hdrv
    rw [← ht] at hd1 hdA hdU hU hA
    rw [← hdrv] at hf hf2
    exact second_call_of_not_raise cfg env s1 this_cpu pid L hcand
      (lower_candidate_not_raise _ _ _ _ hcand hd1 hdA hdU hU hA hf hf2)
  · intro hx hmax s2 h2
    have hcm : (s1.policies pid).cur = (s1.policies pid).max := by rw [hdrv, hmax]
    by_cases hr : L > u32 ((if (s1.policies pid).cur < s1.dbs_tuners_ins.freq_for_responsiveness
          then s1.dbs_tuners_ins.up_threshold_at_min_freq
          else s1.dbs_tuners_ins.up_threshold) * (s1.policies pid).cur)
    · unfold dbs_check_cpu_decide at h2
      simp only [hr, if_true, Option.some.injEq, Prod.mk.injEq, true_and] at h2
      have hlt : ¬ ((s1.policies pid).cur < (s1.policies pid).max ∧
          min (s1.policies pid).max (u32 ((s1.policies pid).cur
            + u32 ((s1.policies pid).max * s1.dbs_tuners_ins.freq_step) / 100))
            = (s1.policies pid).max) := by
        rintro ⟨h, -⟩
        omega
      rw [if_neg hlt] at h2
      unfold dbs_freq_increase at h2
      rw [if_pos ⟨hx, hcm⟩] at h2
      rw [← h2]
    · by_cases hh : cfg.arch_exynos = false ∧ (s1.policies pid).cur = (s1.policies pid).min
      · rw [decide_hold_min cfg env s1 this_cpu pid L hr hh] at h2
        simp at h2
      · by_cases h3 : L < u32 (sub32 s1.dbs_tuners_ins.up_threshold
            s1.dbs_tuners_ins.down_differential * (s1.policies pid).cur)
        · cases hfn : lower_freq_next s1.dbs_tuners_ins (s1.policies pid).min L with
          | none =>
            unfold dbs_check_cpu_decide at h2
            simp only [if_neg hr, if_neg hh, if_pos h3, hfn] at h2
            simp at h2
          | some f' =>
            rw [decide_lower cfg env s1 this_cpu pid L f' hr hh h3 hfn] at h2
            simp at h2
        · rw [decide_hold cfg env s1 this_cpu pid L hr hh h3] at h2
          simp at h2

/-- C5 at default tunables, `cur = max = 1000000`, `min = 100000`, load
`50000000`: the first call lowers and requests `649350`; once the driver has made
`cur = 649350`, the second call issues no request. -/
theorem dbs_check_cpu_second_call_witness :
    ∃ b2 s2,
      dbs_check_cpu_decide (ex_cfg false) (ex_env fun _ => (0, 0))
        (cpufreq_driver_target (ex_env fun _ => (0, 0))
          (set_rate_mult (ex_state ex_tuners (ex_policy 1000000 100000 1000000)) 0 1)
          0 649350 Relation.CPUFREQ_RELATION_L) 0 0 50000000 = some (b2, s2) ∧
      s2.requests =
        [{ policy := 0, freq := 649350, relation := Relation.CPUFREQ_RELATION_L }] :=
  (dbs_check_cpu_second_call (ex_cfg false) (ex_env fun _ => (0, 0))
    (ex_state ex_tuners (ex_policy 1000000 100000 1000000)) _ 0 0 50000000 649350
    Branch.lower (by rfl) (by rfl) (by rfl)).2.1 rfl (by decide) (by decide) (by decide)
    (by decide) (by decide) (by decide) (by decide)

/-! ### The load sampler -/

/-- C6: for every 32-bit slice length `wall_time` and every `idle_time` that
pass the skip test of `dbs_check_cpu` (`wall_time ≠ 0` and not
`wall_time < idle_time`), the load percent
`100 * (wall_time - idle_time) / wall_time`, computed in unsigned 32-bit
arithmetic (also when the product wraps modulo 2^32), is at most 100 (and, being
unsigned, at least 0). -/
theorem cur_load_le_100 (wall_time idle_time : Nat) (h32 : wall_time < U32)
    (hskip : ¬ (wall_time = 0 ∨ wall_time < idle_time)) :
    0 ≤ cur_load_of wall_time idle_time ∧ cur_load_of wall_time idle_time ≤ 100 := by
  have hw : 0 < wall_time := by omega
  have hi : idle_time ≤ wall_time := by omega
  refine ⟨Nat.zero_le _, ?_⟩
  unfold cur_load_of
  rw [sub32_of_le hi h32]
  have h1 : u32 (100 * (wall_time - idle_time)) ≤ 100 * (wall_time - idle_time) :=
    Nat.mod_le _ _
  have h2 : 100 * (wall_time - idle_time) ≤ 100 * wall_time :=
    Nat.mul_le_mul_left 100 (Nat.sub_le _ _)
  calc u32 (100 * (wall_time - idle_time)) / wall_time
      ≤ (100 * wall_time) / wall_time := Nat.div_le_div_right (Nat.le_trans h1 h2)
    _ = 100 := Nat.mul_div_cancel 100 hw

/-- C6 at a slice of 50 seconds with no idle time, where `100 * wall_time`
exceeds 2^32 and wraps: the computed load is 14. -/
theorem cur_load_le_100_witness :
    U32 ≤ 100 * (50000000 - 0) ∧ cur_load_of 50000000 0 = 14 ∧
    (0 ≤ cur_load_of 50000000 0 ∧ cur_load_of 50000000 0 ≤ 100) :=
  ⟨by decide, by decide, cur_load_le_100 50000000 0 (by decide) (by decide)⟩

theorem dbs_freq_increase_info (cfg : Config) (env : Env) (s : State) (pid freq : Nat) :
    (dbs_freq_increase cfg env s pid freq).od_cpu_dbs_info = s.od_cpu_dbs_info ∧
    (dbs_freq_increase cfg env s pid freq).dbs_tuners_ins = s.dbs_tuners_ins := by
  unfold dbs_freq_increase
  split_ifs <;> exact ⟨rfl, rfl⟩

/-- C8, as stated, fails for tunables the configuration surface accepts: with
`sampling_rate = 50000` and `sampling_down_factor = 100000` a raise from
`cur = 700000` to `max = 1000000` sets `rate_mult = 100000`, and the interval
`do_dbs_timer` then computes is `141007` ticks (`HZ = 200`), the conversion of
`50000 * 100000` wrapped to `705032704`; `50000 * 100000` microseconds are
`1000000` ticks. -/
theorem stretched_interval_wraps :
    (dbs_check_cpu_decide (ex_cfg false) (ex_env fun _ => (0, 0))
        (ex_state { ex_tuners with sampling_down_factor := 100000 }
          (ex_policy 700000 100000 1000000)) 0 0 60000000).map
      (fun r => (r.1, (r.2.od_cpu_dbs_info 0).rate_mult, dbs_interval (ex_cfg false) r.2 0))
      = some (Branch.raise, 100000, 141007) ∧
    (ex_cfg false).usecs_to_jiffies
        (({ ex_tuners with sampling_down_factor := 100000 } : dbs_tuners).sampling_rate
          * ({ ex_tuners with sampling_down_factor := 100000 } : dbs_tuners).sampling_down_factor)
      = 1000000 := by
  refine ⟨by rfl, by decide⟩

/-- C8 (amended): (1) when the decision part of `dbs_check_cpu` raises from
`policy.cur < policy.max` and the target equals `policy.max`, `rate_mult`
becomes `sampling_down_factor` and the interval `do_dbs_timer` computes from the
resulting state is `(sampling_rate * sampling_down_factor) mod 2^32` converted to
ticks; (2) whenever the lowering block is entered (also when the candidate
equals `policy.cur`), `rate_mult` becomes 1 and the interval is `sampling_rate`
converted to ticks; (3) `do_dbs_timer` runs `dbs_check_cpu` and queues the work
with that interval after phase alignment, which leaves it unchanged when at
most one CPU is online. -/
theorem rate_mult_interval (cfg : Config) (env : Env) (s : State) (this_cpu pid L : Nat) :
    ((s.policies pid).cur < (s.policies pid).max →
      L > u32 ((if (s.policies pid).cur < s.dbs_tuners_ins.freq_for_responsiveness
          then s.dbs_tuners_ins.up_threshold_at_min_freq
          else s.dbs_tuners_ins.up_threshold) * (s.policies pid).cur) →
      min (s.policies pid).max (u32 ((s.policies pid).cur
        + u32 ((s.policies pid).max * s.dbs_tuners_ins.freq_step) / 100))
        = (s.policies pid).max →
      ∃ s', dbs_check_cpu_decide cfg env s this_cpu pid L = some (Branch.raise, s') ∧
        (s'.od_cpu_dbs_info this_cpu).rate_mult = s.dbs_tuners_ins.sampling_down_factor ∧
        dbs_interval cfg s' this_cpu = u32 (cfg.usecs_to_jiffies
          (u32 (s.dbs_tuners_ins.sampling_rate * s.dbs_tuners_ins.sampling_down_factor)))) ∧
    (∀ s', dbs_check_cpu_decide cfg env s this_cpu pid L = some (Branch.lower, s') →
      (s'.od_cpu_dbs_info this_cpu).rate_mult = 1 ∧
      dbs_interval cfg s' this_cpu
        = u32 (cfg.usecs_to_jiffies (u32 s.dbs_tuners_ins.sampling_rate))) ∧
    (∀ s2, do_dbs_timer cfg env s this_cpu = some s2 →
      ∃ s1 d, dbs_check_cpu cfg env s this_cpu = some s1 ∧
        align_delay env (dbs_interval cfg s1 this_cpu) = some d ∧
        (s2.od_cpu_dbs_info this_cpu).work
          = some { cpu := (s.od_cpu_dbs_info this_cpu).cpu, delay := d } ∧
        (env.num_online_cpus ≤ 1 → d = dbs_interval cfg s1 this_cpu)) := by
  refine ⟨?_, ?_, ?_⟩
  · intro hcur hL htarget
    unfold dbs_check_cpu_decide
    simp only [hL, if_true, htarget, hcur, and_self]
    refine ⟨_, rfl, ?_, ?_⟩
    · rw [(dbs_freq_increase_info _ _ _ _ _).1]
      simp
    · unfold dbs_interval
      rw [(dbs_freq_increase_info _ _ _ _ _).1, (dbs_freq_increase_info _ _ _ _ _).2]
      simp
  · intro s' h
    obtain ⟨f, -, hs'⟩ := decide_lower_inv cfg env s s' this_cpu pid L h
    subst hs'
    unfold dbs_interval
    split_ifs <;> simp
  · intro s2 h
    unfold do_dbs_timer at h
    cases h1 : dbs_check_cpu cfg env s this_cpu with
    | none => simp [h1] at h
    | some s1 =>
      cases h2 : align_delay env (dbs_interval cfg s1 this_cpu) with
      | none => simp [h1, h2] at h
      | some d =>
        simp only [h1, h2, Option.some.injEq] at h
        refine ⟨s1, d, rfl, h2, ?_, ?_⟩
        · rw [← h]
          simp [schedule_delayed_work_on]
        · intro hn
          unfold align_delay at h2
          rw [if_neg (by omega)] at h2
          simpa using h2.symm

/-- C8 on a run: with `sampling_rate = 50000` and `sampling_down_factor = 4`, a
raise from `cur = 700000` to `max = 1000000` under load `60000000` sets
`rate_mult = 4` and the interval to `50000 * 4` microseconds, 40 ticks; the next
decision under the same load lowers and sets `rate_mult = 1`, and the interval
is 10 ticks. -/
theorem rate_mult_interval_witness :
    (∃ s', dbs_check_cpu_decide (ex_cfg false) (ex_env fun _ => (0, 0))
        (ex_state { ex_tuners with sampling_down_factor := 4 }
          (ex_policy 700000 100000 1000000)) 0 0 60000000 = some (Branch.raise, s') ∧
      (s'.od_cpu_dbs_info 0).rate_mult = 4 ∧
      dbs_interval (ex_cfg false) s' 0 = 40) ∧
    ((cpufreq_driver_target (ex_env fun _ => (0, 0))
        (set_rate_mult
          (cpufreq_driver_target (ex_env fun _ => (0, 0))
            (set_rate_mult (ex_state { ex_tuners with sampling_down_factor := 4 }
              (ex_policy 700000 100000 1000000)) 0 4) 0 1000000
            Relation.CPUFREQ_RELATION_L) 0 1) 0 779220
        Relation.CPUFREQ_RELATION_L).od_cpu_dbs_info 0).rate_mult = 1 ∧
    dbs_interval (ex_cfg false)
      (cpufreq_driver_target (ex_env fun _ => (0, 0))
        (set_rate_mult
          (cpufreq_driver_target (ex_env fun _ => (0, 0))
            (set_rate_mult (ex_state { ex_tuners with sampling_down_factor := 4 }
              (ex_policy 700000 100000 1000000)) 0 4) 0 1000000
            Relation.CPUFREQ_RELATION_L) 0 1) 0 779220
        Relation.CPUFREQ_RELATION_L) 0 = 10 :=
  ⟨(rate_mult_interval (ex_cfg false) (ex_env fun _ => (0, 0))
      (ex_state { ex_tuners with sampling_down_factor := 4 }
        (ex_policy 700000 100000 1000000)) 0 0 60000000).1
      (by decide) (by decide) (by decide),
    ((rate_mult_interval (ex_cfg false) (ex_env fun _ => (0, 0))
      (cpufreq_driver_target (ex_env fun _ => (0, 0))
        (set_rate_mult (ex_state { ex_tuners with sampling_down_factor := 4 }
          (ex_policy 700000 100000 1000000)) 0 4) 0 1000000
        Relation.CPUFREQ_RELATION_L) 0 0 60000000).2.1 _ (by rfl)).1,
    ((rate_mult_interval (ex_cfg false) (ex_env fun _ => (0, 0))
      (cpufreq_driver_target (ex_env fun _ => (0, 0))
        (set_rate_mult (ex_state { ex_tuners with sampling_down_factor := 4 }
          (ex_policy 700000 100000 1000000)) 0 4) 0 1000000
        Relation.CPUFREQ_RELATION_L) 0 0 60000000).2.1 _ (by rfl)).2⟩

/-! ### The invariant on `rate_mult` -/

theorem SameSched.refl (s : State) : SameSched s s := ⟨rfl, fun _ => ⟨rfl, rfl⟩⟩

theorem SameSched.trans {s1 s2 s3 : State} (h12 : SameSched s1 s2) (h23 : SameSched s2 s3) :
    SameSched s1 s3 :=
  ⟨h23.1.trans h12.1, fun idx =>
    ⟨(h23.2 idx).1.trans (h12.2 idx).1, (h23.2 idx).2.trans (h12.2 idx).2⟩⟩

theorem inv_of_same {s s' : State} (h : RateMultInv s) (hs : SameSched s s') :
    RateMultInv s' := by
  refine ⟨by rw [hs.1]; exact h.1, fun idx hw => ?_⟩
  rw [(hs.2 idx).2]
  rw [(hs.2 idx).1] at hw
  exact h.2 idx hw

theorem sameSched_set_info (s : State) (j : Nat) (i : cpu_dbs_info_s)
    (hw : i.work = (s.od_cpu_dbs_info j).work)
    (hr : i.rate_mult = (s.od_cpu_dbs_info j).rate_mult) :
    SameSched s (set_info s j i) := by
  refine ⟨rfl, fun idx => ?_⟩
  by_cases h : idx = j
  · subst h
    rw [set_info_same]
    exact ⟨hw, hr⟩
  · rw [set_info_other s j idx i h]
    exact ⟨rfl, rfl⟩

theorem dbs_sample_read_sched (cfg : Config) (env : Env) (ignore_nice : Nat)
    (i : cpu_dbs_info_s) (j : Nat) :
    (dbs_sample_read cfg env ignore_nice i j).info.work = i.work ∧
    (dbs_sample_read cfg env ignore_nice i j).info.rate_mult = i.rate_mult ∧
    (dbs_sample_read cfg env ignore_nice i j).info.cur_policy = i.cur_policy := by
  unfold dbs_sample_read
  split_ifs <;> exact ⟨rfl, rfl, rfl⟩

/-- The two ways an iteration of the sampling loop returns: the CPU is skipped and
only its record is updated, or the sample is used, with a non-zero `wall_time`
and a non-zero `cpuinfo.max_freq`. -/
theorem sample_cpu_shape (cfg : Config) (env : Env) (pid : Nat) (acc acc' : SampleAcc)
    (j : Nat) (h : dbs_sample_cpu cfg env pid acc j = some acc') :
    acc' = { acc with
              s := set_info acc.s j
                (dbs_sample_read cfg env acc.s.dbs_tuners_ins.ignore_nice
                  (acc.s.od_cpu_dbs_info j) j).info } ∨
    ((dbs_sample_read cfg env acc.s.dbs_tuners_ins.ignore_nice
        (acc.s.od_cpu_dbs_info j) j).wall_time ≠ 0 ∧
      (acc.s.policies pid).cpuinfo_max_freq ≠ 0 ∧
      ∃ m l, acc' =
        { s := cpufreq_notify_utilization (set_info acc.s j
            (dbs_sample_read cfg env acc.s.dbs_tuners_ins.ignore_nice
              (acc.s.od_cpu_dbs_info j) j).info) pid l
          max_load_freq := m
          load_at_max_freq := l }) := by
  unfold dbs_sample_cpu at h
  dsimp only at h
  revert h
  generalize dbs_sample_read cfg env acc.s.dbs_tuners_ins.ignore_nice
    (acc.s.od_cpu_dbs_info j) j = r
  intro h
  by_cases hd : r.deep_sleep = true
  · rw [if_pos hd] at h
    simp only [Option.some.injEq] at h
    exact Or.inl h.symm
  · by_cases hw : r.wall_time = 0 ∨ r.wall_time < r.idle_time
    · rw [if_neg hd, if_pos hw] at h
      simp only [Option.some.injEq] at h
      exact Or.inl h.symm
    · have hw0 : ¬ r.wall_time = 0 := fun e => hw (Or.inl e)
      rw [if_neg hd, if_neg hw, if_neg hw0] at h
      dsimp only at h
      by_cases hci : (acc.s.policies pid).cpuinfo_max_freq = 0
      · unfold udiv at h
        rw [if_pos hci] at h
        simp at h
      · unfold udiv at h
        rw [if_neg hci] at h
        simp only [Option.some.injEq] at h
        exact Or.inr ⟨hw0, hci, _, _, h.symm⟩

theorem sameSched_sample_cpu (cfg : Config) (env : Env) (pid : Nat) (acc acc' : SampleAcc)
    (j : Nat) (h : dbs_sample_cpu cfg env pid acc j = some acc') :
    SameSched acc.s acc'.s := by
  have hinfo := sameSched_set_info acc.s j
    (dbs_sample_read cfg env acc.s.dbs_tuners_ins.ignore_nice (acc.s.od_cpu_dbs_info j) j).info
    (dbs_sample_read_sched _ _ _ _ _).1 (dbs_sample_read_sched _ _ _ _ _).2.1
  rcases sample_cpu_shape cfg env pid acc acc' j h with e | ⟨-, -, m, l, e⟩
  · rw [e]
    exact hinfo
  · rw [e]
    exact hinfo

theorem sameSched_foldlM_sample (cfg : Config) (env : Env) (pid : Nat) (cpus : List Nat) :
    ∀ acc acc' : SampleAcc,
      cpus.foldlM (dbs_sample_cpu cfg env pid) acc = some acc' → SameSched acc.s acc'.s := by
  induction cpus with
  | nil =>
    intro acc acc' h
    simp only [List.foldlM_nil, Option.pure_def, Option.some.injEq] at h
    rw [← h]
    exact SameSched.refl _
  | cons j js ih =>
    intro acc acc' h
    rw [List.foldlM_cons] at h
    cases h1 : dbs_sample_cpu cfg env pid acc j with
    | none => simp [h1] at h
    | some acc1 =>
      simp only [h1, Option.bind_eq_bind, Option.some_bind] at h
      exact (sameSched_sample_cpu cfg env pid acc acc1 j h1).trans (ih acc1 acc' h)

theorem sameSched_sample (cfg : Config) (env : Env) (s : State) (pid : Nat) (acc : SampleAcc)
    (h : dbs_sample cfg env s pid = some acc) : SameSched s acc.s :=
  sameSched_foldlM_sample cfg env pid _ _ _ h

theorem sameSched_driver_target (env : Env) (s : State) (pid freq : Nat) (rel : Relation) :
    SameSched s (cpufreq_driver_target env s pid freq rel) := ⟨rfl, fun _ => ⟨rfl, rfl⟩⟩

theorem inv_set_rate_mult {s : State} (h : RateMultInv s) (j v : Nat)
    (hv : 1 ≤ v ∧ v ≤ MAX_SAMPLING_DOWN_FACTOR) : RateMultInv (set_rate_mult s j v) := by
  refine ⟨h.1, fun idx hw => ?_⟩
  by_cases hj : idx = j
  · subst hj
    rw [set_rate_mult_same]
    exact hv
  · unfold set_rate_mult at hw ⊢
    rw [set_info_other _ _ _ _ hj] at hw ⊢
    exact h.2 idx hw

theorem inv_freq_increase {s : State} (h : RateMultInv s) (cfg : Config) (env : Env)
    (pid freq : Nat) : RateMultInv (dbs_freq_increase cfg env s pid freq) := by
  unfold dbs_freq_increase
  split_ifs
  · exact h
  · exact inv_of_same h (sameSched_driver_target _ _ _ _ _)

theorem inv_decide {cfg : Config} {env : Env} {s s' : State} {this_cpu pid L : Nat}
    {b : Branch} (h : RateMultInv s)
    (hd : dbs_check_cpu_decide cfg env s this_cpu pid L = some (b, s')) : RateMultInv s' := by
  have one : (1 : Nat) ≤ 1 ∧ 1 ≤ MAX_SAMPLING_DOWN_FACTOR := by decide
  by_cases h1 : L > u32 ((if (s.policies pid).cur < s.dbs_tuners_ins.freq_for_responsiveness
          then s.dbs_tuners_ins.up_threshold_at_min_freq
          else s.dbs_tuners_ins.up_threshold) * (s.policies pid).cur)
  · unfold dbs_check_cpu_decide at hd
    simp only [h1, if_true, Option.some.injEq, Prod.mk.injEq] at hd
    obtain ⟨-, rfl⟩ := hd
    have hs1 : RateMultInv (if (s.policies pid).cur < (s.policies pid).max ∧
        min (s.policies pid).max (u32 ((s.policies pid).cur
          + u32 ((s.policies pid).max * s.dbs_tuners_ins.freq_step) / 100))
          = (s.policies pid).max
        then set_rate_mult s this_cpu s.dbs_tuners_ins.sampling_down_factor else s) := by
      split_ifs
      · exact inv_set_rate_mult h _ _ h.1
      · exact h
    exact inv_freq_increase hs1 _ _ _ _
  · by_cases h2 : cfg.arch_exynos = false ∧ (s.policies pid).cur = (s.policies pid).min
    · rw [decide_hold_min cfg env s this_cpu pid L h1 h2] at hd
      simp only [Option.some.injEq, Prod.mk.injEq] at hd
      obtain ⟨-, rfl⟩ := hd
      exact h
    · by_cases h3 : L < u32 (sub32 s.dbs_tuners_ins.up_threshold
          s.dbs_tuners_ins.down_differential * (s.policies pid).cur)
      · obtain ⟨f, -, hs'⟩ := decide_lower_inv cfg env s s' this_cpu pid L (by
          cases hf : lower_freq_next s.dbs_tuners_ins (s.policies pid).min L with
          | none =>
            unfold dbs_check_cpu_decide at hd
            simp only [if_neg h1, if_neg h2, if_pos h3, hf] at hd
            simp at hd
          | some f =>
            rw [decide_lower cfg env s this_cpu pid L f h1 h2 h3 hf] at hd
            simp only [Option.some.injEq, Prod.mk.injEq] at hd
            rw [decide_lower cfg env s this_cpu pid L f h1 h2 h3 hf, ← hd.2])
        rw [hs']
        split_ifs
        · exact inv_set_rate_mult h _ _ one
        · exact inv_of_same (inv_set_rate_mult h _ _ one) (sameSched_driver_target _ _ _ _ _)
      · rw [decide_hold cfg env s this_cpu pid L h1 h2 h3] at hd
        simp only [Option.some.injEq, Prod.mk.injEq] at hd
        obtain ⟨-, rfl⟩ := hd
        exact h

theorem inv_check_cpu {cfg : Config} {env : Env} {s s' : State} {idx : Nat}
    (h : RateMultInv s) (hc : dbs_check_cpu cfg env s idx = some s') :
    RateMultInv s' ∧ ∀ k, (s'.od_cpu_dbs_info k).work = (s.od_cpu_dbs_info k).work := by
  unfold dbs_check_cpu at hc
  cases hp : (s.od_cpu_dbs_info idx).cur_policy with
  | none => simp [hp] at hc
  | some pid =>
    cases hs : dbs_sample cfg env s pid with
    | none => simp [hp, hs] at hc
    | some acc =>
      cases hd : dbs_check_cpu_decide cfg env acc.s idx pid acc.max_load_freq with
      | none => simp [hp, hs, hd] at hc
      | some r =>
        simp only [hp, hs, hd, Option.some.injEq] at hc
        obtain ⟨b, s2⟩ := r
        simp only at hc
        subst hc
        have hsame := sameSched_sample cfg env s pid acc hs
        refine ⟨inv_decide (inv_of_same h hsame) hd, fun k => ?_⟩
        rw [← (hsame.2 k).1]
        -- the decision never touches the queued work
        by_cases h1 : acc.max_load_freq > u32 ((if (acc.s.policies pid).cur
              < acc.s.dbs_tuners_ins.freq_for_responsiveness
              then acc.s.dbs_tuners_ins.up_threshold_at_min_freq
              else acc.s.dbs_tuners_ins.up_threshold) * (acc.s.policies pid).cur)
        · unfold dbs_check_cpu_decide at hd
          simp only [h1, if_true, Option.some.injEq, Prod.mk.injEq] at hd
          obtain ⟨-, rfl⟩ := hd
          rw [(dbs_freq_increase_info _ _ _ _ _).1]
          split_ifs
          · by_cases hk : k = idx
            · subst hk; simp [set_rate_mult]
            · unfold set_rate_mult; rw [set_info_other _ _ _ _ hk]
          · rfl
        · by_cases h2 : cfg.arch_exynos = false ∧
              (acc.s.policies pid).cur = (acc.s.policies pid).min
          · rw [decide_hold_min cfg env acc.s idx pid _ h1 h2] at hd
            simp only [Option.some.injEq, Prod.mk.injEq] at hd
            obtain ⟨-, rfl⟩ := hd
            rfl
          · by_cases h3 : acc.max_load_freq < u32 (sub32 acc.s.dbs_tuners_ins.up_threshold
                acc.s.dbs_tuners_ins.down_differential * (acc.s.policies pid).cur)
            · cases hf : lower_freq_next acc.s.dbs_tuners_ins (acc.s.policies pid).min
                  acc.max_load_freq with
              | none =>
                unfold dbs_check_cpu_decide at hd
                simp only [if_neg h1, if_neg h2, if_pos h3, hf] at hd
                simp at hd
              | some f =>
                rw [decide_lower cfg env acc.s idx pid _ f h1 h2 h3 hf] at hd
                simp only [Option.some.injEq, Prod.mk.injEq] at hd
                obtain ⟨-, rfl⟩ := hd
                have hrm : ((set_rate_mult acc.s idx 1).od_cpu_dbs_info k).work
                    = (acc.s.od_cpu_dbs_info k).work := by
                  by_cases hk : k = idx
                  · subst hk; simp [set_rate_mult]
                  · unfold set_rate_mult; rw [set_info_other _ _ _ _ hk]
                split_ifs
                · exact hrm
                · exact hrm
            · rw [decide_hold cfg env acc.s idx pid _ h1 h2 h3] at hd
              simp only [Option.some.injEq, Prod.mk.injEq] at hd
              obtain ⟨-, rfl⟩ := hd
              rfl

theorem one_in_range : (1 : Nat) ≤ 1 ∧ 1 ≤ MAX_SAMPLING_DOWN_FACTOR := by decide

theorem inv_schedule {s : State} (h : RateMultInv s) (idx cpu delay : Nat)
    (hr : 1 ≤ (s.od_cpu_dbs_info idx).rate_mult ∧
      (s.od_cpu_dbs_info idx).rate_mult ≤ MAX_SAMPLING_DOWN_FACTOR) :
    RateMultInv (schedule_delayed_work_on s idx cpu delay) := by
  refine ⟨h.1, fun k hw => ?_⟩
  unfold schedule_delayed_work_on at hw ⊢
  by_cases hk : k = idx
  · subst hk
    rw [set_info_same]
    exact hr
  · rw [set_info_other _ _ _ _ hk] at hw ⊢
    exact h.2 k hw

theorem inv_timer {cfg : Config} {env : Env} {s s' : State} {idx : Nat} (h : RateMultInv s)
    (hw : (s.od_cpu_dbs_info idx).work ≠ none) (ht : do_dbs_timer cfg env s idx = some s') :
    RateMultInv s' := by
  unfold do_dbs_timer at ht
  cases h1 : dbs_check_cpu cfg env s idx with
  | none => simp [h1] at ht
  | some s1 =>
    cases h2 : align_delay env (dbs_interval cfg s1 idx) with
    | none => simp [h1, h2] at ht
    | some d =>
      simp only [h1, h2, Option.some.injEq] at ht
      obtain ⟨hinv, hwork⟩ := inv_check_cpu h h1
      rw [← ht]
      exact inv_schedule hinv _ _ _ (hinv.2 idx (by rw [hwork idx]; exact hw))

theorem inv_timer_init {cfg : Config} {env : Env} {s s' : State} {idx : Nat}
    (h : RateMultInv s)
    (hr : 1 ≤ (s.od_cpu_dbs_info idx).rate_mult ∧
      (s.od_cpu_dbs_info idx).rate_mult ≤ MAX_SAMPLING_DOWN_FACTOR)
    (ht : dbs_timer_init cfg env s idx = some s') : RateMultInv s' := by
  unfold dbs_timer_init at ht
  dsimp only at ht
  revert ht
  generalize align_delay env _ = o
  cases o with
  | none => intro ht; simp at ht
  | some d =>
    intro ht
    simp only [Option.some.injEq] at ht
    rw [← ht]
    exact inv_schedule h _ _ _ hr

theorem sameSched_start_init_cpus (env : Env) (pid : Nat) (cpus : List Nat) :
    ∀ s : State, SameSched s (cpus.foldl (fun st j =>
      set_info st j
        (if st.dbs_tuners_ins.ignore_nice ≠ 0 then
          { ({ st.od_cpu_dbs_info j with
                cur_policy := some pid
                prev_cpu_idle := (env.get_cpu_idle_time j).1
                prev_cpu_wall := (env.get_cpu_idle_time j).2 } : cpu_dbs_info_s) with
            prev_cpu_nice := env.cpustat_nice j }
        else
          { st.od_cpu_dbs_info j with
            cur_policy := some pid
            prev_cpu_idle := (env.get_cpu_idle_time j).1
            prev_cpu_wall := (env.get_cpu_idle_time j).2 })) s) := by
  induction cpus with
  | nil => intro s; exact SameSched.refl s
  | cons j js ih =>
    intro s
    rw [List.foldl_cons]
    refine SameSched.trans ?_ (ih _)
    apply sameSched_set_info <;> split_ifs <;> rfl

theorem sameSched_ignore_nice_fold (env : Env) (cpus : List Nat) :
    ∀ s : State, SameSched s (cpus.foldl (fun st j =>
      set_info st j
        (if st.dbs_tuners_ins.ignore_nice ≠ 0 then
          { ({ st.od_cpu_dbs_info j with
                prev_cpu_idle := (env.get_cpu_idle_time j).1
                prev_cpu_wall := (env.get_cpu_idle_time j).2 } : cpu_dbs_info_s) with
            prev_cpu_nice := env.cpustat_nice j }
        else
          { st.od_cpu_dbs_info j with
            prev_cpu_idle := (env.get_cpu_idle_time j).1
            prev_cpu_wall := (env.get_cpu_idle_time j).2 })) s) := by
  induction cpus with
  | nil => intro s; exact SameSched.refl s
  | cons j js ih =>
    intro s
    rw [List.foldl_cons]
    refine SameSched.trans ?_ (ih _)
    apply sameSched_set_info <;> split_ifs <;> rfl

theorem inv_reset_fold (cpus : List Nat) :
    ∀ s : State, RateMultInv s →
      RateMultInv (cpus.foldl (fun st j => set_rate_mult st j 1) s) := by
  induction cpus with
  | nil => intro s h; exact h
  | cons j js ih =>
    intro s h
    rw [List.foldl_cons]
    exact ih _ (inv_set_rate_mult h j 1 (by decide))

theorem inv_governor {cfg : Config} {env : Env} {s s' : State} {pid : Nat} {event : Event}
    {rc : Int} (h : RateMultInv s)
    (hg : cpufreq_governor_dbs cfg env s pid event = some (rc, s')) : RateMultInv s' := by
  cases event with
  | CPUFREQ_GOV_START =>
    unfold cpufreq_governor_dbs at hg
    dsimp only at hg
    by_cases hc : (s.policies pid).cur = 0
    · simp only [hc, if_true, Option.some.injEq, Prod.mk.injEq] at hg
      rw [← hg.2]
      exact h
    · simp only [hc, if_false] at hg
      -- the state after the per-CPU initialisation
      have h3 : RateMultInv (start_init_cpus env
          { s with
            dbs_tuners_ins :=
              { s.dbs_tuners_ins with
                max_freq := (s.policies pid).max, min_freq := (s.policies pid).min }
            dbs_enable := u32 (s.dbs_enable + 1) } pid) :=
        inv_of_same (s := { s with
            dbs_tuners_ins :=
              { s.dbs_tuners_ins with
                max_freq := (s.policies pid).max, min_freq := (s.policies pid).min }
            dbs_enable := u32 (s.dbs_enable + 1) }) ⟨h.1, h.2⟩
          (sameSched_start_init_cpus env pid _ _)
      revert hg
      generalize start_init_cpus env _ pid = s3 at h3 ⊢
      intro hg
      have h4 : RateMultInv (set_info s3 (s.policies pid).cpu
          { s3.od_cpu_dbs_info (s.policies pid).cpu with
            cpu := (s.policies pid).cpu, rate_mult := 1 }) := by
        refine ⟨h3.1, fun k hw => ?_⟩
        by_cases hk : k = (s.policies pid).cpu
        · subst hk
          rw [set_info_same]
          exact one_in_range
        · rw [set_info_other _ _ _ _ hk] at hw ⊢
          exact h3.2 k hw
      have h4r : 1 ≤ ((set_info s3 (s.policies pid).cpu
          { s3.od_cpu_dbs_info (s.policies pid).cpu with
            cpu := (s.policies pid).cpu, rate_mult := 1 }).od_cpu_dbs_info
            (s.policies pid).cpu).rate_mult ∧
          ((set_info s3 (s.policies pid).cpu
          { s3.od_cpu_dbs_info (s.policies pid).cpu with
            cpu := (s.policies pid).cpu, rate_mult := 1 }).od_cpu_dbs_info
            (s.policies pid).cpu).rate_mult ≤ MAX_SAMPLING_DOWN_FACTOR := by
        rw [set_info_same]
        exact one_in_range
      revert hg
      generalize set_info s3 (s.policies pid).cpu _ = s4 at h4 h4r ⊢
      intro hg
      split_ifs at hg with he hrc
      · simp only [Option.some.injEq, Prod.mk.injEq] at hg
        rw [← hg.2]
        exact h4
      · revert hg
        cases hi : dbs_timer_init cfg env
            { s4 with
              sysfs_group := true
              min_sampling_rate := MIN_SAMPLING_RATE
              dbs_tuners_ins := { s4.dbs_tuners_ins with sampling_rate := DEF_SAMPLING_RATE } }
            (s.policies pid).cpu with
        | none => intro hg; simp at hg
        | some s6 =>
          intro hg
          simp only [Option.some.injEq, Prod.mk.injEq] at hg
          rw [← hg.2]
          exact inv_timer_init (s := { s4 with
              sysfs_group := true
              min_sampling_rate := MIN_SAMPLING_RATE
              dbs_tuners_ins := { s4.dbs_tuners_ins with sampling_rate := DEF_SAMPLING_RATE } })
            ⟨h4.1, h4.2⟩ h4r hi
      · revert hg
        cases hi : dbs_timer_init cfg env s4 (s.policies pid).cpu with
        | none => intro hg; simp at hg
        | some s6 =>
          intro hg
          simp only [Option.some.injEq, Prod.mk.injEq] at hg
          rw [← hg.2]
          exact inv_timer_init h4 h4r hi
  | CPUFREQ_GOV_STOP =>
    unfold cpufreq_governor_dbs at hg
    dsimp only at hg
    have h1 : RateMultInv (dbs_timer_exit s (s.policies pid).cpu) := by
      refine ⟨h.1, fun k hw => ?_⟩
      unfold dbs_timer_exit at hw ⊢
      by_cases hk : k = (s.policies pid).cpu
      · subst hk
        rw [set_info_same] at hw
        exact absurd rfl hw
      · rw [set_info_other _ _ _ _ hk] at hw ⊢
        exact h.2 k hw
    revert hg
    generalize dbs_timer_exit s (s.policies pid).cpu = s1 at h1 ⊢
    intro hg
    split_ifs at hg <;> simp only [Option.some.injEq, Prod.mk.injEq] at hg <;>
      rw [← hg.2] <;> exact ⟨h1.1, h1.2⟩
  | CPUFREQ_GOV_LIMITS =>
    unfold cpufreq_governor_dbs at hg
    dsimp only at hg
    cases hp : (s.od_cpu_dbs_info (s.policies pid).cpu).cur_policy with
    | none => simp [hp] at hg
    | some q =>
      simp only [hp] at hg
      have h1 : RateMultInv (if (s.policies pid).max < (s.policies q).cur then
          cpufreq_driver_target env s q (s.policies pid).max Relation.CPUFREQ_RELATION_H
        else if (s.policies pid).min > (s.policies q).cur then
          cpufreq_driver_target env s q (s.policies pid).min Relation.CPUFREQ_RELATION_L
        else s) := by
        split_ifs
        · exact inv_of_same h (sameSched_driver_target _ _ _ _ _)
        · exact inv_of_same h (sameSched_driver_target _ _ _ _ _)
        · exact h
      revert hg
      generalize (if (s.policies pid).max < (s.policies q).cur then
          cpufreq_driver_target env s q (s.policies pid).max Relation.CPUFREQ_RELATION_H
        else if (s.policies pid).min > (s.policies q).cur then
          cpufreq_driver_target env s q (s.policies pid).min Relation.CPUFREQ_RELATION_L
        else s) = s1 at h1 ⊢
      intro hg
      cases hc : dbs_check_cpu cfg env s1 (s.policies pid).cpu with
      | none => simp [hc] at hg
      | some s2 =>
        simp only [hc, Option.some.injEq, Prod.mk.injEq] at hg
        rw [← hg.2]
        exact (inv_check_cpu h1 hc).1

theorem inv_store_sampling_down_factor {s : State} (h : RateMultInv s) (env : Env)
    (parsed : Option Nat) (count : Nat) :
    RateMultInv (store_sampling_down_factor env s parsed count).2 := by
  unfold store_sampling_down_factor
  cases parsed with
  | none => exact h
  | some input =>
    dsimp only
    split_ifs with hb
    · exact h
    · apply inv_reset_fold
      refine ⟨?_, h.2⟩
      unfold MAX_SAMPLING_DOWN_FACTOR at hb ⊢
      dsimp only
      omega

theorem inv_store_ignore_nice_load {s : State} (h : RateMultInv s) (env : Env)
    (parsed : Option Nat) (count : Nat) :
    RateMultInv (store_ignore_nice_load env s parsed count).2 := by
  unfold store_ignore_nice_load
  cases parsed with
  | none => exact h
  | some input =>
    dsimp only
    split_ifs
    · exact h
    · exact inv_of_same (s := { s with dbs_tuners_ins := { s.dbs_tuners_ins with ignore_nice := 1 } })
        ⟨h.1, h.2⟩ (sameSched_ignore_nice_fold env _ _)
    · exact h
    · exact inv_of_same
        (s := { s with dbs_tuners_ins := { s.dbs_tuners_ins with ignore_nice := input } })
        ⟨h.1, h.2⟩ (sameSched_ignore_nice_fold env _ _)

theorem inv_step {cfg : Config} {s s' : State} (h : RateMultInv s) (hs : Step cfg s s') :
    RateMultInv s' := by
  cases hs with
  | governor env pid event rc hg => exact inv_governor h hg
  | timer env idx hw ht => exact inv_timer h hw ht
  | cycle env idx hc => exact (inv_check_cpu h hc).1
  | sampling_rate parsed count =>
    unfold store_sampling_rate
    cases parsed with
    | none => exact h
    | some input => exact ⟨h.1, h.2⟩
  | up_threshold parsed count =>
    unfold store_up_threshold
    cases parsed with
    | none => exact h
    | some input =>
      dsimp only
      split_ifs
      · exact h
      · exact ⟨h.1, h.2⟩
  | sampling_down_factor env parsed count =>
    exact inv_store_sampling_down_factor h env parsed count
  | ignore_nice_load env parsed count => exact inv_store_ignore_nice_load h env parsed count
  | down_differential parsed count =>
    unfold store_down_differential
    cases parsed with
    | none => exact h
    | some input => exact ⟨h.1, h.2⟩
  | freq_step parsed count =>
    unfold store_freq_step
    cases parsed with
    | none => exact h
    | some input => exact ⟨h.1, h.2⟩
  | up_threshold_at_min_freq parsed count =>
    unfold store_up_threshold_at_min_freq
    cases parsed with
    | none => exact h
    | some input =>
      dsimp only
      split_ifs
      · exact h
      · exact ⟨h.1, h.2⟩
  | freq_for_responsiveness parsed count =>
    unfold store_freq_for_responsiveness
    cases parsed with
    | none => exact h
    | some input => exact ⟨h.1, h.2⟩
  | host policies => exact ⟨h.1, h.2⟩

theorem inv_init (policies : Nat → cpufreq_policy) : RateMultInv (init_state policies) := by
  refine ⟨one_in_range, fun idx hw => ?_⟩
  exact absurd rfl hw

theorem inv_reachable {cfg : Config} {s : State} (hreach : Reachable cfg s) :
    RateMultInv s := by
  induction hreach with
  | init policies => exact inv_init policies
  | step _ hs ih => exact inv_step ih hs

/-- C9: in every state the governor can reach from module load by governor
events (Start, Stop, Limits-changed, for any policy), runs of the timer work,
sampling cycles (`dbs_check_cpu`), writes to any of the sysfs files (among them
`store_sampling_down_factor`) and changes the host makes to its policy objects,
every CPU whose work is queued, that is, every CPU a successful Start has armed
and no Stop has disarmed, has `1 ≤ rate_mult ≤ 100000`. -/
theorem rate_mult_bounds (cfg : Config) (s : State) (hreach : Reachable cfg s) (idx : Nat)
    (hwork : (s.od_cpu_dbs_info idx).work ≠ none) :
    1 ≤ (s.od_cpu_dbs_info idx).rate_mult ∧ (s.od_cpu_dbs_info idx).rate_mult ≤ 100000 := by
  exact (inv_reachable hreach).2 idx hwork

/-- C9 on the state right after a successful Start: starting from module load
with a policy `cur = 700000`, `min = 100000`, `max = 1000000` on CPU 0, Start
returns 0, queues the work of CPU 0, and that CPU's `rate_mult` is within
`[1, 100000]`. -/
theorem rate_mult_bounds_witness :
    ∃ s1, cpufreq_governor_dbs (ex_cfg false) (ex_env fun _ => (0, 0))
        (init_state fun _ => ex_policy 700000 100000 1000000) 0 Event.CPUFREQ_GOV_START
        = some (0, s1) ∧
      (s1.od_cpu_dbs_info 0).work ≠ none ∧
      1 ≤ (s1.od_cpu_dbs_info 0).rate_mult ∧ (s1.od_cpu_dbs_info 0).rate_mult ≤ 100000 := by
  refine ⟨_, rfl, by decide, ?_⟩
  exact rate_mult_bounds (ex_cfg false) _
    (Reachable.step (Reachable.init fun _ => ex_policy 700000 100000 1000000)
      (Step.governor (ex_env fun _ => (0, 0)) 0 Event.CPUFREQ_GOV_START 0 rfl)) 0 (by decide)

/-! ### The Limits-changed event -/

theorem requests_sample_cpu (cfg : Config) (env : Env) (pid : Nat) (acc acc' : SampleAcc)
    (j : Nat) (h : dbs_sample_cpu cfg env pid acc j = some acc') :
    acc'.s.requests = acc.s.requests := by
  rcases sample_cpu_shape cfg env pid acc acc' j h with e | ⟨-, -, m, l, e⟩
  · rw [e]
    rfl
  · rw [e]
    rfl

theorem requests_foldlM_sample (cfg : Config) (env : Env) (pid : Nat) (cpus : List Nat) :
    ∀ acc acc' : SampleAcc,
      cpus.foldlM (dbs_sample_cpu cfg env pid) acc = some acc' →
      acc'.s.requests = acc.s.requests := by
  induction cpus with
  | nil =>
    intro acc acc' h
    simp only [List.foldlM_nil, Option.pure_def, Option.some.injEq] at h
    rw [← h]
  | cons j js ih =>
    intro acc acc' h
    rw [List.foldlM_cons] at h
    cases h1 : dbs_sample_cpu cfg env pid acc j with
    | none => simp [h1] at h
    | some acc1 =>
      simp only [h1, Option.bind_eq_bind, Option.some_bind] at h
      rw [ih acc1 acc' h, requests_sample_cpu cfg env pid acc acc1 j h1]

/-- One run of `dbs_check_cpu` leaves the request log as it was or appends one
request with `CPUFREQ_RELATION_L`. -/
theorem check_cpu_requests (cfg : Config) (env : Env) (s s' : State) (idx : Nat)
    (hc : dbs_check_cpu cfg env s idx = some s') :
    ∃ rest, s'.requests = s.requests ++ rest ∧ rest.length ≤ 1 ∧
      ∀ r ∈ rest, r.relation = Relation.CPUFREQ_RELATION_L := by
  unfold dbs_check_cpu at hc
  cases hp : (s.od_cpu_dbs_info idx).cur_policy with
  | none => simp [hp] at hc
  | some pid =>
    cases hs : dbs_sample cfg env s pid with
    | none => simp [hp, hs] at hc
    | some acc =>
      cases hd : dbs_check_cpu_decide cfg env acc.s idx pid acc.max_load_freq with
      | none => simp [hp, hs, hd] at hc
      | some r =>
        simp only [hp, hs, hd, Option.some.injEq] at hc
        obtain ⟨b, s2⟩ := r
        simp only at hc
        subst hc
        have hreq : acc.s.requests = s.requests := requests_foldlM_sample cfg env pid _ _ _ hs
        rcases decide_requests_append cfg env acc.s s2 idx pid _ b hd with h1 | ⟨f, h1⟩
        · exact ⟨[], by simp [h1, hreq], by simp, by simp⟩
        · refine ⟨_, by rw [h1, hreq], by simp, ?_⟩
          intro r hr
          simp only [List.mem_singleton] at hr
          rw [hr]

/-- C10: a Limits-changed event for `policy`, on a CPU whose record points at
the policy object `cur_policy`. If `policy.max` is below `cur_policy.cur`, the
event first requests `policy.max` with `CPUFREQ_RELATION_H` (at-most); otherwise,
if `policy.min` is above `cur_policy.cur`, it first requests `policy.min` with
`CPUFREQ_RELATION_L` (at-least); otherwise it makes no forced request. In all
three cases the event then runs `dbs_check_cpu` exactly once, on the state the
forced request left, and returns 0 with the state that run produces; the run
adds at most one request after the forced one. -/
theorem limits_changed (cfg : Config) (env : Env) (s : State) (pid q : Nat)
    (hq : (s.od_cpu_dbs_info (s.policies pid).cpu).cur_policy = some q) :
    ((s.policies pid).max < (s.policies q).cur →
      cpufreq_governor_dbs cfg env s pid Event.CPUFREQ_GOV_LIMITS
        = (dbs_check_cpu cfg env
            (cpufreq_driver_target env s q (s.policies pid).max Relation.CPUFREQ_RELATION_H)
            (s.policies pid).cpu).map (fun s2 => (0, s2)) ∧
      ∀ rc s2, cpufreq_governor_dbs cfg env s pid Event.CPUFREQ_GOV_LIMITS = some (rc, s2) →
        rc = 0 ∧ ∃ rest, rest.length ≤ 1 ∧
          s2.requests = s.requests ++
            { policy := q, freq := (s.policies pid).max
              relation := Relation.CPUFREQ_RELATION_H } :: rest) ∧
    (¬ (s.policies pid).max < (s.policies q).cur →
      (s.policies pid).min > (s.policies q).cur →
      cpufreq_governor_dbs cfg env s pid Event.CPUFREQ_GOV_LIMITS
        = (dbs_check_cpu cfg env
            (cpufreq_driver_target env s q (s.policies pid).min Relation.CPUFREQ_RELATION_L)
            (s.policies pid).cpu).map (fun s2 => (0, s2)) ∧
      ∀ rc s2, cpufreq_governor_dbs cfg env s pid Event.CPUFREQ_GOV_LIMITS = some (rc, s2) →
        rc = 0 ∧ ∃ rest, rest.length ≤ 1 ∧
          s2.requests = s.requests ++
            { policy := q, freq := (s.policies pid).min
              relation := Relation.CPUFREQ_RELATION_L } :: rest) ∧
    (¬ (s.policies pid).max < (s.policies q).cur →
      ¬ (s.policies pid).min > (s.policies q).cur →
      cpufreq_governor_dbs cfg env s pid Event.CPUFREQ_GOV_LIMITS
        = (dbs_check_cpu cfg env s (s.policies pid).cpu).map (fun s2 => (0, s2)) ∧
      ∀ rc s2, cpufreq_governor_dbs cfg env s pid Event.CPUFREQ_GOV_LIMITS = some (rc, s2) →
        rc = 0 ∧ ∃ rest, rest.length ≤ 1 ∧ s2.requests = s.requests ++ rest) := by
  have main : ∀ s1 : State,
      (match dbs_check_cpu cfg env s1 (s.policies pid).cpu with
        | none => none
        | some s2 => some ((0 : Int), s2))
      = (dbs_check_cpu cfg env s1 (s.policies pid).cpu).map (fun s2 => (0, s2)) := by
    intro s1
    cases dbs_check_cpu cfg env s1 (s.policies pid).cpu <;> rfl
  have tail : ∀ (s1 : State) (rc : Int) (s2 : State),
      (dbs_check_cpu cfg env s1 (s.policies pid).cpu).map (fun s2 => ((0 : Int), s2))
        = some (rc, s2) →
      rc = 0 ∧ ∃ rest, rest.length ≤ 1 ∧ s2.requests = s1.requests ++ rest := by
    intro s1 rc s2 h
    cases hc : dbs_check_cpu cfg env s1 (s.policies pid).cpu with
    | none => simp [hc] at h
    | some s3 =>
      simp only [hc, Option.map_some', Option.some.injEq, Prod.mk.injEq] at h
      obtain ⟨rfl, rfl⟩ := h
      obtain ⟨rest, h1, h2, -⟩ := check_cpu_requests cfg env s1 s3 _ hc
      exact ⟨rfl, rest, h2, h1⟩
  refine ⟨fun h1 => ?_, fun h1 h2 => ?_, fun h1 h2 => ?_⟩
  · have e : cpufreq_governor_dbs cfg env s pid Event.CPUFREQ_GOV_LIMITS
        = (dbs_check_cpu cfg env
            (cpufreq_driver_target env s q (s.policies pid).max Relation.CPUFREQ_RELATION_H)
            (s.policies pid).cpu).map (fun s2 => (0, s2)) := by
      unfold cpufreq_governor_dbs
      simp only [hq, if_pos h1]
      exact main _
    refine ⟨e, fun rc s2 h => ?_⟩
    rw [e] at h
    obtain ⟨hrc, rest, hl, hr⟩ := tail _ rc s2 h
    refine ⟨hrc, rest, hl, ?_⟩
    rw [hr, cpufreq_driver_target_requests]
    simp
  · have e : cpufreq_governor_dbs cfg env s pid Event.CPUFREQ_GOV_LIMITS
        = (dbs_check_cpu cfg env
            (cpufreq_driver_target env s q (s.policies pid).min Relation.CPUFREQ_RELATION_L)
            (s.policies pid).cpu).map (fun s2 => (0, s2)) := by
      unfold cpufreq_governor_dbs
      simp only [hq, if_neg h1, if_pos h2]
      exact main _
    refine ⟨e, fun rc s2 h => ?_⟩
    rw [e] at h
    obtain ⟨hrc, rest, hl, hr⟩ := tail _ rc s2 h
    refine ⟨hrc, rest, hl, ?_⟩
    rw [hr, cpufreq_driver_target_requests]
    simp
  · have e : cpufreq_governor_dbs cfg env s pid Event.CPUFREQ_GOV_LIMITS
        = (dbs_check_cpu cfg env s (s.policies pid).cpu).map (fun s2 => (0, s2)) := by
      unfold cpufreq_governor_dbs
      simp only [hq, if_neg h1, if_neg h2]
      exact main _
    refine ⟨e, fun rc s2 h => ?_⟩
    rw [e] at h
    exact tail _ rc s2 h

/-- C10 on a narrowed maximum: the policy runs at `cur = 700000` when the host
lowers `max` to `500000` (`min = 100000`). The event first requests `500000`
with the at-most relation; the one sampling cycle that follows sees no load and
requests `100000`. -/
theorem limits_changed_witness :
    (ex_policy 700000 100000 500000).max < (ex_policy 700000 100000 500000).cur ∧
    (cpufreq_governor_dbs (ex_cfg false) (ex_env fun _ => (0, 0))
        (ex_state ex_tuners (ex_policy 700000 100000 500000)) 0 Event.CPUFREQ_GOV_LIMITS).map
      (fun r => (r.1, r.2.requests))
      = some (0, [{ policy := 0, freq := 500000, relation := Relation.CPUFREQ_RELATION_H },
                  { policy := 0, freq := 100000, relation := Relation.CPUFREQ_RELATION_L }]) ∧
    cpufreq_governor_dbs (ex_cfg false) (ex_env fun _ => (0, 0))
        (ex_state ex_tuners (ex_policy 700000 100000 500000)) 0 Event.CPUFREQ_GOV_LIMITS
      = (dbs_check_cpu (ex_cfg false) (ex_env fun _ => (0, 0))
          (cpufreq_driver_target (ex_env fun _ => (0, 0))
            (ex_state ex_tuners (ex_policy 700000 100000 500000)) 0 500000
            Relation.CPUFREQ_RELATION_H) 0).map (fun s2 => (0, s2)) :=
  ⟨by decide, by rfl,
    ((limits_changed (ex_cfg false) (ex_env fun _ => (0, 0))
      (ex_state ex_tuners (ex_policy 700000 100000 500000)) 0 0 (by rfl)).1 (by decide)).1⟩

/-! ### Return values of the governor events -/

/-- C11, as stated, fails: the host lowers `max` to `500000` while the policy
runs at `700000`, and the driver answers every set-frequency request with the
error `-5`, leaving `cur` as it is. The event makes the forced request for
`500000` with `CPUFREQ_RELATION_H` and returns 0. -/
theorem limits_driver_error_not_surfaced :
    (({ ex_env (fun _ => (0, 0)) with driver_target := fun p _ _ => (p.cur, -5) } : Env).driver_target
        (ex_policy 700000 100000 500000) 500000 Relation.CPUFREQ_RELATION_H).2 = -5 ∧
    (cpufreq_governor_dbs (ex_cfg false)
        { ex_env (fun _ => (0, 0)) with driver_target := fun p _ _ => (p.cur, -5) }
        (ex_state ex_tuners (ex_policy 700000 100000 500000)) 0
        Event.CPUFREQ_GOV_LIMITS).map (fun r => (r.1, r.2.requests.head?))
      = some (0, some { policy := 0, freq := 500000,
                        relation := Relation.CPUFREQ_RELATION_H }) := by
  refine ⟨by rfl, by rfl⟩

/-- C11 (amended): a Limits-changed event never surfaces a driver error:
whenever `cpufreq_governor_dbs` returns from the event, it returns 0, whatever
the driver's set-frequency operation returned for the forced move or for the
request of the cycle that follows. -/
theorem limits_returns_zero (cfg : Config) (env : Env) (s s' : State) (pid : Nat) (rc : Int)
    (h : cpufreq_governor_dbs cfg env s pid Event.CPUFREQ_GOV_LIMITS = some (rc, s')) :
    rc = 0 := by
  unfold cpufreq_governor_dbs at h
  dsimp only at h
  cases hp : (s.od_cpu_dbs_info (s.policies pid).cpu).cur_policy with
  | none => simp [hp] at h
  | some q =>
    simp only [hp] at h
    revert h
    generalize dbs_check_cpu cfg env _ (s.policies pid).cpu = o
    cases o with
    | none => intro h; simp at h
    | some s2 =>
      intro h
      simp only [Option.some.injEq, Prod.mk.injEq] at h
      exact h.1.symm

/-- C11 on the failing driver: the event with the forced move to `500000`
returns, and its return value is 0. -/
theorem limits_returns_zero_witness :
    ∃ rc s', cpufreq_governor_dbs (ex_cfg false)
        { ex_env (fun _ => (0, 0)) with driver_target := fun p _ _ => (p.cur, -5) }
        (ex_state ex_tuners (ex_policy 700000 100000 500000)) 0
        Event.CPUFREQ_GOV_LIMITS = some (rc, s') ∧ rc = 0 :=
  ⟨_, _, rfl, limits_returns_zero (ex_cfg false)
    { ex_env (fun _ => (0, 0)) with driver_target := fun p _ _ => (p.cur, -5) }
    (ex_state ex_tuners (ex_policy 700000 100000 500000)) _ 0 _ rfl⟩

/-- C12: Start for a policy whose current frequency is 0 returns `-EINVAL` and
leaves the whole state as it was: `dbs_enable`, every per-CPU record (so no work
is queued), the tunables, the sampling-rate floor and the sysfs group. -/
theorem start_rejects_zero_cur (cfg : Config) (env : Env) (s : State) (pid : Nat)
    (hcur : (s.policies pid).cur = 0) :
    cpufreq_governor_dbs cfg env s pid Event.CPUFREQ_GOV_START = some (-EINVAL, s) := by
  unfold cpufreq_governor_dbs
  simp only [hcur, if_true]

/-- C12 at module load with a policy `cur = 0`, `min = 100000`, `max = 1000000`:
Start returns `-22` and the state is the state at module load. -/
theorem start_rejects_zero_cur_witness :
    (ex_policy 0 100000 1000000).cur = 0 ∧
    cpufreq_governor_dbs (ex_cfg false) (ex_env fun _ => (0, 0))
        (init_state fun _ => ex_policy 0 100000 1000000) 0 Event.CPUFREQ_GOV_START
      = some (-22, init_state fun _ => ex_policy 0 100000 1000000) :=
  ⟨rfl, start_rejects_zero_cur (ex_cfg false) (ex_env fun _ => (0, 0))
    (init_state fun _ => ex_policy 0 100000 1000000) 0 rfl⟩

/-- C13, the code at the failing input: at module load (`dbs_enable = 0`) Start
for a policy `cur = 700000` in a world where `sysfs_create_group` fails with
`-12` returns `-12` and leaves `dbs_enable = 1`: the increment is not rolled
back, and the sysfs group is not installed. -/
theorem start_failure_keeps_increment :
    (init_state fun _ => ex_policy 700000 100000 1000000).dbs_enable = 0 ∧
    (cpufreq_governor_dbs (ex_cfg false)
        { ex_env (fun _ => (0, 0)) with sysfs_create_group := -12 }
        (init_state fun _ => ex_policy 700000 100000 1000000) 0
        Event.CPUFREQ_GOV_START).map (fun r => (r.1, r.2.dbs_enable, r.2.sysfs_group))
      = some (-12, 1, false) := by
  refine ⟨by rfl, by rfl⟩

/-! ### Start and Stop -/

theorem start_unfold (cfg : Config) (env : Env) (s : State) (pid : Nat)
    (hcur : (s.policies pid).cur ≠ 0) :
    cpufreq_governor_dbs cfg env s pid Event.CPUFREQ_GOV_START =
      if (start_prepared env s pid).dbs_enable = 1 then
        if env.sysfs_create_group ≠ 0 then
          some (env.sysfs_create_group, start_prepared env s pid)
        else
          match dbs_timer_init cfg env (start_first_activation (start_prepared env s pid))
              (s.policies pid).cpu with
          | none => none
          | some s6 => some (0, s6)
      else
        match dbs_timer_init cfg env (start_prepared env s pid) (s.policies pid).cpu with
        | none => none
        | some s6 => some (0, s6) := by
  unfold cpufreq_governor_dbs
  simp only [if_neg hcur]
  rfl

theorem foldl_set_info_frame (g : State → Nat → cpu_dbs_info_s) (cpus : List Nat) :
    ∀ s : State, ∃ f, cpus.foldl (fun st j => set_info st j (g st j)) s
      = { s with od_cpu_dbs_info := f } := by
  induction cpus with
  | nil => intro s; exact ⟨s.od_cpu_dbs_info, rfl⟩
  | cons j js ih =>
    intro s
    rw [List.foldl_cons]
    obtain ⟨f, hf⟩ := ih (set_info s j (g s j))
    exact ⟨f, by rw [hf]; rfl⟩

theorem start_init_cpus_frame (env : Env) (s : State) (pid : Nat) :
    ∃ f, start_init_cpus env s pid = { s with od_cpu_dbs_info := f } := by
  unfold start_init_cpus
  exact foldl_set_info_frame _ _ s

theorem start_prepared_frame (env : Env) (s : State) (pid : Nat) :
    (start_prepared env s pid).dbs_enable = u32 (s.dbs_enable + 1) ∧
    (start_prepared env s pid).sysfs_group = s.sysfs_group ∧
    (start_prepared env s pid).min_sampling_rate = s.min_sampling_rate ∧
    (start_prepared env s pid).dbs_tuners_ins =
      { s.dbs_tuners_ins with
        max_freq := (s.policies pid).max, min_freq := (s.policies pid).min } ∧
    (start_prepared env s pid).policies = s.policies ∧
    (start_prepared env s pid).requests = s.requests := by
  unfold start_prepared
  dsimp only
  obtain ⟨f, hf⟩ := start_init_cpus_frame env
    { s with
      dbs_tuners_ins :=
        { s.dbs_tuners_ins with
          max_freq := (s.policies pid).max, min_freq := (s.policies pid).min }
      dbs_enable := u32 (s.dbs_enable + 1) } pid
  rw [hf]
  exact ⟨rfl, rfl, rfl, rfl, rfl, rfl⟩

theorem dbs_timer_init_frame (cfg : Config) (env : Env) (s s' : State) (idx : Nat)
    (h : dbs_timer_init cfg env s idx = some s') :
    ∃ d, s' = schedule_delayed_work_on s idx (s.od_cpu_dbs_info idx).cpu d := by
  unfold dbs_timer_init at h
  dsimp only at h
  revert h
  generalize align_delay env _ = o
  cases o with
  | none => intro h; simp at h
  | some d =>
    intro h
    simp only [Option.some.injEq] at h
    exact ⟨d, h.symm⟩

theorem align_delay_total (env : Env) (D : Nat) (h : 1 ≤ D ∨ env.num_online_cpus ≤ 1) :
    ∃ d, align_delay env D = some d := by
  unfold align_delay
  by_cases hn : env.num_online_cpus > 1
  · have hD : D ≠ 0 := by omega
    simp only [if_pos hn, if_neg hD]
    exact ⟨_, rfl⟩
  · simp only [if_neg hn]
    exact ⟨_, rfl⟩

theorem u32_succ_ne_one {n : Nat} (h1 : 1 ≤ n) (h32 : n < U32) : u32 (n + 1) ≠ 1 := by
  unfold u32 U32 at *
  omega

/-- C14: (1) Start at `dbs_enable = 0`, for a policy with a non-zero frequency,
when `sysfs_create_group` succeeds and the first delay is at least one tick (or
at most one CPU is online), succeeds, takes `dbs_enable` to 1, installs the sysfs
group and sets `sampling_rate = 50000` and `min_sampling_rate = 10000`; and every
Start from `dbs_enable = 0` that returns 0 has done so. (2) A Start with
`dbs_enable ≥ 1` beforehand leaves the sysfs group, `sampling_rate` and
`min_sampling_rate` exactly as they were. (3) Stop returns 0, and it removes the
sysfs group when `dbs_enable` was 1 (the count then becomes 0) and leaves the
group as it was for every other value of the counter. -/
theorem first_activation_wins (cfg : Config) (env : Env) (s : State) (pid : Nat)
    (hcur : (s.policies pid).cur ≠ 0) (h32 : s.dbs_enable < U32) :
    (s.dbs_enable = 0 → env.sysfs_create_group = 0 →
      (1 ≤ u32 (cfg.usecs_to_jiffies (u32 (DEF_START_DELAY * 1000 * 1000 + DEF_SAMPLING_RATE)))
        ∨ env.num_online_cpus ≤ 1) →
      ∃ s', cpufreq_governor_dbs cfg env s pid Event.CPUFREQ_GOV_START = some (0, s')) ∧
    (s.dbs_enable = 0 →
      ∀ s', cpufreq_governor_dbs cfg env s pid Event.CPUFREQ_GOV_START = some (0, s') →
        s'.dbs_enable = 1 ∧ s'.sysfs_group = true ∧
        s'.dbs_tuners_ins.sampling_rate = 50000 ∧ s'.min_sampling_rate = 10000) ∧
    (1 ≤ s.dbs_enable →
      ∀ rc s', cpufreq_governor_dbs cfg env s pid Event.CPUFREQ_GOV_START = some (rc, s') →
        s'.sysfs_group = s.sysfs_group ∧
        s'.dbs_tuners_ins.sampling_rate = s.dbs_tuners_ins.sampling_rate ∧
        s'.min_sampling_rate = s.min_sampling_rate) ∧
    (∃ s', cpufreq_governor_dbs cfg env s pid Event.CPUFREQ_GOV_STOP = some (0, s') ∧
      (s.dbs_enable = 1 → s'.dbs_enable = 0 ∧ s'.sysfs_group = false) ∧
      (s.dbs_enable ≠ 1 → s'.dbs_enable ≠ 0 ∧ s'.sysfs_group = s.sysfs_group)) := by
  obtain ⟨hen, hgrp, hmin, htun, -, -⟩ := start_prepared_frame env s pid
  refine ⟨?_, ?_, ?_, ?_⟩
  · intro h0 hrc hdelay
    have h1 : (start_prepared env s pid).dbs_enable = 1 := by rw [hen, h0]; rfl
    rw [start_unfold cfg env s pid hcur, if_pos h1, if_neg (not_not.mpr hrc)]
    have htot : ∃ s6, dbs_timer_init cfg env (start_first_activation (start_prepared env s pid))
        (s.policies pid).cpu = some s6 := by
      unfold dbs_timer_init
      dsimp only
      obtain ⟨d, hd⟩ := align_delay_total env
        (u32 (cfg.usecs_to_jiffies (u32 (DEF_START_DELAY * 1000 * 1000
          + (start_first_activation (start_prepared env s pid)).dbs_tuners_ins.sampling_rate))))
        hdelay
      rw [hd]
      exact ⟨_, rfl⟩
    obtain ⟨s6, hs6⟩ := htot
    rw [hs6]
    exact ⟨s6, rfl⟩
  · intro h0 s' h
    have h1 : (start_prepared env s pid).dbs_enable = 1 := by rw [hen, h0]; rfl
    rw [start_unfold cfg env s pid hcur, if_pos h1] at h
    by_cases hrc : env.sysfs_create_group ≠ 0
    · rw [if_pos hrc] at h
      simp only [Option.some.injEq, Prod.mk.injEq] at h
      exact absurd h.1 hrc
    · rw [if_neg hrc] at h
      cases hi : dbs_timer_init cfg env (start_first_activation (start_prepared env s pid))
          (s.policies pid).cpu with
      | none => simp [hi] at h
      | some s6 =>
        simp only [hi, Option.some.injEq, Prod.mk.injEq, true_and] at h
        obtain ⟨d, hd⟩ := dbs_timer_init_frame cfg env _ _ _ hi
        rw [← h, hd]
        exact ⟨h1, rfl, rfl, rfl⟩
  · intro hge rc s' h
    have h1 : (start_prepared env s pid).dbs_enable ≠ 1 := by
      rw [hen]
      exact u32_succ_ne_one hge h32
    rw [start_unfold cfg env s pid hcur, if_neg h1] at h
    cases hi : dbs_timer_init cfg env (start_prepared env s pid) (s.policies pid).cpu with
    | none => simp [hi] at h
    | some s6 =>
      simp only [hi, Option.some.injEq, Prod.mk.injEq] at h
      obtain ⟨d, hd⟩ := dbs_timer_init_frame cfg env _ _ _ hi
      rw [← h.2, hd]
      refine ⟨hgrp, ?_, hmin⟩
      show (start_prepared env s pid).dbs_tuners_ins.sampling_rate = _
      rw [htun]
  · unfold cpufreq_governor_dbs
    dsimp only
    by_cases h1 : s.dbs_enable = 1
    · have hz : sub32 (dbs_timer_exit s (s.policies pid).cpu).dbs_enable 1 = 0 := by
        show sub32 s.dbs_enable 1 = 0
        rw [h1]
        rfl
      rw [if_pos hz]
      exact ⟨_, rfl, fun _ => ⟨hz, rfl⟩, fun h => absurd h1 h⟩
    · have hz : sub32 (dbs_timer_exit s (s.policies pid).cpu).dbs_enable 1 ≠ 0 := by
        show sub32 s.dbs_enable 1 ≠ 0
        unfold sub32 U32 at *
        omega
      rw [if_neg hz]
      exact ⟨_, rfl, fun h => absurd h h1, fun _ => ⟨hz, rfl⟩⟩

/-- C14 at module load: the first Start for a policy `cur = 700000` succeeds,
and a Stop in the same state returns 0. -/
theorem first_activation_wins_witness :
    (∃ s', cpufreq_governor_dbs (ex_cfg false) (ex_env fun _ => (0, 0))
        (init_state fun _ => ex_policy 700000 100000 1000000) 0 Event.CPUFREQ_GOV_START
        = some (0, s')) ∧
    (∀ s', cpufreq_governor_dbs (ex_cfg false) (ex_env fun _ => (0, 0))
        (init_state fun _ => ex_policy 700000 100000 1000000) 0 Event.CPUFREQ_GOV_START
        = some (0, s') →
      s'.dbs_enable = 1 ∧ s'.sysfs_group = true ∧
      s'.dbs_tuners_ins.sampling_rate = 50000 ∧ s'.min_sampling_rate = 10000) :=
  ⟨(first_activation_wins (ex_cfg false) (ex_env fun _ => (0, 0))
      (init_state fun _ => ex_policy 700000 100000 1000000) 0 (by decide) (by decide)).1
      rfl rfl (by decide),
    (first_activation_wins (ex_cfg false) (ex_env fun _ => (0, 0))
      (init_state fun _ => ex_policy 700000 100000 1000000) 0 (by decide) (by decide)).2.1
      rfl⟩

theorem start_init_fold_records (env : Env) (pid : Nat) (cpus : List Nat) :
    ∀ s : State,
      (∀ j ∈ cpus,
        ((cpus.foldl (fun st j =>
          set_info st j
            (if st.dbs_tuners_ins.ignore_nice ≠ 0 then
              { ({ st.od_cpu_dbs_info j with
                    cur_policy := some pid
                    prev_cpu_idle := (env.get_cpu_idle_time j).1
                    prev_cpu_wall := (env.get_cpu_idle_time j).2 } : cpu_dbs_info_s) with
                prev_cpu_nice := env.cpustat_nice j }
            else
              { st.od_cpu_dbs_info j with
                cur_policy := some pid
                prev_cpu_idle := (env.get_cpu_idle_time j).1
                prev_cpu_wall := (env.get_cpu_idle_time j).2 })) s).od_cpu_dbs_info j).cur_policy
          = some pid ∧
        ((cpus.foldl (fun st j =>
          set_info st j
            (if st.dbs_tuners_ins.ignore_nice ≠ 0 then
              { ({ st.od_cpu_dbs_info j with
                    cur_policy := some pid
                    prev_cpu_idle := (env.get_cpu_idle_time j).1
                    prev_cpu_wall := (env.get_cpu_idle_time j).2 } : cpu_dbs_info_s) with
                prev_cpu_nice := env.cpustat_nice j }
            else
              { st.od_cpu_dbs_info j with
                cur_policy := some pid
                prev_cpu_idle := (env.get_cpu_idle_time j).1
                prev_cpu_wall := (env.get_cpu_idle_time j).2 })) s).od_cpu_dbs_info j).prev_cpu_idle
          = (env.get_cpu_idle_time j).1 ∧
        ((cpus.foldl (fun st j =>
          set_info st j
            (if st.dbs_tuners_ins.ignore_nice ≠ 0 then
              { ({ st.od_cpu_dbs_info j with
                    cur_policy := some pid
                    prev_cpu_idle := (env.get_cpu_idle_time j).1
                    prev_cpu_wall := (env.get_cpu_idle_time j).2 } : cpu_dbs_info_s) with
                prev_cpu_nice := env.cpustat_nice j }
            else
              { st.od_cpu_dbs_info j with
                cur_policy := some pid
                prev_cpu_idle := (env.get_cpu_idle_time j).1
                prev_cpu_wall := (env.get_cpu_idle_time j).2 })) s).od_cpu_dbs_info j).prev_cpu_wall
          = (env.get_cpu_idle_time j).2) ∧
      (∀ k, k ∉ cpus →
        (cpus.foldl (fun st j =>
          set_info st j
            (if st.dbs_tuners_ins.ignore_nice ≠ 0 then
              { ({ st.od_cpu_dbs_info j with
                    cur_policy := some pid
                    prev_cpu_idle := (env.get_cpu_idle_time j).1
                    prev_cpu_wall := (env.get_cpu_idle_time j).2 } : cpu_dbs_info_s) with
                prev_cpu_nice := env.cpustat_nice j }
            else
              { st.od_cpu_dbs_info j with
                cur_policy := some pid
                prev_cpu_idle := (env.get_cpu_idle_time j).1
                prev_cpu_wall := (env.get_cpu_idle_time j).2 })) s).od_cpu_dbs_info k
          = s.od_cpu_dbs_info k) := by
  induction cpus with
  | nil =>
    intro s
    exact ⟨fun j hj => absurd hj (List.not_mem_nil j), fun k _ => rfl⟩
  | cons j js ih =>
    intro s
    rw [List.foldl_cons]
    obtain ⟨ihin, ihout⟩ := ih (set_info s j
      (if s.dbs_tuners_ins.ignore_nice ≠ 0 then
        { ({ s.od_cpu_dbs_info j with
              cur_policy := some pid
              prev_cpu_idle := (env.get_cpu_idle_time j).1
              prev_cpu_wall := (env.get_cpu_idle_time j).2 } : cpu_dbs_info_s) with
          prev_cpu_nice := env.cpustat_nice j }
      else
        { s.od_cpu_dbs_info j with
          cur_policy := some pid
          prev_cpu_idle := (env.get_cpu_idle_time j).1
          prev_cpu_wall := (env.get_cpu_idle_time j).2 }))
    refine ⟨fun i hi => ?_, fun k hk => ?_⟩
    · by_cases hmem : i ∈ js
      · exact ihin i hmem
      · have hij : i = j := by
          rcases List.mem_cons.mp hi with h | h
          · exact h
          · exact absurd h hmem
        subst hij
        rw [ihout i hmem, set_info_same]
        split_ifs <;> exact ⟨rfl, rfl, rfl⟩
    · have hkj : k ≠ j := fun h => hk (h ▸ List.mem_cons_self _ _)
      have hkjs : k ∉ js := fun h => hk (List.mem_cons_of_mem _ h)
      rw [ihout k hkjs, set_info_other _ _ _ _ hkj]

/-- The per-CPU records in the state `CPUFREQ_GOV_START` has built when it
reaches the test `dbs_enable == 1`. -/
theorem start_prepared_records (env : Env) (s : State) (pid : Nat) :
    (∀ j ∈ (s.policies pid).cpus,
      ((start_prepared env s pid).od_cpu_dbs_info j).cur_policy = some pid ∧
      ((start_prepared env s pid).od_cpu_dbs_info j).prev_cpu_idle
        = (env.get_cpu_idle_time j).1 ∧
      ((start_prepared env s pid).od_cpu_dbs_info j).prev_cpu_wall
        = (env.get_cpu_idle_time j).2) ∧
    ((start_prepared env s pid).od_cpu_dbs_info (s.policies pid).cpu).rate_mult = 1 ∧
    (∀ k, k ≠ (s.policies pid).cpu →
      ((start_prepared env s pid).od_cpu_dbs_info k).rate_mult
        = (s.od_cpu_dbs_info k).rate_mult) := by
  have hrec := (start_init_fold_records env pid (s.policies pid).cpus
    { s with
      dbs_tuners_ins :=
        { s.dbs_tuners_ins with
          max_freq := (s.policies pid).max, min_freq := (s.policies pid).min }
      dbs_enable := u32 (s.dbs_enable + 1) }).1
  have hsame := sameSched_start_init_cpus env pid (s.policies pid).cpus
    { s with
      dbs_tuners_ins :=
        { s.dbs_tuners_ins with
          max_freq := (s.policies pid).max, min_freq := (s.policies pid).min }
      dbs_enable := u32 (s.dbs_enable + 1) }
  refine ⟨fun j hj => ?_, ?_, fun k hk => ?_⟩
  · by_cases hjc : j = (s.policies pid).cpu
    · unfold start_prepared
      dsimp only
      rw [hjc, set_info_same]
      rw [hjc] at hj
      exact hrec _ hj
    · unfold start_prepared
      dsimp only
      rw [set_info_other _ _ _ _ hjc]
      exact hrec j hj
  · unfold start_prepared
    dsimp only
    rw [set_info_same]
  · unfold start_prepared
    dsimp only
    rw [set_info_other _ _ _ _ hk]
    exact (hsame.2 k).2

theorem schedule_keeps_fields (s : State) (idx cpu d k : Nat) :
    ((schedule_delayed_work_on s idx cpu d).od_cpu_dbs_info k).cur_policy
      = (s.od_cpu_dbs_info k).cur_policy ∧
    ((schedule_delayed_work_on s idx cpu d).od_cpu_dbs_info k).prev_cpu_idle
      = (s.od_cpu_dbs_info k).prev_cpu_idle ∧
    ((schedule_delayed_work_on s idx cpu d).od_cpu_dbs_info k).prev_cpu_wall
      = (s.od_cpu_dbs_info k).prev_cpu_wall ∧
    ((schedule_delayed_work_on s idx cpu d).od_cpu_dbs_info k).rate_mult
      = (s.od_cpu_dbs_info k).rate_mult := by
  unfold schedule_delayed_work_on
  by_cases hk : k = idx
  · subst hk
    rw [set_info_same]
    exact ⟨rfl, rfl, rfl, rfl⟩
  · rw [set_info_other _ _ _ _ hk]
    exact ⟨rfl, rfl, rfl, rfl⟩

/-- A Start that returns 0 ends in the prepared state, possibly with the
assignments of the first activation, with the work of `policy->cpu` queued. -/
theorem start_success_shape (cfg : Config) (env : Env) (s s' : State) (pid : Nat)
    (h : cpufreq_governor_dbs cfg env s pid Event.CPUFREQ_GOV_START = some (0, s')) :
    ∃ d, s' = schedule_delayed_work_on (start_prepared env s pid) (s.policies pid).cpu
          ((start_prepared env s pid).od_cpu_dbs_info (s.policies pid).cpu).cpu d ∨
      s' = schedule_delayed_work_on (start_first_activation (start_prepared env s pid))
          (s.policies pid).cpu
          ((start_prepared env s pid).od_cpu_dbs_info (s.policies pid).cpu).cpu d := by
  by_cases hcur : (s.policies pid).cur = 0
  · unfold cpufreq_governor_dbs at h
    simp only [hcur, if_true, Option.some.injEq, Prod.mk.injEq] at h
    exact absurd h.1 (by decide)
  · rw [start_unfold cfg env s pid hcur] at h
    by_cases h1 : (start_prepared env s pid).dbs_enable = 1
    · rw [if_pos h1] at h
      by_cases hrc : env.sysfs_create_group ≠ 0
      · rw [if_pos hrc] at h
        simp only [Option.some.injEq, Prod.mk.injEq] at h
        exact absurd h.1 hrc
      · rw [if_neg hrc] at h
        cases hi : dbs_timer_init cfg env (start_first_activation (start_prepared env s pid))
            (s.policies pid).cpu with
        | none => simp [hi] at h
        | some s6 =>
          simp only [hi, Option.some.injEq, Prod.mk.injEq, true_and] at h
          obtain ⟨d, hd⟩ := dbs_timer_init_frame cfg env _ _ _ hi
          exact ⟨d, Or.inr (by rw [← h, hd]; rfl)⟩
    · rw [if_neg h1] at h
      cases hi : dbs_timer_init cfg env (start_prepared env s pid) (s.policies pid).cpu with
      | none => simp [hi] at h
      | some s6 =>
        simp only [hi, Option.some.injEq, Prod.mk.injEq, true_and] at h
        obtain ⟨d, hd⟩ := dbs_timer_init_frame cfg env _ _ _ hi
        exact ⟨d, Or.inl (by rw [← h, hd])⟩

/-- C15, as stated, fails: at module load, Start for a policy registered on
CPU 0 with CPU set `{0, 1}` succeeds and sets `cur_policy` on both CPUs, but
only CPU 0 gets `rate_mult = 1`; the `rate_mult` of CPU 1 is still 0. -/
theorem start_leaves_sibling_rate_mult :
    (cpufreq_governor_dbs (ex_cfg false) (ex_env fun _ => (3, 8))
        (init_state fun _ => { ex_policy 700000 100000 1000000 with cpus := [0, 1] }) 0
        Event.CPUFREQ_GOV_START).map
      (fun r => (r.1, (r.2.od_cpu_dbs_info 0).rate_mult, (r.2.od_cpu_dbs_info 1).cur_policy,
        (r.2.od_cpu_dbs_info 1).prev_cpu_idle, (r.2.od_cpu_dbs_info 1).prev_cpu_wall,
        (r.2.od_cpu_dbs_info 1).rate_mult))
      = some (0, 1, some 0, 3, 8, 0) := by
  rfl

/-- C15 (amended): after a Start that returns 0 for a policy, every CPU in the
policy's CPU set has `cur_policy` set to that policy and `prev_cpu_idle`,
`prev_cpu_wall` equal to the counters read during Start; the CPU the policy is
registered on has `rate_mult = 1` and its work queued; the `rate_mult` of every
other CPU, in the set or not, is what it was before Start. -/
theorem start_postcondition (cfg : Config) (env : Env) (s s' : State) (pid : Nat)
    (h : cpufreq_governor_dbs cfg env s pid Event.CPUFREQ_GOV_START = some (0, s')) :
    (∀ j ∈ (s.policies pid).cpus,
      (s'.od_cpu_dbs_info j).cur_policy = some pid ∧
      (s'.od_cpu_dbs_info j).prev_cpu_idle = (env.get_cpu_idle_time j).1 ∧
      (s'.od_cpu_dbs_info j).prev_cpu_wall = (env.get_cpu_idle_time j).2) ∧
    (s'.od_cpu_dbs_info (s.policies pid).cpu).rate_mult = 1 ∧
    (s'.od_cpu_dbs_info (s.policies pid).cpu).work ≠ none ∧
    (∀ k, k ≠ (s.policies pid).cpu →
      (s'.od_cpu_dbs_info k).rate_mult = (s.od_cpu_dbs_info k).rate_mult) := by
  obtain ⟨hrec, hone, hother⟩ := start_prepared_records env s pid
  obtain ⟨d, hs' | hs'⟩ := start_success_shape cfg env s s' pid h
  · subst hs'
    refine ⟨fun j hj => ?_, ?_, ?_, fun k hk => ?_⟩
    · obtain ⟨e1, e2, e3, -⟩ := schedule_keeps_fields (start_prepared env s pid)
        (s.policies pid).cpu
        ((start_prepared env s pid).od_cpu_dbs_info (s.policies pid).cpu).cpu d j
      rw [e1, e2, e3]
      exact hrec j hj
    · rw [(schedule_keeps_fields _ _ _ _ _).2.2.2]
      exact hone
    · unfold schedule_delayed_work_on
      rw [set_info_same]
      simp
    · rw [(schedule_keeps_fields _ _ _ _ _).2.2.2]
      exact hother k hk
  · subst hs'
    refine ⟨fun j hj => ?_, ?_, ?_, fun k hk => ?_⟩
    · obtain ⟨e1, e2, e3, -⟩ := schedule_keeps_fields
        (start_first_activation (start_prepared env s pid)) (s.policies pid).cpu
        ((start_prepared env s pid).od_cpu_dbs_info (s.policies pid).cpu).cpu d j
      rw [e1, e2, e3]
      exact hrec j hj
    · rw [(schedule_keeps_fields _ _ _ _ _).2.2.2]
      exact hone
    · unfold schedule_delayed_work_on
      rw [set_info_same]
      simp
    · rw [(schedule_keeps_fields _ _ _ _ _).2.2.2]
      exact hother k hk

/-- C15 on a policy with CPU set `{0, 1}` registered on CPU 0, counters
`(idle, wall) = (3, 8)` on every CPU: Start returns 0, both CPUs point at the
policy and hold the counters, and CPU 0 has `rate_mult = 1`. -/
theorem start_postcondition_witness :
    ∃ s', cpufreq_governor_dbs (ex_cfg false) (ex_env fun _ => (3, 8))
        (init_state fun _ => { ex_policy 700000 100000 1000000 with cpus := [0, 1] }) 0
        Event.CPUFREQ_GOV_START = some (0, s') ∧
      (∀ j ∈ [0, 1],
        (s'.od_cpu_dbs_info j).cur_policy = some 0 ∧
        (s'.od_cpu_dbs_info j).prev_cpu_idle = 3 ∧
        (s'.od_cpu_dbs_info j).prev_cpu_wall = 8) ∧
      (s'.od_cpu_dbs_info 0).rate_mult = 1 :=
  ⟨_, rfl,
    (start_postcondition (ex_cfg false) (ex_env fun _ => (3, 8))
      (init_state fun _ => { ex_policy 700000 100000 1000000 with cpus := [0, 1] }) _ 0
      rfl).1,
    (start_postcondition (ex_cfg false) (ex_env fun _ => (3, 8))
      (init_state fun _ => { ex_policy 700000 100000 1000000 with cpus := [0, 1] }) _ 0
      rfl).2.1⟩

/-! ### Phase alignment -/

theorem u32_lt (n : Nat) : u32 n < U32 := Nat.mod_lt _ (by decide)

theorem aligned_sum_mod (now D : Nat) (hD : 1 ≤ D) :
    1 ≤ D - now % D ∧ D - now % D ≤ D ∧ (now + (D - now % D)) % D = 0 := by
  have hr : now % D < D := Nat.mod_lt now hD
  refine ⟨by omega, Nat.sub_le _ _, ?_⟩
  have hsum : now + (D - now % D) = D * (now / D + 1) := by
    have hdm := Nat.div_add_mod now D
    rw [Nat.mul_add, Nat.mul_one]
    omega
  rw [hsum]
  exact Nat.mul_mod_right _ _

theorem align_delay_many (env : Env) (D : Nat) (hn : 1 < env.num_online_cpus)
    (hD : 1 ≤ D) (h32 : D < U32) :
    align_delay env D = some (D - u32 env.jiffies % D) := by
  have hr : u32 env.jiffies % D < D := Nat.mod_lt _ hD
  unfold align_delay
  rw [if_pos hn, if_neg (by omega : ¬ D = 0)]
  dsimp only
  rw [sub32_of_le (Nat.le_of_lt hr) h32]

theorem align_delay_single (env : Env) (D : Nat) (hn : env.num_online_cpus ≤ 1) :
    align_delay env D = some D := by
  unfold align_delay
  rw [if_neg (by omega)]

/-- C16: write `now` for the 32-bit tick counter `jiffies`. In `do_dbs_timer`,
once `dbs_check_cpu` has returned, with `D` the interval in ticks: when more
than one CPU is online and `D ≥ 1`, the work is queued with the delay
`D - (now mod D)`, which satisfies `1 ≤ delay ≤ D` and `(now + delay) mod D = 0`;
when at most one CPU is online the delay is exactly `D`. The same holds in
`dbs_timer_init` with `D` the first interval. -/
theorem phase_alignment (cfg : Config) (env : Env) (s : State) (idx : Nat) :
    (∀ s1, dbs_check_cpu cfg env s idx = some s1 →
      (1 < env.num_online_cpus → 1 ≤ dbs_interval cfg s1 idx →
        do_dbs_timer cfg env s idx = some (schedule_delayed_work_on s1 idx
          (s.od_cpu_dbs_info idx).cpu
          (dbs_interval cfg s1 idx - u32 env.jiffies % dbs_interval cfg s1 idx)) ∧
        1 ≤ dbs_interval cfg s1 idx - u32 env.jiffies % dbs_interval cfg s1 idx ∧
        dbs_interval cfg s1 idx - u32 env.jiffies % dbs_interval cfg s1 idx
          ≤ dbs_interval cfg s1 idx ∧
        (u32 env.jiffies
          + (dbs_interval cfg s1 idx - u32 env.jiffies % dbs_interval cfg s1 idx))
          % dbs_interval cfg s1 idx = 0) ∧
      (env.num_online_cpus ≤ 1 →
        do_dbs_timer cfg env s idx = some (schedule_delayed_work_on s1 idx
          (s.od_cpu_dbs_info idx).cpu (dbs_interval cfg s1 idx)))) ∧
    ((1 < env.num_online_cpus →
      1 ≤ u32 (cfg.usecs_to_jiffies
        (u32 (DEF_START_DELAY * 1000 * 1000 + s.dbs_tuners_ins.sampling_rate))) →
      dbs_timer_init cfg env s idx = some (schedule_delayed_work_on s idx
        (s.od_cpu_dbs_info idx).cpu
        (u32 (cfg.usecs_to_jiffies
            (u32 (DEF_START_DELAY * 1000 * 1000 + s.dbs_tuners_ins.sampling_rate)))
          - u32 env.jiffies % u32 (cfg.usecs_to_jiffies
            (u32 (DEF_START_DELAY * 1000 * 1000 + s.dbs_tuners_ins.sampling_rate))))) ∧
      1 ≤ u32 (cfg.usecs_to_jiffies
            (u32 (DEF_START_DELAY * 1000 * 1000 + s.dbs_tuners_ins.sampling_rate)))
          - u32 env.jiffies % u32 (cfg.usecs_to_jiffies
            (u32 (DEF_START_DELAY * 1000 * 1000 + s.dbs_tuners_ins.sampling_rate))) ∧
      u32 (cfg.usecs_to_jiffies
            (u32 (DEF_START_DELAY * 1000 * 1000 + s.dbs_tuners_ins.sampling_rate)))
          - u32 env.jiffies % u32 (cfg.usecs_to_jiffies
            (u32 (DEF_START_DELAY * 1000 * 1000 + s.dbs_tuners_ins.sampling_rate)))
        ≤ u32 (cfg.usecs_to_jiffies
            (u32 (DEF_START_DELAY * 1000 * 1000 + s.dbs_tuners_ins.sampling_rate))) ∧
      (u32 env.jiffies
        + (u32 (cfg.usecs_to_jiffies
            (u32 (DEF_START_DELAY * 1000 * 1000 + s.dbs_tuners_ins.sampling_rate)))
          - u32 env.jiffies % u32 (cfg.usecs_to_jiffies
            (u32 (DEF_START_DELAY * 1000 * 1000 + s.dbs_tuners_ins.sampling_rate)))))
        % u32 (cfg.usecs_to_jiffies
            (u32 (DEF_START_DELAY * 1000 * 1000 + s.dbs_tuners_ins.sampling_rate))) = 0) ∧
    (env.num_online_cpus ≤ 1 →
      dbs_timer_init cfg env s idx = some (schedule_delayed_work_on s idx
        (s.od_cpu_dbs_info idx).cpu
        (u32 (cfg.usecs_to_jiffies
          (u32 (DEF_START_DELAY * 1000 * 1000 + s.dbs_tuners_ins.sampling_rate))))))) := by
  refine ⟨fun s1 h1 => ⟨fun hn hD => ?_, fun hn => ?_⟩, fun hn hD => ?_, fun hn => ?_⟩
  · obtain ⟨a, b, c⟩ := aligned_sum_mod (u32 env.jiffies) _ hD
    refine ⟨?_, a, b, c⟩
    unfold do_dbs_timer
    simp only [h1, align_delay_many env _ hn hD (u32_lt _)]
  · unfold do_dbs_timer
    simp only [h1, align_delay_single env _ hn]
  · obtain ⟨a, b, c⟩ := aligned_sum_mod (u32 env.jiffies) _ hD
    refine ⟨?_, a, b, c⟩
    unfold dbs_timer_init
    simp only [align_delay_many env _ hn hD (u32_lt _)]
  · unfold dbs_timer_init
    simp only [align_delay_single env _ hn]

/-- C16 with two CPUs online at tick `1234567`, on the state after first
activation (`sampling_rate = 50000`, 10 ticks at `HZ = 200`): `dbs_timer_init`
queues the work with delay `10 - 1234567 mod 10 = 3`, and `1234567 + 3` is a
multiple of 10. -/
theorem phase_alignment_witness :
    dbs_timer_init (ex_cfg false)
        { ex_env (fun _ => (0, 0)) with jiffies := 1234567, num_online_cpus := 2 }
        (ex_state ex_tuners (ex_policy 700000 100000 1000000)) 0
      = some (schedule_delayed_work_on (ex_state ex_tuners (ex_policy 700000 100000 1000000))
          0 0 3) ∧
    (1234567 + 3) % 10 = 0 :=
  ⟨((phase_alignment (ex_cfg false)
      { ex_env (fun _ => (0, 0)) with jiffies := 1234567, num_online_cpus := 2 }
      (ex_state ex_tuners (ex_policy 700000 100000 1000000)) 0).2.1
      (by decide) (by decide)).1,
    by decide⟩

/-! ### The bounds of the tunables -/

/-- A fold of per-CPU record updates changes neither the tunables nor the
sampling-rate floor. -/
theorem foldl_set_info_tuners (g : State → Nat → cpu_dbs_info_s) (cpus : List Nat) (s : State) :
    (cpus.foldl (fun st j => set_info st j (g st j)) s).dbs_tuners_ins = s.dbs_tuners_ins ∧
    (cpus.foldl (fun st j => set_info st j (g st j)) s).min_sampling_rate
      = s.min_sampling_rate := by
  obtain ⟨f, hf⟩ := foldl_set_info_frame g cpus s
  rw [hf]
  exact ⟨rfl, rfl⟩

theorem bounds_of_eq {s s' : State} (h : TunableBounds s)
    (ht : s'.dbs_tuners_ins = s.dbs_tuners_ins)
    (hm : s'.min_sampling_rate = s.min_sampling_rate) : TunableBounds s' := by
  unfold TunableBounds at *
  rw [ht, hm]
  exact h

theorem bounds_store_step {s s' : State} (h : TunableBounds s) (hs : StoreStep s s') :
    TunableBounds s' := by
  cases hs with
  | sampling_rate parsed count =>
    unfold store_sampling_rate
    cases parsed with
    | none => exact h
    | some input =>
      obtain ⟨h1, h2, h3, h4, h5, -⟩ := h
      exact ⟨h1, h2, h3, h4, h5, le_max_right _ _⟩
  | up_threshold parsed count =>
    unfold store_up_threshold
    cases parsed with
    | none => exact h
    | some input =>
      dsimp only
      split_ifs with hb
      · exact h
      · obtain ⟨-, h2, h3, h4, h5, h6⟩ := h
        refine ⟨?_, h2, h3, h4, h5, h6⟩
        unfold MAX_FREQUENCY_UP_THRESHOLD MIN_FREQUENCY_UP_THRESHOLD at hb
        dsimp only
        omega
  | sampling_down_factor env parsed count =>
    unfold store_sampling_down_factor
    cases parsed with
    | none => exact h
    | some input =>
      dsimp only
      split_ifs with hb
      · exact h
      · obtain ⟨h1, h2, -, h4, h5, h6⟩ := h
        have hfold := foldl_set_info_tuners
          (fun st j => { st.od_cpu_dbs_info j with rate_mult := 1 }) env.online_cpus
          { s with dbs_tuners_ins := { s.dbs_tuners_ins with sampling_down_factor := input } }
        refine bounds_of_eq (s := { s with dbs_tuners_ins :=
          { s.dbs_tuners_ins with sampling_down_factor := input } }) ?_ hfold.1 hfold.2
        refine ⟨h1, h2, ?_, h4, h5, h6⟩
        unfold MAX_SAMPLING_DOWN_FACTOR at hb
        dsimp only
        omega
  | ignore_nice_load env parsed count =>
    unfold store_ignore_nice_load
    cases parsed with
    | none => exact h
    | some input =>
      dsimp only
      have hb : ∀ v, TunableBounds
          { s with dbs_tuners_ins := { s.dbs_tuners_ins with ignore_nice := v } } :=
        fun _ => h
      split_ifs
      · exact h
      · have hfold := foldl_set_info_tuners
          (fun st j =>
            if st.dbs_tuners_ins.ignore_nice ≠ 0 then
              { ({ st.od_cpu_dbs_info j with
                    prev_cpu_idle := (env.get_cpu_idle_time j).1
                    prev_cpu_wall := (env.get_cpu_idle_time j).2 } : cpu_dbs_info_s) with
                prev_cpu_nice := env.cpustat_nice j }
            else
              { st.od_cpu_dbs_info j with
                prev_cpu_idle := (env.get_cpu_idle_time j).1
                prev_cpu_wall := (env.get_cpu_idle_time j).2 }) env.online_cpus
          { s with dbs_tuners_ins := { s.dbs_tuners_ins with ignore_nice := 1 } }
        exact bounds_of_eq (hb 1) hfold.1 hfold.2
      · exact h
      · have hfold := foldl_set_info_tuners
          (fun st j =>
            if st.dbs_tuners_ins.ignore_nice ≠ 0 then
              { ({ st.od_cpu_dbs_info j with
                    prev_cpu_idle := (env.get_cpu_idle_time j).1
                    prev_cpu_wall := (env.get_cpu_idle_time j).2 } : cpu_dbs_info_s) with
                prev_cpu_nice := env.cpustat_nice j }
            else
              { st.od_cpu_dbs_info j with
                prev_cpu_idle := (env.get_cpu_idle_time j).1
                prev_cpu_wall := (env.get_cpu_idle_time j).2 }) env.online_cpus
          { s with dbs_tuners_ins := { s.dbs_tuners_ins with ignore_nice := input } }
        exact bounds_of_eq (hb input) hfold.1 hfold.2
  | down_differential parsed count =>
    unfold store_down_differential
    cases parsed with
    | none => exact h
    | some input =>
      obtain ⟨h1, h2, h3, -, h5, h6⟩ := h
      exact ⟨h1, h2, h3, min_le_right _ _, h5, h6⟩
  | freq_step parsed count =>
    unfold store_freq_step
    cases parsed with
    | none => exact h
    | some input =>
      obtain ⟨h1, h2, h3, h4, -, h6⟩ := h
      exact ⟨h1, h2, h3, h4, min_le_right _ _, h6⟩
  | up_threshold_at_min_freq parsed count =>
    unfold store_up_threshold_at_min_freq
    cases parsed with
    | none => exact h
    | some input =>
      dsimp only
      split_ifs with hb
      · exact h
      · obtain ⟨h1, -, h3, h4, h5, h6⟩ := h
        refine ⟨h1, ?_, h3, h4, h5, h6⟩
        unfold MAX_FREQUENCY_UP_THRESHOLD MIN_FREQUENCY_UP_THRESHOLD at hb
        dsimp only
        omega
  | freq_for_responsiveness parsed count =>
    unfold store_freq_for_responsiveness
    cases parsed with
    | none => exact h
    | some input => exact h

theorem bounds_store_reachable {s0 s : State} (h0 : TunableBounds s0)
    (hs : StoreReachable s0 s) : TunableBounds s := by
  induction hs with
  | base => exact h0
  | step _ hstep ih => exact bounds_store_step ih hstep

/-- The tunables after the first activation are the defaults. -/
theorem bounds_after_first_start (cfg : Config) (env : Env) (policies : Nat → cpufreq_policy)
    (pid : Nat) (s0 : State)
    (h : cpufreq_governor_dbs cfg env (init_state policies) pid Event.CPUFREQ_GOV_START
      = some (0, s0)) : TunableBounds s0 := by
  have hcur : ((init_state policies).policies pid).cur ≠ 0 := by
    intro hc
    unfold cpufreq_governor_dbs at h
    simp only [hc, if_true, Option.some.injEq, Prod.mk.injEq] at h
    exact absurd h.1 (by decide)
  obtain ⟨hen, -, -, htun, -, -⟩ := start_prepared_frame env (init_state policies) pid
  have h1 : (start_prepared env (init_state policies) pid).dbs_enable = 1 := by
    rw [hen]
    rfl
  rw [start_unfold cfg env _ pid hcur, if_pos h1] at h
  by_cases hrc : env.sysfs_create_group ≠ 0
  · rw [if_pos hrc] at h
    simp only [Option.some.injEq, Prod.mk.injEq] at h
    exact absurd h.1 hrc
  · rw [if_neg hrc] at h
    cases hi : dbs_timer_init cfg env
        (start_first_activation (start_prepared env (init_state policies) pid))
        ((init_state policies).policies pid).cpu with
    | none => simp [hi] at h
    | some s6 =>
      simp only [hi, Option.some.injEq, Prod.mk.injEq, true_and] at h
      obtain ⟨d, hd⟩ := dbs_timer_init_frame cfg env _ _ _ hi
      rw [← h, hd]
      unfold TunableBounds schedule_delayed_work_on start_first_activation
      simp only [set_info_tuners, htun]
      have e1 : (init_state policies).dbs_tuners_ins = dbs_tuners_init := rfl
      rw [e1]
      have e2 : MIN_SAMPLING_RATE ≤ DEF_SAMPLING_RATE := by decide
      exact ⟨by decide, by decide, by decide, by decide, by decide, e2⟩

/-- C17: start from the tunables after a first successful Start from module
load and apply any sequence of sysfs writes with arbitrary parsed inputs. Then
`up_threshold` and `up_threshold_at_min_freq` are in `[11, 100]`,
`sampling_down_factor` is in `[1, 100000]`, `down_differential ≤ 100`,
`freq_step ≤ 100` and `sampling_rate ≥ min_sampling_rate`. In every such state a
write of `up_threshold`, `up_threshold_at_min_freq` or `sampling_down_factor`
outside its range returns `-EINVAL` and leaves the state unchanged, a write of
`sampling_rate` stores the input raised to the floor, and writes of
`down_differential` and `freq_step` store the input capped at 100. -/
theorem tunable_bounds_invariant (cfg : Config) (env : Env) (policies : Nat → cpufreq_policy)
    (pid : Nat) (s0 s : State)
    (hstart : cpufreq_governor_dbs cfg env (init_state policies) pid Event.CPUFREQ_GOV_START
      = some (0, s0))
    (hseq : StoreReachable s0 s) :
    ((11 ≤ s.dbs_tuners_ins.up_threshold ∧ s.dbs_tuners_ins.up_threshold ≤ 100) ∧
      (11 ≤ s.dbs_tuners_ins.up_threshold_at_min_freq ∧
        s.dbs_tuners_ins.up_threshold_at_min_freq ≤ 100) ∧
      (1 ≤ s.dbs_tuners_ins.sampling_down_factor ∧
        s.dbs_tuners_ins.sampling_down_factor ≤ 100000) ∧
      s.dbs_tuners_ins.down_differential ≤ 100 ∧
      s.dbs_tuners_ins.freq_step ≤ 100 ∧
      s.min_sampling_rate ≤ s.dbs_tuners_ins.sampling_rate) ∧
    (∀ input count, input > 100 ∨ input < 11 →
      store_up_threshold s (some input) count = (-EINVAL, s)) ∧
    (∀ input count, input > 100 ∨ input < 11 →
      store_up_threshold_at_min_freq s (some input) count = (-EINVAL, s)) ∧
    (∀ env' input count, input > 100000 ∨ input < 1 →
      store_sampling_down_factor env' s (some input) count = (-EINVAL, s)) ∧
    (∀ input count,
      (store_sampling_rate s (some input) count).2.dbs_tuners_ins.sampling_rate
        = max input s.min_sampling_rate) ∧
    (∀ input count,
      (store_down_differential s (some input) count).2.dbs_tuners_ins.down_differential
        = min input 100) ∧
    (∀ input count,
      (store_freq_step s (some input) count).2.dbs_tuners_ins.freq_step = min input 100) := by
  refine ⟨bounds_store_reachable (bounds_after_first_start cfg env policies pid s0 hstart) hseq,
    ?_, ?_, ?_, fun _ _ => rfl, fun _ _ => rfl, fun _ _ => rfl⟩
  · intro input count hb
    unfold store_up_threshold
    exact if_pos hb
  · intro input count hb
    unfold store_up_threshold_at_min_freq
    exact if_pos hb
  · intro env' input count hb
    unfold store_sampling_down_factor
    exact if_pos hb

/-- C17 on a run: after the first Start at module load, a write of 95 to
`up_threshold` and a write of 250 to `down_differential` leave the tunables
within bounds, with `up_threshold = 95` and `down_differential = 100`. -/
theorem tunable_bounds_invariant_witness :
    ∃ s0, cpufreq_governor_dbs (ex_cfg false) (ex_env fun _ => (0, 0))
        (init_state fun _ => ex_policy 700000 100000 1000000) 0 Event.CPUFREQ_GOV_START
        = some (0, s0) ∧
      (store_down_differential (store_up_threshold s0 (some 95) 2).2 (some 250)
        3).2.dbs_tuners_ins.up_threshold = 95 ∧
      (store_down_differential (store_up_threshold s0 (some 95) 2).2 (some 250)
        3).2.dbs_tuners_ins.down_differential = 100 ∧
      (store_down_differential (store_up_threshold s0 (some 95) 2).2 (some 250)
        3).2.dbs_tuners_ins.down_differential ≤ 100 :=
  ⟨_, rfl, by rfl, by rfl,
    (tunable_bounds_invariant (ex_cfg false) (ex_env fun _ => (0, 0))
      (fun _ => ex_policy 700000 100000 1000000) 0 _ _ rfl
      (StoreReachable.step
        (StoreReachable.step StoreReachable.base (StoreStep.up_threshold _ (some 95) 2))
        (StoreStep.down_differential _ (some 250) 3))).1.2.2.2.1⟩

/-! ### The sampling loop -/

/-- One iteration of the sampling loop, when `cpuinfo.max_freq` is not zero:
it returns, changes only the record of its CPU and the utilization log, and
raises `max_load_freq` to the contribution of the CPU if there is one. -/
theorem sample_cpu_result (cfg : Config) (env : Env) (pid : Nat) (acc : SampleAcc) (j : Nat)
    (hci : (acc.s.policies pid).cpuinfo_max_freq ≠ 0) :
    ∃ acc1, dbs_sample_cpu cfg env pid acc j = some acc1 ∧
      acc1.s.policies = acc.s.policies ∧
      acc1.s.dbs_tuners_ins = acc.s.dbs_tuners_ins ∧
      (∀ k, k ≠ j → acc1.s.od_cpu_dbs_info k = acc.s.od_cpu_dbs_info k) ∧
      acc1.max_load_freq =
        (match spec_cpu_load cfg env acc.s pid j with
          | none => acc.max_load_freq
          | some v => max acc.max_load_freq v) := by
  unfold dbs_sample_cpu spec_cpu_load
  dsimp only
  generalize dbs_sample_read cfg env acc.s.dbs_tuners_ins.ignore_nice
    (acc.s.od_cpu_dbs_info j) j = r
  by_cases hd : r.deep_sleep = true
  · rw [if_pos hd, if_pos (Or.inl hd)]
    exact ⟨_, rfl, rfl, rfl, fun k hk => set_info_other _ _ _ _ hk, rfl⟩
  · by_cases hw : r.wall_time = 0 ∨ r.wall_time < r.idle_time
    · rw [if_neg hd, if_pos hw, if_pos (Or.inr hw)]
      exact ⟨_, rfl, rfl, rfl, fun k hk => set_info_other _ _ _ _ hk, rfl⟩
    · have hskip : ¬ (r.deep_sleep = true ∨ r.wall_time = 0 ∨ r.idle_time > r.wall_time) := by
        rintro (h | h)
        · exact hd h
        · exact hw h
      have hw0 : ¬ r.wall_time = 0 := fun e => hw (Or.inl e)
      rw [if_neg hd, if_neg hw, if_neg hskip, if_neg hw0]
      dsimp only
      unfold udiv
      rw [if_neg hci]
      refine ⟨_, rfl, rfl, rfl, fun k hk => set_info_other _ _ _ _ hk, ?_⟩
      dsimp only
      split_ifs with h1 h2 h2
      · exact (max_eq_right (Nat.le_of_lt h2)).symm
      · exact (max_eq_left (Nat.le_of_not_lt h2)).symm
      · exact (max_eq_right (Nat.le_of_lt h2)).symm
      · exact (max_eq_left (Nat.le_of_not_lt h2)).symm

/-- The sampling loop returns whenever `cpuinfo.max_freq` is not zero, and it
changes neither the policy objects nor the tunables. -/
theorem foldlM_sample_total (cfg : Config) (env : Env) (pid : Nat) (cpus : List Nat) :
    ∀ acc : SampleAcc, (acc.s.policies pid).cpuinfo_max_freq ≠ 0 →
      ∃ acc', cpus.foldlM (dbs_sample_cpu cfg env pid) acc = some acc' ∧
        acc'.s.policies = acc.s.policies ∧
        acc'.s.dbs_tuners_ins = acc.s.dbs_tuners_ins := by
  induction cpus with
  | nil =>
    intro acc _
    exact ⟨acc, rfl, rfl, rfl⟩
  | cons j js ih =>
    intro acc hci
    obtain ⟨acc1, h1, hp, ht, -, -⟩ := sample_cpu_result cfg env pid acc j hci
    obtain ⟨acc', h2, hp', ht'⟩ := ih acc1 (by rw [hp]; exact hci)
    refine ⟨acc', ?_, hp'.trans hp, ht'.trans ht⟩
    rw [List.foldlM_cons, h1]
    exact h2

theorem spec_cpu_load_congr (cfg : Config) (env : Env) (s s' : State) (pid j : Nat)
    (hrec : s'.od_cpu_dbs_info j = s.od_cpu_dbs_info j) (hpol : s'.policies = s.policies)
    (htun : s'.dbs_tuners_ins = s.dbs_tuners_ins) :
    spec_cpu_load cfg env s' pid j = spec_cpu_load cfg env s pid j := by
  unfold spec_cpu_load
  rw [hrec, hpol, htun]

/-- The sampling loop over a duplicate-free list of CPUs computes the maximum of
the contributions of the CPUs not skipped. -/
theorem foldlM_sample_max (cfg : Config) (env : Env) (s : State) (pid : Nat)
    (cpus : List Nat) (hnd : cpus.Nodup) :
    ∀ acc acc' : SampleAcc,
      (∀ j ∈ cpus, acc.s.od_cpu_dbs_info j = s.od_cpu_dbs_info j) →
      acc.s.policies = s.policies → acc.s.dbs_tuners_ins = s.dbs_tuners_ins →
      cpus.foldlM (dbs_sample_cpu cfg env pid) acc = some acc' →
      acc'.max_load_freq
        = (cpus.filterMap (spec_cpu_load cfg env s pid)).foldl max acc.max_load_freq := by
  induction cpus with
  | nil =>
    intro acc acc' _ _ _ h
    simp only [List.foldlM_nil, Option.pure_def, Option.some.injEq] at h
    rw [← h]
    rfl
  | cons j js ih =>
    intro acc acc' hrec hpol htun h
    rw [List.foldlM_cons] at h
    cases h1 : dbs_sample_cpu cfg env pid acc j with
    | none => simp [h1] at h
    | some acc1 =>
      simp only [h1, Option.bind_eq_bind, Option.some_bind] at h
      have hnd' : js.Nodup := (List.nodup_cons.mp hnd).2
      have hjn : j ∉ js := (List.nodup_cons.mp hnd).1
      -- what the iteration did, read off from the three ways it can return
      have hstep : acc1.s.policies = acc.s.policies ∧
          acc1.s.dbs_tuners_ins = acc.s.dbs_tuners_ins ∧
          (∀ k, k ≠ j → acc1.s.od_cpu_dbs_info k = acc.s.od_cpu_dbs_info k) ∧
          acc1.max_load_freq =
            (match spec_cpu_load cfg env acc.s pid j with
              | none => acc.max_load_freq
              | some v => max acc.max_load_freq v) := by
        by_cases hci : (acc.s.policies pid).cpuinfo_max_freq = 0
        · -- with a zero `cpuinfo.max_freq` the iteration returned, so the CPU was skipped
          unfold dbs_sample_cpu at h1
          unfold spec_cpu_load
          dsimp only at h1 ⊢
          revert h1
          generalize dbs_sample_read cfg env acc.s.dbs_tuners_ins.ignore_nice
            (acc.s.od_cpu_dbs_info j) j = r
          intro h1
          by_cases hd : r.deep_sleep = true
          · rw [if_pos hd] at h1
            rw [if_pos (Or.inl hd)]
            simp only [Option.some.injEq] at h1
            rw [← h1]
            exact ⟨rfl, rfl, fun k hk => set_info_other _ _ _ _ hk, rfl⟩
          · by_cases hw : r.wall_time = 0 ∨ r.wall_time < r.idle_time
            · rw [if_neg hd, if_pos hw] at h1
              rw [if_pos (Or.inr hw)]
              simp only [Option.some.injEq] at h1
              rw [← h1]
              exact ⟨rfl, rfl, fun k hk => set_info_other _ _ _ _ hk, rfl⟩
            · have hw0 : ¬ r.wall_time = 0 := fun e => hw (Or.inl e)
              rw [if_neg hd, if_neg hw, if_neg hw0] at h1
              dsimp only at h1
              unfold udiv at h1
              rw [if_pos hci] at h1
              simp at h1
        · obtain ⟨acc1', e, a, b, c, d⟩ := sample_cpu_result cfg env pid acc j hci
          rw [h1] at e
          simp only [Option.some.injEq] at e
          rw [e]
          exact ⟨a, b, c, d⟩
      obtain ⟨hp1, ht1, ho1, hm1⟩ := hstep
      have hcongr : spec_cpu_load cfg env acc.s pid j = spec_cpu_load cfg env s pid j :=
        spec_cpu_load_congr cfg env s acc.s pid j (hrec j (List.mem_cons_self _ _)) hpol htun
      rw [hcongr] at hm1
      have hih := ih hnd' acc1 acc'
        (fun k hk => by
          have hkj : k ≠ j := fun e => hjn (e ▸ hk)
          rw [ho1 k hkj]
          exact hrec k (List.mem_cons_of_mem _ hk))
        (hp1.trans hpol) (ht1.trans htun) h
      rw [hih, hm1]
      cases hv : spec_cpu_load cfg env s pid j with
      | none => simp [List.filterMap_cons, hv]
      | some v => simp [List.filterMap_cons, hv]

/-! ### C18 -/

/-- C18 (as stated, refuted): the contribution of a CPU is not always the
product `load_percent * freq_avg`.  With a fully busy CPU (`load_percent = 100`)
and a driver estimate of 50000000 kHz the loop leaves `max_load_freq = 705032704`,
which is `100 * 50000000` reduced modulo 2^32, not the product 5000000000. -/
theorem aggregated_load_wraps :
    (dbs_sample (ex_cfg false)
        { ex_env (fun _ => (0, 100000)) with driver_getavg := fun _ _ => 50000000 }
        (ex_state_sampled ex_tuners (ex_policy 200000 100000 1000000)) 0).map
      (fun acc => acc.max_load_freq) = some 705032704 ∧
    cur_load_of 100000 0 = 100 ∧
    (100 * 50000000 : Nat) = 5000000000 ∧
    (5000000000 : Nat) % 2 ^ 32 = 705032704 := by
  refine ⟨by rfl, by rfl, by norm_num, by norm_num⟩

/-- C18 (amended): for a policy whose CPU set lists every CPU once, whenever the
sampling loop of `dbs_check_cpu` completes, the load the decision is made
against is the maximum, over the CPUs of the set that are not skipped (not
deep-sleep flagged, `wall_delta ≠ 0`, `idle_delta ≤ wall_delta`), of
`(load_percent * freq_avg) mod 2^32`, with `freq_avg` the driver's estimate
replaced by `policy.cur` when the estimate is `≤ 0`; the decision step is run on
exactly this value.  The loop completes whenever `cpuinfo.max_freq ≠ 0`, and
the maximum is 0 when every CPU of the set is skipped. -/
theorem aggregated_load_is_max (cfg : Config) (env : Env) (s : State) (this_cpu pid : Nat)
    (hpol : (s.od_cpu_dbs_info this_cpu).cur_policy = some pid)
    (hnd : (s.policies pid).cpus.Nodup) :
    (∀ acc, dbs_sample cfg env s pid = some acc →
      acc.max_load_freq = spec_max_load cfg env s pid ∧
      dbs_check_cpu cfg env s this_cpu =
        (dbs_check_cpu_decide cfg env acc.s this_cpu pid
          (spec_max_load cfg env s pid)).map Prod.snd) ∧
    ((s.policies pid).cpuinfo_max_freq ≠ 0 → ∃ acc, dbs_sample cfg env s pid = some acc) ∧
    ((∀ j ∈ (s.policies pid).cpus, spec_cpu_load cfg env s pid j = none) →
      spec_max_load cfg env s pid = 0) := by
  refine ⟨?_, ?_, ?_⟩
  · intro acc hacc
    have hmax : acc.max_load_freq = spec_max_load cfg env s pid := by
      unfold dbs_sample at hacc
      exact foldlM_sample_max cfg env s pid _ hnd _ acc (fun _ _ => rfl) rfl rfl hacc
    refine ⟨hmax, ?_⟩
    unfold dbs_check_cpu
    rw [hpol]
    dsimp only
    rw [hacc]
    dsimp only
    rw [hmax]
    cases dbs_check_cpu_decide cfg env acc.s this_cpu pid (spec_max_load cfg env s pid) <;> rfl
  · intro hci
    unfold dbs_sample
    obtain ⟨acc, h, -, -⟩ := foldlM_sample_total cfg env pid (s.policies pid).cpus
      { s := s, max_load_freq := 0, load_at_max_freq := 0 } hci
    exact ⟨acc, h⟩
  · intro hall
    unfold spec_max_load
    have : (s.policies pid).cpus.filterMap (spec_cpu_load cfg env s pid) = [] := by
      rw [List.filterMap_eq_nil_iff]
      exact hall
    rw [this]
    rfl

/-- C18 witness: a policy over CPUs 0 and 1 at 200000 kHz, CPU 0 at 30 % load and
CPU 1 at 50 % load: the loop completes and the decision is made against
`max (30 * 200000) (50 * 200000) = 10000000`, not against the sum 16000000. -/
theorem aggregated_load_is_max_witness :
    spec_cpu_load (ex_cfg false) (ex_env ex_counters_two)
      (ex_state_sampled ex_tuners (ex_policy_two 200000 100000 1000000)) 0 0 = some 6000000 ∧
    spec_cpu_load (ex_cfg false) (ex_env ex_counters_two)
      (ex_state_sampled ex_tuners (ex_policy_two 200000 100000 1000000)) 0 1 = some 10000000 ∧
    spec_max_load (ex_cfg false) (ex_env ex_counters_two)
      (ex_state_sampled ex_tuners (ex_policy_two 200000 100000 1000000)) 0 = 10000000 ∧
    (dbs_sample (ex_cfg false) (ex_env ex_counters_two)
        (ex_state_sampled ex_tuners (ex_policy_two 200000 100000 1000000)) 0).map
      (fun acc => acc.max_load_freq) = some 10000000 := by
  have h := aggregated_load_is_max (ex_cfg false) (ex_env ex_counters_two)
    (ex_state_sampled ex_tuners (ex_policy_two 200000 100000 1000000)) 0 0 rfl (by decide)
  obtain ⟨acc, hacc⟩ := h.2.1 (by decide)
  have hm := (h.1 acc hacc).1
  have hv : spec_max_load (ex_cfg false) (ex_env ex_counters_two)
      (ex_state_sampled ex_tuners (ex_policy_two 200000 100000 1000000)) 0 = 10000000 := by rfl
  refine ⟨by rfl, by rfl, hv, ?_⟩
  rw [hacc, Option.map_some', hm, hv]

/-! ### C19 -/

/-- C19 (refuted at a concrete input): with the default tunables
(`freq_for_responsiveness = 400000`) and a policy with `min = 100000`,
`cur = max = 200000`, a CPU at 25 % load gives the aggregated load 5000000.
The evaluation is not a raise, the lower path is taken, the candidate is floored
at `policy.min = 100000`, `5000000 / 100000 = 50` exceeds
`up_threshold_at_min_freq - down_differential`, and the governor requests
`freq_for_responsiveness = 400000`, which is above `policy.max = 200000`. -/
theorem request_above_policy_max :
    (dbs_check_cpu (ex_cfg false) (ex_env (fun _ => (75000, 100000)))
        (ex_state_sampled ex_tuners (ex_policy 200000 100000 200000)) 0).map
      (fun s => s.requests)
      = some [{ policy := 0, freq := 400000, relation := Relation.CPUFREQ_RELATION_L }] ∧
    (dbs_sample (ex_cfg false) (ex_env (fun _ => (75000, 100000)))
        (ex_state_sampled ex_tuners (ex_policy 200000 100000 200000)) 0).map
      (fun acc => acc.max_load_freq) = some 5000000 ∧
    (dbs_check_cpu_decide (ex_cfg false) (ex_env (fun _ => (75000, 100000)))
        (ex_state_sampled ex_tuners (ex_policy 200000 100000 200000)) 0 0 5000000).map
      (fun r => (r.1, r.2.requests))
      = some (Branch.lower,
          [{ policy := 0, freq := 400000, relation := Relation.CPUFREQ_RELATION_L }]) ∧
    (1 ≤ (ex_policy 200000 100000 200000).min ∧
      (ex_policy 200000 100000 200000).min ≤ (ex_policy 200000 100000 200000).cur ∧
      (ex_policy 200000 100000 200000).cur ≤ (ex_policy 200000 100000 200000).max) ∧
    TunableBounds (ex_state_sampled ex_tuners (ex_policy 200000 100000 200000)) ∧
    (ex_policy 200000 100000 200000).max < 400000 := by
  refine ⟨by rfl, by rfl, by rfl, by decide, ?_, by decide⟩
  unfold TunableBounds
  decide

/-! ### C20 -/

/-- The decision step returns for every load when `policy.min ≥ 1`: the divisor
`up_threshold - down_differential` is not zero on the lower path, and the
candidate is at least `policy.min`. -/
theorem decide_total (cfg : Config) (env : Env) (s : State) (this_cpu pid L : Nat)
    (hmin : 1 ≤ (s.policies pid).min) :
    ∃ r, dbs_check_cpu_decide cfg env s this_cpu pid L = some r := by
  by_cases hno : L > u32 ((if (s.policies pid).cur < s.dbs_tuners_ins.freq_for_responsiveness
        then s.dbs_tuners_ins.up_threshold_at_min_freq
        else s.dbs_tuners_ins.up_threshold) * (s.policies pid).cur)
  · obtain ⟨s', h⟩ := decide_raise cfg env s this_cpu pid L hno
    exact ⟨_, h⟩
  · by_cases hhm : cfg.arch_exynos = false ∧ (s.policies pid).cur = (s.policies pid).min
    · exact ⟨_, decide_hold_min cfg env s this_cpu pid L hno hhm⟩
    · by_cases hL : L < u32 (sub32 s.dbs_tuners_ins.up_threshold
          s.dbs_tuners_ins.down_differential * (s.policies pid).cur)
      · have hd := lower_cond_divisor_ne_zero s.dbs_tuners_ins (s.policies pid).cur L hL
        have hf := lower_freq_next_eq s.dbs_tuners_ins (s.policies pid).min L hd hmin
        exact ⟨_, decide_lower cfg env s this_cpu pid L _ hno hhm hL hf⟩
      · exact ⟨_, decide_hold cfg env s this_cpu pid L hno hhm hL⟩

/-- C20 (as stated, refuted): the sampling loop has a fourth division, by
`policy->cpuinfo.max_freq`, which no test guards.  With `policy.min = 100000`,
the default tunables and a CPU at 25 % load that is not skipped, a policy whose
`cpuinfo.max_freq` is 0 makes `dbs_check_cpu` divide by zero. -/
theorem scaled_load_divides_by_zero :
    dbs_check_cpu (ex_cfg false) (ex_env (fun _ => (75000, 100000)))
      (ex_state_sampled ex_tuners
        { ex_policy 200000 100000 200000 with cpuinfo_max_freq := 0 }) 0 = none ∧
    spec_cpu_load (ex_cfg false) (ex_env (fun _ => (75000, 100000)))
      (ex_state_sampled ex_tuners
        { ex_policy 200000 100000 200000 with cpuinfo_max_freq := 0 }) 0 0 = some 5000000 ∧
    udiv (u32 (cur_load_of 100000 75000 * 200000)) 0 = none ∧
    1 ≤ ({ ex_policy 200000 100000 200000 with cpuinfo_max_freq := 0 } : cpufreq_policy).min ∧
    TunableBounds (ex_state_sampled ex_tuners
      { ex_policy 200000 100000 200000 with cpuinfo_max_freq := 0 }) := by
  refine ⟨by rfl, by rfl, by rfl, by decide, ?_⟩
  unfold TunableBounds
  decide

/-- An iteration of the sampling loop faults in exactly one case: the CPU is not
skipped, so that `wall_time ≠ 0` and `idle_time ≤ wall_time`, and
`policy->cpuinfo.max_freq` is 0.  The division by `wall_time` never faults. -/
theorem sample_cpu_fault_iff (cfg : Config) (env : Env) (pid : Nat) (acc : SampleAcc) (j : Nat) :
    dbs_sample_cpu cfg env pid acc j = none ↔
      ((dbs_sample_read cfg env acc.s.dbs_tuners_ins.ignore_nice
          (acc.s.od_cpu_dbs_info j) j).deep_sleep = false ∧
        (dbs_sample_read cfg env acc.s.dbs_tuners_ins.ignore_nice
          (acc.s.od_cpu_dbs_info j) j).wall_time ≠ 0 ∧
        (dbs_sample_read cfg env acc.s.dbs_tuners_ins.ignore_nice
          (acc.s.od_cpu_dbs_info j) j).idle_time ≤
        (dbs_sample_read cfg env acc.s.dbs_tuners_ins.ignore_nice
          (acc.s.od_cpu_dbs_info j) j).wall_time ∧
        (acc.s.policies pid).cpuinfo_max_freq = 0) := by
  unfold dbs_sample_cpu
  dsimp only
  generalize dbs_sample_read cfg env acc.s.dbs_tuners_ins.ignore_nice
    (acc.s.od_cpu_dbs_info j) j = r
  by_cases hd : r.deep_sleep = true
  · rw [if_pos hd]
    constructor
    · intro h
      simp at h
    · rintro ⟨h, -⟩
      rw [hd] at h
      simp at h
  · by_cases hw : r.wall_time = 0 ∨ r.wall_time < r.idle_time
    · rw [if_neg hd, if_pos hw]
      constructor
      · intro h
        simp at h
      · rintro ⟨-, h0, hle, -⟩
        rcases hw with hw | hw
        · exact absurd hw h0
        · exact absurd hw (Nat.not_lt.mpr hle)
    · have hw0 : ¬ r.wall_time = 0 := fun e => hw (Or.inl e)
      have hle : r.idle_time ≤ r.wall_time := Nat.not_lt.mp (fun e => hw (Or.inr e))
      rw [if_neg hd, if_neg hw, if_neg hw0]
      dsimp only
      unfold udiv
      by_cases hci : (acc.s.policies pid).cpuinfo_max_freq = 0
      · rw [if_pos hci]
        exact ⟨fun _ => ⟨Bool.not_eq_true _ ▸ hd, hw0, hle, hci⟩, fun _ => rfl⟩
      · rw [if_neg hci]
        constructor
        · intro h
          simp at h
        · rintro ⟨-, -, -, h⟩
          exact absurd h hci

/-- C20 (amended): for every policy with `policy.min ≥ 1` and
`policy.cpuinfo.max_freq ≥ 1`, every counter input and every tunable setting
(in particular `down_differential ≥ up_threshold`), `dbs_check_cpu` returns
without dividing by zero.  The decision step returns for every load as soon as
`policy.min ≥ 1`: on the lower path `up_threshold - down_differential` (mod 2^32)
is not zero and the candidate `freq_next` is at least `policy.min`.  An iteration
of the sampling loop, from any record and any counters, faults only when the
CPU is not skipped (so `wall_time ≠ 0`) and `cpuinfo.max_freq` is 0: the
division by `wall_time` never has a zero divisor, and with
`cpuinfo.max_freq ≥ 1` every iteration returns. -/
theorem no_zero_divisor (cfg : Config) (env : Env) (s : State) (this_cpu pid : Nat)
    (hpol : (s.od_cpu_dbs_info this_cpu).cur_policy = some pid)
    (hmin : 1 ≤ (s.policies pid).min)
    (hci : 1 ≤ (s.policies pid).cpuinfo_max_freq) :
    (∃ s', dbs_check_cpu cfg env s this_cpu = some s') ∧
    (∀ L, ∃ r, dbs_check_cpu_decide cfg env s this_cpu pid L = some r) ∧
    (∀ L, L < u32 (sub32 s.dbs_tuners_ins.up_threshold s.dbs_tuners_ins.down_differential
          * (s.policies pid).cur) →
      sub32 s.dbs_tuners_ins.up_threshold s.dbs_tuners_ins.down_differential ≠ 0 ∧
      max (L / sub32 s.dbs_tuners_ins.up_threshold s.dbs_tuners_ins.down_differential)
        (s.policies pid).min ≠ 0 ∧
      ∃ f, lower_freq_next s.dbs_tuners_ins (s.policies pid).min L = some f) ∧
    (∀ (acc : SampleAcc) (j : Nat), dbs_sample_cpu cfg env pid acc j = none ↔
      ((dbs_sample_read cfg env acc.s.dbs_tuners_ins.ignore_nice
          (acc.s.od_cpu_dbs_info j) j).deep_sleep = false ∧
        (dbs_sample_read cfg env acc.s.dbs_tuners_ins.ignore_nice
          (acc.s.od_cpu_dbs_info j) j).wall_time ≠ 0 ∧
        (dbs_sample_read cfg env acc.s.dbs_tuners_ins.ignore_nice
          (acc.s.od_cpu_dbs_info j) j).idle_time ≤
        (dbs_sample_read cfg env acc.s.dbs_tuners_ins.ignore_nice
          (acc.s.od_cpu_dbs_info j) j).wall_time ∧
        (acc.s.policies pid).cpuinfo_max_freq = 0)) ∧
    (∀ (acc : SampleAcc) (j : Nat), acc.s.policies pid = s.policies pid →
      ∃ acc1, dbs_sample_cpu cfg env pid acc j = some acc1) := by
  refine ⟨?_, fun L => decide_total cfg env s this_cpu pid L hmin, ?_,
    fun acc j => sample_cpu_fault_iff cfg env pid acc j, ?_⟩
  · obtain ⟨acc, hacc, hp, -⟩ := foldlM_sample_total cfg env pid (s.policies pid).cpus
      { s := s, max_load_freq := 0, load_at_max_freq := 0 } (Nat.ne_of_gt hci)
    have hmin' : 1 ≤ (acc.s.policies pid).min := by
      rw [hp]
      exact hmin
    obtain ⟨r, hr⟩ := decide_total cfg env acc.s this_cpu pid acc.max_load_freq hmin'
    refine ⟨r.2, ?_⟩
    unfold dbs_check_cpu
    rw [hpol]
    dsimp only
    unfold dbs_sample
    rw [hacc]
    dsimp only
    rw [hr]
  · intro L hL
    have hd := lower_cond_divisor_ne_zero s.dbs_tuners_ins (s.policies pid).cur L hL
    refine ⟨hd, ?_, _, lower_freq_next_eq s.dbs_tuners_ins (s.policies pid).min L hd hmin⟩
    exact Nat.ne_of_gt (Nat.lt_of_lt_of_le hmin (le_max_right _ _))
  · intro acc j hp
    obtain ⟨acc1, h, -⟩ := sample_cpu_result cfg env pid acc j (by
      rw [hp]
      exact Nat.ne_of_gt hci)
    exact ⟨acc1, h⟩

/-- C20 witness: with `down_differential = 100 ≥ up_threshold = 82`, a policy with
`min = 100000`, `cur = 200000`, `cpuinfo.max_freq = 1000000`: the cycle returns
for a CPU at 25 % load, and it returns for a CPU whose wall clock has not moved
(`wall_time = 0`, not flagged as deep sleep, skipped by the test on `wall_time`). -/
theorem no_zero_divisor_witness :
    (1 ≤ (ex_policy 200000 100000 1000000).min ∧
      1 ≤ (ex_policy 200000 100000 1000000).cpuinfo_max_freq ∧
      (82 : Nat) ≤ 100) ∧
    (∃ s', dbs_check_cpu (ex_cfg false) (ex_env (fun _ => (75000, 100000)))
      (ex_state_sampled { ex_tuners with down_differential := 100 }
        (ex_policy 200000 100000 1000000)) 0 = some s') ∧
    (∃ s', dbs_check_cpu (ex_cfg false) (ex_env (fun _ => (0, 0)))
      (ex_state { ex_tuners with down_differential := 100 }
        (ex_policy 200000 100000 1000000)) 0 = some s') :=
  ⟨by decide,
    (no_zero_divisor (ex_cfg false) (ex_env (fun _ => (75000, 100000)))
      (ex_state_sampled { ex_tuners with down_differential := 100 }
        (ex_policy 200000 100000 1000000)) 0 0 rfl (by decide) (by decide)).1,
    (no_zero_divisor (ex_cfg false) (ex_env (fun _ => (0, 0)))
      (ex_state { ex_tuners with down_differential := 100 }
        (ex_policy 200000 100000 1000000)) 0 0 rfl (by decide) (by decide)).1⟩

/-! ### C21 -/

/-- The interval is at least one tick whenever the 32-bit product
`sampling_rate * rate_mult` is not zero and `usecs_to_jiffies` rounds up; this
is the case when both factors are at least 1 and the product is below 2^32. -/
theorem dbs_interval_pos (cfg : Config) (s : State) (idx : Nat)
    (hround : ∀ u, 1 ≤ u → 1 ≤ u32 (cfg.usecs_to_jiffies u)) :
    (u32 (s.dbs_tuners_ins.sampling_rate * (s.od_cpu_dbs_info idx).rate_mult) ≠ 0 →
      1 ≤ dbs_interval cfg s idx) ∧
    (1 ≤ s.dbs_tuners_ins.sampling_rate → 1 ≤ (s.od_cpu_dbs_info idx).rate_mult →
      s.dbs_tuners_ins.sampling_rate * (s.od_cpu_dbs_info idx).rate_mult < U32 →
      1 ≤ dbs_interval cfg s idx) := by
  have h1 : u32 (s.dbs_tuners_ins.sampling_rate * (s.od_cpu_dbs_info idx).rate_mult) ≠ 0 →
      1 ≤ dbs_interval cfg s idx := by
    intro h
    unfold dbs_interval
    exact hround _ (Nat.one_le_iff_ne_zero.mpr h)
  refine ⟨h1, fun ha hb hlt => h1 ?_⟩
  rw [u32_of_lt hlt]
  exact Nat.ne_of_gt (Nat.mul_pos ha hb)

/-- C21 (refuted at concrete inputs).
(1) From module load: Start for a policy `cur = min = 700000`, `max = 1000000`
with two CPUs online; 65536 is written to `sampling_down_factor` and to
`sampling_rate` and both writes are accepted (65536 ≤ 100000, 65536 ≥ the floor
10000); the timer work runs once (the first sample is skipped).  In the state
reached the work of CPU 0 is queued, and in the next cycle CPU 0 is fully busy:
`dbs_check_cpu` raises to `policy.max` and sets `rate_mult = 65536`, the 32-bit
product `65536 * 65536` is 0, the interval is 0 ticks, and `do_dbs_timer`
divides by zero in `jiffies % delay`.
(2) After a Start that failed in `sysfs_create_group`, `dbs_enable` is 1 and
`sampling_rate` is still 0; the next Start skips the defaults, returns 0 with one
CPU online and queues the work with a first delay of 0 ticks; with two CPUs
online `dbs_timer_init` divides by zero. -/
theorem interval_zero_ticks :
    (Reachable (ex_cfg false) ex_wrap_sampled ∧
      (ex_wrap_sampled.od_cpu_dbs_info 0).work ≠ none ∧
      (ex_wrap_sampled.min_sampling_rate, ex_wrap_sampled.dbs_tuners_ins.sampling_rate,
        ex_wrap_sampled.dbs_tuners_ins.sampling_down_factor,
        (ex_wrap_sampled.od_cpu_dbs_info 0).rate_mult) = (10000, 65536, 65536, 1) ∧
      (store_sampling_down_factor (ex_env_two (fun _ => (0, 0)) 0) ex_wrap_started
        (some 65536) 5).1 = 5 ∧
      (store_sampling_rate
        (store_sampling_down_factor (ex_env_two (fun _ => (0, 0)) 0) ex_wrap_started
          (some 65536) 5).2 (some 65536) 5).1 = 5 ∧
      (dbs_check_cpu (ex_cfg false) (ex_env_two (fun _ => (0, 160000)) 28)
          ex_wrap_sampled 0).map
        (fun s => ((s.od_cpu_dbs_info 0).rate_mult,
          u32 (s.dbs_tuners_ins.sampling_rate * (s.od_cpu_dbs_info 0).rate_mult),
          dbs_interval (ex_cfg false) s 0)) = some (65536, 0, 0) ∧
      align_delay (ex_env_two (fun _ => (0, 160000)) 28) 0 = none ∧
      do_dbs_timer (ex_cfg false) (ex_env_two (fun _ => (0, 160000)) 28)
        ex_wrap_sampled 0 = none) ∧
    (Reachable (ex_cfg false) ex_failed_start ∧
      (ex_failed_start.dbs_enable, ex_failed_start.dbs_tuners_ins.sampling_rate) = (1, 0) ∧
      (cpufreq_governor_dbs (ex_cfg false) (ex_env (fun _ => (0, 0))) ex_failed_start 0
          Event.CPUFREQ_GOV_START).map
        (fun r => (r.1, r.2.dbs_tuners_ins.sampling_rate,
          ((r.2.od_cpu_dbs_info 0).work).map (fun w => w.delay))) = some (0, 0, some 0) ∧
      cpufreq_governor_dbs (ex_cfg false) (ex_env_two (fun _ => (0, 0)) 0) ex_failed_start 0
        Event.CPUFREQ_GOV_START = none) := by
  have hstart : cpufreq_governor_dbs (ex_cfg false) (ex_env_two (fun _ => (0, 0)) 0)
      (init_state fun _ => ex_policy 700000 700000 1000000) 0 Event.CPUFREQ_GOV_START
      = some (0, ex_wrap_started) := by rfl
  have hwork : (ex_wrap_tuned.od_cpu_dbs_info 0).work ≠ none := by
    intro h
    have hs : ((ex_wrap_tuned.od_cpu_dbs_info 0).work).isSome = true := by rfl
    rw [h] at hs
    exact absurd hs (by decide)
  have htimer : do_dbs_timer (ex_cfg false) (ex_env_two (fun _ => (0, 110000)) 14)
      ex_wrap_tuned 0 = some ex_wrap_sampled := by rfl
  have hreach : Reachable (ex_cfg false) ex_wrap_sampled :=
    Reachable.step
      (Reachable.step
        (Reachable.step
          (Reachable.step (Reachable.init _)
            (Step.governor (ex_env_two (fun _ => (0, 0)) 0) 0 Event.CPUFREQ_GOV_START 0 hstart))
          (Step.sampling_down_factor ex_wrap_started (ex_env_two (fun _ => (0, 0)) 0)
            (some 65536) 5))
        (Step.sampling_rate _ (some 65536) 5))
      (Step.timer (ex_env_two (fun _ => (0, 110000)) 14) 0 hwork htimer)
  have hwork2 : (ex_wrap_sampled.od_cpu_dbs_info 0).work ≠ none := by
    intro h
    have hs : ((ex_wrap_sampled.od_cpu_dbs_info 0).work).isSome = true := by rfl
    rw [h] at hs
    exact absurd hs (by decide)
  have hfail : cpufreq_governor_dbs (ex_cfg false)
      { ex_env (fun _ => (0, 0)) with sysfs_create_group := -12 }
      (init_state fun _ => ex_policy 700000 100000 1000000) 0 Event.CPUFREQ_GOV_START
      = some (-12, ex_failed_start) := by rfl
  have hreach2 : Reachable (ex_cfg false) ex_failed_start :=
    Reachable.step (Reachable.init _)
      (Step.governor { ex_env (fun _ => (0, 0)) with sysfs_create_group := -12 } 0
        Event.CPUFREQ_GOV_START (-12) hfail)
  refine ⟨⟨hreach, hwork2, by rfl, by rfl, by rfl, by rfl, by rfl, by rfl⟩,
    hreach2, by rfl, by rfl, by rfl⟩

end Neox
